import Mathlib

/-!
# rosserial client node core (`ros::NodeHandle_`, `ros::Publisher`)

A shallow embedding of `ros_lib/ros/node_handle.h` and `ros_lib/ros/publisher.h`.

Conventions of the embedding
* `int` members are mathematical integers (`Int`): `int` is taken to be wide
  enough (32 bits) for the sums formed inside one frame, at most `255 * 65541`;
  the running `checksum_` is overwritten at the topic-low byte, so what it
  accumulated before never reaches a checksum test.
  `total_receivers_` is only ever zeroed and incremented and is a `Nat`.
* `unsigned long` values are naturals reduced modulo `2 ^ ULONG_BITS`.
* C arrays are lists; an access outside the declared bound is undefined
  behaviour in C++ and is a `Fault` here.
* Pointers to user-owned publishers and receivers are addresses (`Nat`) into a
  `Heap`; a null pointer is `none`.
* `hardware_.read()` is the list of bytes it returns before its first negative
  result; `hardware_.time()` returns the same reading throughout one poll.
* Calls of `node_output_.publish` and of `MsgReceiver::receive` are recorded in
  the order they happen (`published`, `received`).
-/

namespace ros

/-- Template parameters of `NodeHandle_` together with the constants and codecs
that live in headers outside the two embedded files (`rosserial_ids.h`,
`TopicInfo.h`, `std_msgs/Time.h`) and the width of `unsigned long`. -/
structure Config where
  MAX_SUBSCRIBERS : Nat
  MAX_PUBLISHERS : Nat
  INPUT_SIZE : Nat
  ULONG_BITS : Nat
  TOPIC_PUBLISHERS : Int
  TOPIC_SUBSCRIBERS : Int
  ID_TIME : Int
  ID_PARAMETER_REQUEST : Int
  timeDeserialize : List Nat → Nat × Nat

/-- Modelled from the spec: `TOPIC_NEGOTIATION` is defined in `rosserial_ids.h`,
which is not among the sources; the spec fixes the negotiation id to 0. -/
def TOPIC_NEGOTIATION : Int := 0

def SYNC_SECONDS : Nat := 5

def STATE_FIRST_FF : Int := 0
def STATE_SECOND_FF : Int := 1
def STATE_TOPIC_L : Int := 2
def STATE_TOPIC_H : Int := 3
def STATE_SIZE_L : Int := 4
def STATE_SIZE_H : Int := 5
def STATE_MESSAGE : Int := 6
def STATE_CHECKSUM : Int := 7

def MSG_TIMEOUT : Nat := 20

/-- The modulus of `unsigned long` arithmetic. -/
def Config.ulongMod (cfg : Config) : Nat := 2 ^ cfg.ULONG_BITS

/-- Addition of two `unsigned long` values. -/
def uadd (cfg : Config) (a b : Nat) : Nat := (a + b) % cfg.ulongMod

/-- Subtraction of two `unsigned long` values. -/
def usub (cfg : Config) (a b : Nat) : Nat :=
  (a % cfg.ulongMod + (cfg.ulongMod - b % cfg.ulongMod)) % cfg.ulongMod

/-- Where a `NodeOutput_*` member points: `NULL` or the `node_output_` of the node. -/
inductive NodeOutputPtr where
  | null
  | ofNode
  deriving DecidableEq, Repr

/-- The members of `ros::Publisher`; `msg_` is the address of the bound message
and `msg_type_` what `msg_->getType()` returns. -/
structure Publisher where
  topic_name_ : String
  msg_ : Nat
  msg_type_ : String
  id_ : Int
  node_output_ : NodeOutputPtr
  deriving DecidableEq, Repr

/-- Constructor `Publisher(topic_name, msg)`. -/
def Publisher.mk0 (topic_name : String) (msg : Nat) (msg_type : String) : Publisher :=
  { topic_name_ := topic_name, msg_ := msg, msg_type_ := msg_type, id_ := 0,
    node_output_ := NodeOutputPtr.null }

/-- The members of `MsgReceiver` (base of subscribers and service servers) that
the node reads or writes. -/
structure MsgReceiver where
  topic_ : String
  msg_type_ : String
  id_ : Int
  node_output_ : NodeOutputPtr
  deriving DecidableEq, Repr

/-- User-owned endpoint objects, by address. -/
structure Heap where
  pubs : Nat → Publisher
  rcvs : Nat → MsgReceiver

/-- A message handed to the output encoder. -/
inductive OutMsg where
  | time (sec nsec : Nat)
  | topicInfo (topic_id : Int) (topic_name : String) (message_type : String)
  | bound (msg : Nat)
  | paramRequest (name : String)
  deriving DecidableEq, Repr

/-- Undefined behaviour: an array access outside the declared bound. -/
inductive Fault where
  | message_in_bounds
  | receivers_bounds
  deriving DecidableEq, Repr

/-- The members of `NodeHandle_` (with the `configured` flag of its
`node_output_`), the log of `node_output_.publish` calls and the log of
`receive` calls (address of the receiver, contents of `message_in`). -/
structure NodeHandle where
  configured_ : Bool
  published : List (Int × OutMsg)
  remote_time_ : Nat
  sec_offset : Nat
  nsec_offset : Nat
  message_in : List Nat
  publishers : List (Option Nat)
  receivers : List (Option Nat)
  state_ : Int
  remaining_data_bytes_ : Int
  topic_ : Int
  data_index_ : Int
  checksum_ : Int
  total_receivers_ : Nat
  last_sync_time : Nat
  last_sync_receive_time : Nat
  last_msg_timeout_time : Nat
  param_recieved : Bool
  req_param_resp : List Nat
  received : List (Nat × List Nat)
  deriving DecidableEq, Repr

/-- A node object with static storage duration before `initNode`: all members zero,
arrays of the declared sizes. -/
def NodeHandle.zero (cfg : Config) : NodeHandle :=
  { configured_ := false, published := [], remote_time_ := 0, sec_offset := 0,
    nsec_offset := 0, message_in := List.replicate cfg.INPUT_SIZE 0,
    publishers := List.replicate cfg.MAX_PUBLISHERS none,
    receivers := List.replicate cfg.MAX_SUBSCRIBERS none,
    state_ := 0, remaining_data_bytes_ := 0, topic_ := 0, data_index_ := 0,
    checksum_ := 0, total_receivers_ := 0, last_sync_time := 0,
    last_sync_receive_time := 0, last_msg_timeout_time := 0,
    param_recieved := false, req_param_resp := [], received := [] }

/-- The arrays have their declared sizes. -/
def NodeHandle.WF (cfg : Config) (s : NodeHandle) : Prop :=
  s.message_in.length = cfg.INPUT_SIZE ∧
  s.publishers.length = cfg.MAX_PUBLISHERS ∧
  s.receivers.length = cfg.MAX_SUBSCRIBERS

/-- Modelled from the spec: `NodeOutput::publish` (`node_output.h`) is not among the
sources; the spec's output encoder exposes `publish(topic_id, message)`, and the pair
it is handed is recorded here. -/
def nodeOutputPublish (id : Int) (msg : OutMsg) (s : NodeHandle) : NodeHandle :=
  { s with published := s.published ++ [(id, msg)] }

/-- `NodeHandle_::reset`. -/
def reset (s : NodeHandle) : NodeHandle :=
  { s with state_ := 0, remaining_data_bytes_ := 0, topic_ := 0, data_index_ := 0,
           checksum_ := 0 }

/-- `NodeHandle_::initNode` (`hardware_.init()` has no effect on the node members). -/
def initNode (s : NodeHandle) : NodeHandle :=
  reset { s with total_receivers_ := 0 }

/-- `NodeHandle_::registerReceiver`; the receiver object is at address `r`. -/
def registerReceiver (cfg : Config) (r : Nat) (s : NodeHandle) (h : Heap) :
    Bool × NodeHandle × Heap :=
  if s.total_receivers_ ≥ cfg.MAX_SUBSCRIBERS then (false, s, h)
  else
    (true,
     { s with receivers := s.receivers.set s.total_receivers_ (some r),
              total_receivers_ := s.total_receivers_ + 1 },
     { h with rcvs := Function.update h.rcvs r
                { h.rcvs r with id_ := 100 + (s.total_receivers_ : Int) } })

/-- `NodeHandle_::subscribe`. -/
def subscribe (cfg : Config) (r : Nat) (s : NodeHandle) (h : Heap) :
    Bool × NodeHandle × Heap :=
  registerReceiver cfg r s h

/-- The assignment `srv.node_output_ = &node_output_` for the server at address `r`. -/
def wireService (r : Nat) (h : Heap) : Heap :=
  { h with rcvs := Function.update h.rcvs r
             { h.rcvs r with node_output_ := NodeOutputPtr.ofNode } }

/-- `NodeHandle_::advertiseService`. -/
def advertiseService (cfg : Config) (r : Nat) (s : NodeHandle) (h : Heap) :
    Bool × NodeHandle × Heap :=
  registerReceiver cfg r s (wireService r h)

/-- The loop of `NodeHandle_::advertise`, from index `i` with `fuel` iterations left. -/
def advertiseFrom (cfg : Config) (p : Nat) (s : NodeHandle) (h : Heap) :
    Nat → Nat → Bool × NodeHandle × Heap
  | 0, _ => (false, s, h)
  | fuel + 1, i =>
    if s.publishers.getD i none = none then
      (true,
       { s with publishers := s.publishers.set i (some p) },
       { h with pubs := Function.update h.pubs p
                  { h.pubs p with id_ := (i : Int) + 100 + (cfg.MAX_SUBSCRIBERS : Int),
                                  node_output_ := NodeOutputPtr.ofNode } })
    else advertiseFrom cfg p s h fuel (i + 1)

/-- `NodeHandle_::advertise`; the publisher object is at address `p`. -/
def advertise (cfg : Config) (p : Nat) (s : NodeHandle) (h : Heap) :
    Bool × NodeHandle × Heap :=
  advertiseFrom cfg p s h cfg.MAX_PUBLISHERS 0

/-- `NodeHandle_::connected`. -/
def connected (s : NodeHandle) : Bool := s.configured_

/-- `NodeHandle_::requestSyncTime` with `hardware_.time()` reading `t`. -/
def requestSyncTime (cfg : Config) (t : Nat) (s : NodeHandle) : NodeHandle :=
  { nodeOutputPublish cfg.ID_TIME (OutMsg.time 0 0) s with remote_time_ := t }

/-- Modelled from the spec: `normalizeSecNSec` is defined outside the sources; the
spec says the pair is normalized so that the nanoseconds lie in `[0, 10^9)`, the
whole seconds being carried into `sec` (an `unsigned long`). -/
def normalizeSecNSec (cfg : Config) (sec nsec : Nat) : Nat × Nat :=
  (uadd cfg sec (nsec / 1000000000), nsec % 1000000000)

/-- `NodeHandle_::now` with `hardware_.time()` reading `ms`; the result is `(sec, nsec)`. -/
def now (cfg : Config) (ms : Nat) (s : NodeHandle) : Nat × Nat :=
  normalizeSecNSec cfg (uadd cfg (ms / 1000) s.sec_offset)
    (uadd cfg ((ms % 1000) * 1000000 % cfg.ulongMod) s.nsec_offset)

/-- `NodeHandle_::setNow` with `hardware_.time()` reading `ms`. -/
def setNow (cfg : Config) (ms : Nat) (new_now : Nat × Nat) (s : NodeHandle) : NodeHandle :=
  let so := usub cfg (usub cfg new_now.1 (ms / 1000)) 1
  let no := uadd cfg (usub cfg new_now.2 ((ms % 1000) * 1000000 % cfg.ulongMod)) 1000000000
  let n := normalizeSecNSec cfg so no
  { s with sec_offset := n.1, nsec_offset := n.2 }

/-- `NodeHandle_::syncTime` with `hardware_.time()` reading `t`. -/
def syncTime (cfg : Config) (t : Nat) (data : List Nat) (s : NodeHandle) : NodeHandle :=
  let offset := usub cfg t s.remote_time_
  let time := cfg.timeDeserialize data
  let sec := uadd cfg time.1 (offset / 1000)
  let nsec := uadd cfg time.2 ((offset % 1000) * 1000000 % cfg.ulongMod)
  { setNow cfg t (sec, nsec) s with last_sync_receive_time := t }

/-- The first loop of `negotiateTopics`: publishers from slot `i`. -/
def negotiatePublishers (cfg : Config) (h : Heap) (s : NodeHandle) : Nat → Nat → NodeHandle
  | 0, _ => s
  | fuel + 1, i =>
    match s.publishers.getD i none with
    | some p =>
      negotiatePublishers cfg h
        (nodeOutputPublish cfg.TOPIC_PUBLISHERS
          (OutMsg.topicInfo (h.pubs p).id_ (h.pubs p).topic_name_ (h.pubs p).msg_type_) s)
        fuel (i + 1)
    | none => s

/-- The second loop of `negotiateTopics`: receivers from slot `i`. -/
def negotiateReceivers (cfg : Config) (h : Heap) (s : NodeHandle) : Nat → Nat → NodeHandle
  | 0, _ => s
  | fuel + 1, i =>
    match s.receivers.getD i none with
    | some r =>
      negotiateReceivers cfg h
        (nodeOutputPublish cfg.TOPIC_SUBSCRIBERS
          (OutMsg.topicInfo (h.rcvs r).id_ (h.rcvs r).topic_ (h.rcvs r).msg_type_) s)
        fuel (i + 1)
    | none => s

/-- `NodeHandle_::negotiateTopics`. -/
def negotiateTopics (cfg : Config) (h : Heap) (s : NodeHandle) : NodeHandle :=
  let s1 := { s with configured_ := true }
  let s2 := negotiatePublishers cfg h s1 cfg.MAX_PUBLISHERS 0
  negotiateReceivers cfg h s2 cfg.MAX_SUBSCRIBERS 0

/-- The dispatch inside the `STATE_CHECKSUM` branch, taken when the checksum is valid. -/
def dispatch (cfg : Config) (h : Heap) (current_time : Nat) (s : NodeHandle) :
    Except Fault NodeHandle :=
  if s.topic_ = TOPIC_NEGOTIATION then
    let s1 := requestSyncTime cfg current_time s
    let s2 := negotiateTopics cfg h s1
    .ok { s2 with last_sync_time := current_time, last_sync_receive_time := current_time }
  else if s.topic_ = cfg.ID_TIME then
    .ok (syncTime cfg current_time s.message_in s)
  else if s.topic_ = cfg.ID_PARAMETER_REQUEST then
    .ok { s with req_param_resp := s.message_in, param_recieved := true }
  else if 0 ≤ s.topic_ - 100 ∧ s.topic_ - 100 < (cfg.MAX_SUBSCRIBERS : Int) then
    match s.receivers.getD (s.topic_ - 100).toNat none with
    | some r => .ok { s with received := s.received ++ [(r, s.message_in)] }
    | none => .ok s
  else .error Fault.receivers_bounds

/-- One iteration of the `while` loop of `spinOnce` for a byte `inputByte ≥ 0`.
The `%` of C++ truncates toward zero (`Int.tmod`). -/
def spinByte (cfg : Config) (h : Heap) (current_time : Nat) (inputByte : Nat)
    (s0 : NodeHandle) : Except Fault NodeHandle :=
  let s := { s0 with checksum_ := s0.checksum_ + (inputByte : Int) }
  if s.state_ = STATE_MESSAGE then
    if 0 ≤ s.data_index_ ∧ s.data_index_ < (cfg.INPUT_SIZE : Int) then
      let s1 := { s with message_in := s.message_in.set s.data_index_.toNat inputByte,
                         data_index_ := s.data_index_ + 1,
                         remaining_data_bytes_ := s.remaining_data_bytes_ - 1 }
      if s1.remaining_data_bytes_ = 0 then .ok { s1 with state_ := STATE_CHECKSUM }
      else .ok s1
    else .error Fault.message_in_bounds
  else if s.state_ = STATE_FIRST_FF then
    if inputByte = 0xff then
      .ok { s with state_ := s.state_ + 1,
                   last_msg_timeout_time := uadd cfg current_time MSG_TIMEOUT }
    else .ok s
  else if s.state_ = STATE_SECOND_FF then
    if inputByte = 0xff then .ok { s with state_ := s.state_ + 1 }
    else .ok { s with state_ := STATE_FIRST_FF }
  else if s.state_ = STATE_TOPIC_L then
    .ok { s with topic_ := (inputByte : Int), state_ := s.state_ + 1,
                 checksum_ := (inputByte : Int) }
  else if s.state_ = STATE_TOPIC_H then
    .ok { s with topic_ := s.topic_ + (inputByte : Int) * 256, state_ := s.state_ + 1 }
  else if s.state_ = STATE_SIZE_L then
    .ok { s with remaining_data_bytes_ := (inputByte : Int), data_index_ := 0,
                 state_ := s.state_ + 1 }
  else if s.state_ = STATE_SIZE_H then
    let s1 := { s with remaining_data_bytes_ := s.remaining_data_bytes_ + (inputByte : Int) * 256,
                       state_ := STATE_MESSAGE }
    if s1.remaining_data_bytes_ = 0 then .ok { s1 with state_ := STATE_CHECKSUM }
    else .ok s1
  else if s.state_ = STATE_CHECKSUM then
    if Int.tmod s.checksum_ 256 = 255 then
      match dispatch cfg h current_time s with
      | .ok s1 => .ok { s1 with state_ := STATE_FIRST_FF }
      | .error e => .error e
    else .ok { s with state_ := STATE_FIRST_FF }
  else .ok s

/-- The `while` loop of `spinOnce` over the bytes the hardware returns. -/
def drain (cfg : Config) (h : Heap) (current_time : Nat) :
    List Nat → NodeHandle → Except Fault NodeHandle
  | [], s => .ok s
  | b :: bs, s =>
    match spinByte cfg h current_time b s with
    | .ok s1 => drain cfg h current_time bs s1
    | .error e => .error e

/-- The liveness check at the top of `spinOnce`. -/
def livenessCheck (cfg : Config) (current_time : Nat) (s : NodeHandle) : NodeHandle :=
  if usub cfg current_time s.last_sync_receive_time > SYNC_SECONDS * 2200 then
    { s with configured_ := false }
  else s

/-- The message-timeout check of `spinOnce`. -/
def timeoutCheck (current_time : Nat) (s : NodeHandle) : NodeHandle :=
  if s.state_ ≠ STATE_FIRST_FF ∧ current_time > s.last_msg_timeout_time then
    { s with state_ := STATE_FIRST_FF }
  else s

/-- The periodic time-sync request at the bottom of `spinOnce`. -/
def resyncCheck (cfg : Config) (current_time : Nat) (s : NodeHandle) : NodeHandle :=
  if s.configured_ = true ∧ usub cfg current_time s.last_sync_time > SYNC_SECONDS * 500 then
    { requestSyncTime cfg current_time s with last_sync_time := current_time }
  else s

/-- `NodeHandle_::spinOnce`: `current_time` is the reading of `hardware_.time()`,
`input` the bytes `hardware_.read()` returns during this poll. -/
def spinOnce (cfg : Config) (h : Heap) (current_time : Nat) (input : List Nat)
    (s : NodeHandle) : Except Fault NodeHandle :=
  match drain cfg h current_time input (timeoutCheck current_time (livenessCheck cfg current_time s)) with
  | .ok s1 => .ok (resyncCheck cfg current_time s1)
  | .error e => .error e

/-- The default template arguments, 32-bit `unsigned long`, the reserved ids of the
rosserial host protocol and a little-endian `(sec, nsec)` time codec. -/
def defaultConfig : Config :=
  { MAX_SUBSCRIBERS := 25, MAX_PUBLISHERS := 25, INPUT_SIZE := 512, ULONG_BITS := 32,
    TOPIC_PUBLISHERS := 0, TOPIC_SUBSCRIBERS := 1, ID_TIME := 10, ID_PARAMETER_REQUEST := 6,
    timeDeserialize := fun d =>
      (d.getD 0 0 + 256 * d.getD 1 0 + 65536 * d.getD 2 0 + 16777216 * d.getD 3 0,
       d.getD 4 0 + 256 * d.getD 5 0 + 65536 * d.getD 6 0 + 16777216 * d.getD 7 0) }

/-- A heap of freshly constructed endpoints. -/
def freshHeap : Heap :=
  { pubs := fun _ => Publisher.mk0 "" 0 "",
    rcvs := fun _ => { topic_ := "", msg_type_ := "", id_ := 0,
                       node_output_ := NodeOutputPtr.null } }

/-- Successive stores `buf[k] = b0; buf[k+1] = b1; ...`. -/
def writeAt (buf : List Nat) : Nat → List Nat → List Nat
  | _, [] => buf
  | k, b :: bs => writeAt (buf.set k b) (k + 1) bs

/-- The default node after `initNode`. -/
def startNode : NodeHandle := initNode (NodeHandle.zero defaultConfig)

/-- The default node after `initNode` and one `subscribe` of the receiver at address 7. -/
def oneSubscriber : Bool × NodeHandle × Heap := subscribe defaultConfig 7 startNode freshHeap

/-- The public operations on a node that touch the registry or the parser. -/
inductive Op where
  | initNode
  | advertise (p : Nat)
  | subscribe (r : Nat)
  | advertiseService (r : Nat)
  | spinOnce (current_time : Nat) (input : List Nat)
  deriving DecidableEq, Repr

/-- A node, the user-owned endpoints, and the ids handed out by the successful
`advertise` calls (`pubIds`) and `subscribe`/`advertiseService` calls (`rcvIds`),
in call order. -/
structure Sys where
  node : NodeHandle
  heap : Heap
  pubIds : List Int
  rcvIds : List Int

/-- A zeroed node after `initNode`, with no id handed out yet. -/
def Sys.start (cfg : Config) (h : Heap) : Sys :=
  { node := initNode (NodeHandle.zero cfg), heap := h, pubIds := [], rcvIds := [] }

/-- One public operation. -/
def stepOp (cfg : Config) : Op → Sys → Except Fault Sys
  | Op.initNode, w => .ok { w with node := initNode w.node }
  | Op.advertise p, w =>
    let res := advertise cfg p w.node w.heap
    .ok { node := res.2.1, heap := res.2.2,
          pubIds := if res.1 = true then w.pubIds ++ [(res.2.2.pubs p).id_] else w.pubIds,
          rcvIds := w.rcvIds }
  | Op.subscribe r, w =>
    let res := subscribe cfg r w.node w.heap
    .ok { node := res.2.1, heap := res.2.2, pubIds := w.pubIds,
          rcvIds := if res.1 = true then w.rcvIds ++ [(res.2.2.rcvs r).id_] else w.rcvIds }
  | Op.advertiseService r, w =>
    let res := advertiseService cfg r w.node w.heap
    .ok { node := res.2.1, heap := res.2.2, pubIds := w.pubIds,
          rcvIds := if res.1 = true then w.rcvIds ++ [(res.2.2.rcvs r).id_] else w.rcvIds }
  | Op.spinOnce t input, w =>
    match spinOnce cfg w.heap t input w.node with
    | .ok n => .ok { w with node := n }
    | .error e => .error e

/-- A sequence of public operations. -/
def runOps (cfg : Config) : List Op → Sys → Except Fault Sys
  | [], w => .ok w
  | op :: ops, w =>
    match stepOp cfg op w with
    | .ok w1 => runOps cfg ops w1
    | .error e => .error e

/-- The operation does not register an endpoint object that already occupies a slot. -/
def opFresh (op : Op) (w : Sys) : Prop :=
  match op with
  | Op.advertise p => some p ∉ w.node.publishers
  | Op.subscribe r => some r ∉ w.node.receivers
  | Op.advertiseService r => some r ∉ w.node.receivers
  | _ => True

/-- No operation of the sequence registers an endpoint object that already occupies
a slot when the operation is called. -/
def freshOps (cfg : Config) : List Op → Sys → Prop
  | [], _ => True
  | op :: ops, w =>
    opFresh op w ∧
      match stepOp cfg op w with
      | .ok w1 => freshOps cfg ops w1
      | .error _ => True

/-- Slot `i` is the lowest-index empty slot among the first `n` slots of a table. -/
def lowestEmpty (tbl : List (Option Nat)) (n i : Nat) : Prop :=
  i < n ∧ tbl.getD i none = none ∧ ∀ j, j < i → tbl.getD j none ≠ none

/-- The populated slots of a table form a prefix. -/
def populatedPrefix (tbl : List (Option Nat)) : Prop :=
  ∀ i j, i ≤ j → tbl.getD i none = none → tbl.getD j none = none

/-- The registration contract in the words of the spec, for the result `res` of
registering the receiver at address `r` in node `s` with heap `h`: success iff the
receivers table has an empty slot; on success the lowest-index empty slot `i` holds
the receiver, its id is `100 + i`, and every other slot is unchanged; on a full table
the result is false and neither the table nor the receiver's id changes. -/
def registerContract (cfg : Config) (r : Nat) (s : NodeHandle) (h : Heap)
    (res : Bool × NodeHandle × Heap) : Prop :=
  (res.1 = true ↔ ∃ i, i < cfg.MAX_SUBSCRIBERS ∧ s.receivers.getD i none = none)
  ∧ (∀ i, lowestEmpty s.receivers cfg.MAX_SUBSCRIBERS i →
      res.2.1.receivers.getD i none = some r
      ∧ (res.2.2.rcvs r).id_ = 100 + (i : Int)
      ∧ (100 ≤ (res.2.2.rcvs r).id_ ∧ (res.2.2.rcvs r).id_ < 100 + (cfg.MAX_SUBSCRIBERS : Int))
      ∧ ∀ j, j ≠ i → res.2.1.receivers.getD j none = s.receivers.getD j none)
  ∧ ((∀ i, i < cfg.MAX_SUBSCRIBERS → s.receivers.getD i none ≠ none) →
      res.1 = false ∧ res.2.1.receivers = s.receivers
      ∧ (res.2.2.rcvs r).id_ = (h.rcvs r).id_)

/-- The receivers table is as `registerReceiver` leaves it: the first
`total_receivers_` slots are populated and all others are empty. -/
def receiversCounted (cfg : Config) (s : NodeHandle) : Prop :=
  s.receivers.length = cfg.MAX_SUBSCRIBERS
  ∧ s.total_receivers_ ≤ cfg.MAX_SUBSCRIBERS
  ∧ (∀ j, j < s.total_receivers_ → s.receivers.getD j none ≠ none)
  ∧ (∀ j, s.total_receivers_ ≤ j → s.receivers.getD j none = none)

/-- The registry members of a node. -/
def registryOf (s : NodeHandle) : List (Option Nat) × List (Option Nat) × Nat :=
  (s.publishers, s.receivers, s.total_receivers_)

/-- The result of a sequence of operations, or the initial system on a fault. -/
def runOrKeep (cfg : Config) (ops : List Op) (w : Sys) : Sys :=
  match runOps cfg ops w with
  | .ok w1 => w1
  | .error _ => w

/-- Every publisher id handed out so far belongs to a populated publisher slot, and
no id was handed out twice. -/
def pubIdsInv (cfg : Config) (w : Sys) : Prop :=
  w.node.publishers.length = cfg.MAX_PUBLISHERS
  ∧ w.pubIds.Nodup
  ∧ ∀ id, id ∈ w.pubIds → ∃ i, i < cfg.MAX_PUBLISHERS
      ∧ id = (i : Int) + 100 + (cfg.MAX_SUBSCRIBERS : Int)
      ∧ w.node.publishers.getD i none ≠ none

/-- Every receiver id handed out so far lies in the receiver id range. -/
def rcvRangeInv (cfg : Config) (w : Sys) : Prop :=
  ∀ id, id ∈ w.rcvIds → 100 ≤ id ∧ id < 100 + (cfg.MAX_SUBSCRIBERS : Int)

/-- Every receiver id handed out so far is below `100 + total_receivers_`, and no id
was handed out twice. -/
def rcvCountInv (w : Sys) : Prop :=
  w.rcvIds.Nodup ∧ ∀ id, id ∈ w.rcvIds → id < 100 + (w.node.total_receivers_ : Int)

/-- The registry invariant: both tables have their declared sizes, the populated
receiver slots are the first `total_receivers_`, the populated publisher slots form
a prefix, and the endpoint held in slot `i` carries the id of slot `i`. -/
def registryInv (cfg : Config) (w : Sys) : Prop :=
  w.node.publishers.length = cfg.MAX_PUBLISHERS
  ∧ receiversCounted cfg w.node
  ∧ populatedPrefix w.node.publishers
  ∧ (∀ i p, w.node.publishers.getD i none = some p →
      (w.heap.pubs p).id_ = 100 + (cfg.MAX_SUBSCRIBERS : Int) + (i : Int))
  ∧ (∀ i r, w.node.receivers.getD i none = some r →
      (w.heap.rcvs r).id_ = 100 + (i : Int))

/-- The topic ids handed to the dispatcher while the `while` loop of `spinOnce`
reads the given bytes: one entry for every byte taken in `STATE_CHECKSUM` with a
valid checksum, in arrival order. -/
def dispatchedTopics (cfg : Config) (h : Heap) (current_time : Nat) :
    List Nat → NodeHandle → List Int
  | [], _ => []
  | b :: bs, s =>
    (if s.state_ = STATE_CHECKSUM ∧ Int.tmod (s.checksum_ + (b : Int)) 256 = 255
      then [s.topic_] else [])
    ++ (match spinByte cfg h current_time b s with
        | .ok s1 => dispatchedTopics cfg h current_time bs s1
        | .error _ => [])

/-- Successive calls of `spinOnce`, each with its clock reading and the bytes it reads. -/
def runPolls (cfg : Config) (h : Heap) : List (Nat × List Nat) → NodeHandle →
    Except Fault NodeHandle
  | [], s => .ok s
  | p :: ps, s =>
    match spinOnce cfg h p.1 p.2 s with
    | .ok s1 => runPolls cfg h ps s1
    | .error e => .error e

/-- No poll of the sequence hands a negotiation frame to the dispatcher. -/
def pollsNoNegotiation (cfg : Config) (h : Heap) : List (Nat × List Nat) → NodeHandle → Prop
  | [], _ => True
  | p :: ps, s =>
    TOPIC_NEGOTIATION ∉
        dispatchedTopics cfg h p.1 p.2 (timeoutCheck p.1 (livenessCheck cfg p.1 s))
    ∧ match spinOnce cfg h p.1 p.2 s with
      | .ok s1 => pollsNoNegotiation cfg h ps s1
      | .error _ => True

/-- The node left by one `spinOnce`, or the node itself on a fault. -/
def pollOrKeep (cfg : Config) (h : Heap) (t : Nat) (input : List Nat) (s : NodeHandle) :
    NodeHandle :=
  match spinOnce cfg h t input s with
  | .ok s1 => s1
  | .error _ => s

/-- The default node with one subscriber after a poll at clock reading 1000 that
reads the negotiation frame `FF FF 00 00 00 00 FF`. -/
def negotiatedNode : NodeHandle :=
  pollOrKeep defaultConfig oneSubscriber.2.2 1000 [0xff, 0xff, 0, 0, 0, 0, 0xff]
    oneSubscriber.2.1

/-- The topic-info message `negotiateTopics` builds for the publisher at address `p`. -/
def publisherInfo (cfg : Config) (h : Heap) (p : Nat) : Int × OutMsg :=
  (cfg.TOPIC_PUBLISHERS,
   OutMsg.topicInfo (h.pubs p).id_ (h.pubs p).topic_name_ (h.pubs p).msg_type_)

/-- The topic-info message `negotiateTopics` builds for the receiver at address `r`. -/
def receiverInfo (cfg : Config) (h : Heap) (r : Nat) : Int × OutMsg :=
  (cfg.TOPIC_SUBSCRIBERS,
   OutMsg.topicInfo (h.rcvs r).id_ (h.rcvs r).topic_ (h.rcvs r).msg_type_)

/-- A table of `n` slots whose populated slots are the prefix holding `held`, in order. -/
def prefixTable (held : List Nat) (n : Nat) : List (Option Nat) :=
  held.map some ++ List.replicate (n - held.length) none

/-- The poll in the order the spec words it: stale-frame timeout check, drain of the
input through parser and dispatcher, then the liveness check and the resync
schedule on the state left by the drain. -/
def spinOnceSpecOrder (cfg : Config) (h : Heap) (current_time : Nat) (input : List Nat)
    (s : NodeHandle) : Except Fault NodeHandle :=
  match drain cfg h current_time input (timeoutCheck current_time s) with
  | .ok s1 => .ok (resyncCheck cfg current_time (livenessCheck cfg current_time s1))
  | .error e => .error e

/-- A valid time-sync frame for the default configuration (`ID_TIME = 10`), carrying
`sec = 10`, `nsec = 0`. -/
def timeReplyFrame : List Nat :=
  [0xff, 0xff, 10, 0, 8, 0, 10, 0, 0, 0, 0, 0, 0, 0, 227]

/-- What frame reassembly is judged by: the parser state (phase, topic so far,
remaining payload bytes, write index, running checksum, payload buffer) and the
receiver invocations so far, in arrival order. -/
def reassemblyView (s : NodeHandle) :
    (Int × Int × Int × Int × Int × List Nat) × List (Nat × List Nat) :=
  ((s.state_, s.topic_, s.remaining_data_bytes_, s.data_index_, s.checksum_, s.message_in),
   s.received)

/-- The members the receive loop's control flow and receiver calls depend on:
`reassemblyView` together with the receivers table. -/
def loopView (s : NodeHandle) :
    ((Int × Int × Int × Int × Int × List Nat) × List (Nat × List Nat)) × List (Option Nat) :=
  (reassemblyView s, s.receivers)

/-- Two outcomes of the receive loop agree: the same fault, or nodes with the same
`loopView`. -/
def sameOutcome (a b : Except Fault NodeHandle) : Prop :=
  match a, b with
  | .ok x, .ok y => loopView x = loopView y
  | .error e, .error f => e = f
  | _, _ => False

/-- No poll of the sequence is entered with a frame in progress and a clock reading
above the deadline stored at the frame's first sync byte. -/
def noStaleTimeout (cfg : Config) (h : Heap) : List (Nat × List Nat) → NodeHandle → Prop
  | [], _ => True
  | p :: ps, s =>
    ¬ (s.state_ ≠ STATE_FIRST_FF ∧ p.1 > s.last_msg_timeout_time)
    ∧ match spinOnce cfg h p.1 p.2 s with
      | .ok s1 => noStaleTimeout cfg h ps s1
      | .error _ => True

/-- The frame `FF FF 64 00 03 00 01 02 03 92` read by two polls, 10 ms apart. -/
def splitFramePolls : List (Nat × List Nat) :=
  [(1000, [0xff, 0xff, 0x64, 0, 3, 0, 1]), (1010, [2, 3, 0x92])]

/-- The loop of `NodeHandle_::requestParam` from its `k`-th iteration, with `fuel`
evaluations of the loop condition left; `none` means the loop is still running.
`clock` lists the successive readings of `hardware_.time()`: reading 0 is taken for
`end_time`, reading `2k+1` by the `k`-th `spinOnce`, reading `2k+2` by the test after
it; `inputs k` is what the `k`-th `spinOnce` reads. `end_time` is an `int` compared
with an `unsigned long`, which compares the reading itself as long as it is below
`2^31`. -/
def requestParamLoop (cfg : Config) (h : Heap) (clock : Nat → Nat) (inputs : Nat → List Nat)
    (end_time : Nat) : Nat → Nat → NodeHandle → Option (Except Fault (Bool × NodeHandle))
  | 0, _, _ => none
  | fuel + 1, k, s =>
    if s.param_recieved = true then some (.ok (true, s))
    else
      match spinOnce cfg h (clock (2 * k + 1)) (inputs k) s with
      | .error e => some (.error e)
      | .ok s1 =>
        if end_time > clock (2 * k + 2) then some (.ok (false, s1))
        else requestParamLoop cfg h clock inputs end_time fuel (k + 1) s1

set_option linter.unusedVariables false in
/-- `NodeHandle_::requestParam(name, time_out)`; the body never reads `time_out`. -/
def requestParam (cfg : Config) (h : Heap) (clock : Nat → Nat) (inputs : Nat → List Nat)
    (name : String) (time_out : Int) (fuel : Nat) (s : NodeHandle) :
    Option (Except Fault (Bool × NodeHandle)) :=
  requestParamLoop cfg h clock inputs (clock 0) fuel 0
    (nodeOutputPublish cfg.ID_PARAMETER_REQUEST (OutMsg.paramRequest name)
      { s with param_recieved := false })

/-- Modelled from the spec: `rosserial_msgs::RequestParamResponse` is declared in
`RequestParam.h`, which is not among the sources; the spec speaks of the response's
arrays of ints, floats and strings and of their lengths; `ints_length`,
`floats_length` and `strings_length` are the lengths of the three lists. A float is
kept as its bit pattern. -/
structure RequestParamResponse where
  ints : List Int
  floats : List Nat
  strings : List String
  deriving DecidableEq, Repr

/-- The copy loop of `getParam`: `for (i = i0; i < i0 + n; i++) param[i] = src[i]`;
the caller's array `param` has to hold the copied elements. -/
def copyLoop {α : Type} (src : List α) : Nat → Nat → List α → List α
  | 0, _, param => param
  | n + 1, i, param =>
    match src[i]? with
    | some v => copyLoop src n (i + 1) (param.set i v)
    | none => copyLoop src n (i + 1) param

/-- The body of `NodeHandle_::getParam` after the call of `requestParam`, which
returned `received`: `resp` is the array of the requested type in `req_param_resp`,
`resp.length` its `..._length` member. -/
def getParamCopy {α : Type} (resp : List α) (received : Bool) (param : List α)
    (length : Int) : Bool × List α :=
  if received = true then
    if length = (resp.length : Int) then (true, copyLoop resp length.toNat 0 param)
    else (false, param)
  else (false, param)

/-- `NodeHandle_::getParam(name, int* param, length)`: `rp` is what `requestParam(name)`
returned and the node it left, `decode` the codec of the parameter response. -/
def getParamInt (decode : List Nat → RequestParamResponse) (rp : Bool × NodeHandle)
    (param : List Int) (length : Int) : Bool × List Int :=
  getParamCopy (decode rp.2.req_param_resp).ints rp.1 param length

/-- `NodeHandle_::getParam(name, float* param, length)`. -/
def getParamFloat (decode : List Nat → RequestParamResponse) (rp : Bool × NodeHandle)
    (param : List Nat) (length : Int) : Bool × List Nat :=
  getParamCopy (decode rp.2.req_param_resp).floats rp.1 param length

/-- `NodeHandle_::getParam(name, char** param, length)`; `strcpy` overwrites the
caller's `i`-th string with the response's. -/
def getParamString (decode : List Nat → RequestParamResponse) (rp : Bool × NodeHandle)
    (param : List String) (length : Int) : Bool × List String :=
  getParamCopy (decode rp.2.req_param_resp).strings rp.1 param length

set_option linter.unusedVariables false in
/-- `Publisher::publish(msg)`: `encoderPublish` is `NodeOutput_::publish` of the
encoder `node_output_` points to, acting on the encoder state `out`; a null
`node_output_` cannot be dereferenced (`none`). -/
def Publisher.publish {σ : Type} (encoderPublish : Int → Nat → σ → Int × σ)
    (self : Publisher) (msg : Nat) (out : σ) : Option (Int × σ) :=
  match self.node_output_ with
  | NodeOutputPtr.null => none
  | NodeOutputPtr.ofNode => some (encoderPublish self.id_ self.msg_ out)

/-- `NodeHandle_::getParam(name, int* param, length)` as a whole: the call of
`requestParam(name)` with its default `time_out = 1000`, then the length check and
the copy. -/
def getParam (cfg : Config) (h : Heap) (clock : Nat → Nat) (inputs : Nat → List Nat)
    (decode : List Nat → RequestParamResponse) (name : String) (param : List Int)
    (length : Int) (fuel : Nat) (s : NodeHandle) :
    Option (Except Fault ((Bool × List Int) × NodeHandle)) :=
  match requestParam cfg h clock inputs name 1000 fuel s with
  | none => none
  | some (.error e) => some (.error e)
  | some (.ok rp) => some (.ok (getParamInt decode rp param length, rp.2))

/-- The length check of `getParam` in the words of the spec, for the result `res` of
a call with requested count `n` and caller's array `param`, the response's array of
the requested type being `resp`: the result is true iff the response's array length
equals `n`; when it is true the first `n` elements of the caller's array are the
response's first `n` elements, in order, and the rest of the array is untouched; when
the lengths differ the result is false and the caller's array is unchanged. -/
def lengthCheckContract {α : Type} (resp : List α) (n : Int) (param : List α)
    (res : Bool × List α) : Prop :=
  (res.1 = true ↔ (resp.length : Int) = n)
  ∧ (res.1 = true → n.toNat ≤ param.length →
      res.2.take n.toNat = resp.take n.toNat ∧ res.2.drop n.toNat = param.drop n.toNat)
  ∧ ((resp.length : Int) ≠ n → res = (false, param))

/-! ## Frame parser -/

theorem writeAt_length (P : List Nat) : ∀ (buf : List Nat) (k : Nat),
    (writeAt buf k P).length = buf.length := by
  induction P with
  | nil => intro buf k; rfl
  | cons b bs ih => intro buf k; simp [writeAt, ih]

theorem take_succ_set : ∀ (buf : List Nat) (k b : Nat), k < buf.length →
    (buf.set k b).take (k + 1) = buf.take k ++ [b] := by
  intro buf
  induction buf with
  | nil => intro k b hk; simp at hk
  | cons a as ih =>
    intro k b hk
    cases k with
    | zero => simp
    | succ n =>
      simp only [List.length_cons] at hk
      simp [List.set, List.take, ih n b (by omega)]

theorem writeAt_take (P : List Nat) : ∀ (buf : List Nat) (k : Nat),
    k + P.length ≤ buf.length → (writeAt buf k P).take (k + P.length) = buf.take k ++ P := by
  induction P with
  | nil => intro buf k _; simp [writeAt]
  | cons b bs ih =>
    intro buf k hk
    simp only [List.length_cons] at hk
    have h1 : k + 1 + bs.length ≤ (buf.set k b).length := by simp; omega
    have h2 := ih (buf.set k b) (k + 1) h1
    have h3 : k + (b :: bs).length = k + 1 + bs.length := by simp; omega
    rw [writeAt, h3, h2]
    have hk2 : k < buf.length := by omega
    rw [take_succ_set buf k b hk2]
    simp

theorem drain_append (cfg : Config) (h : Heap) (t : Nat) (xs ys : List Nat) :
    ∀ s, drain cfg h t (xs ++ ys) s
      = match drain cfg h t xs s with
        | .ok s1 => drain cfg h t ys s1
        | .error e => .error e := by
  induction xs with
  | nil => intro s; rfl
  | cons b bs ih =>
    intro s
    simp only [List.cons_append, drain]
    cases hb : spinByte cfg h t b s with
    | error e => rfl
    | ok s1 => simpa using ih s1

theorem drain_payload (cfg : Config) (h : Heap) (t : Nat) (bs : List Nat) :
    ∀ (b : Nat) (s : NodeHandle) (k : Nat), s.state_ = STATE_MESSAGE →
      s.remaining_data_bytes_ = ((bs.length + 1 : Nat) : Int) → s.data_index_ = (k : Int) →
      k + bs.length + 1 ≤ cfg.INPUT_SIZE →
      drain cfg h t (b :: bs) s = .ok
        { s with checksum_ := s.checksum_ + (((b :: bs).sum : Nat) : Int),
                 message_in := writeAt s.message_in k (b :: bs),
                 data_index_ := ((k + bs.length + 1 : Nat) : Int),
                 remaining_data_bytes_ := 0,
                 state_ := STATE_CHECKSUM } := by
  induction bs with
  | nil =>
    intro b s k hst hrem hidx hk
    have hk2 : (k : Int) < (cfg.INPUT_SIZE : Int) := by omega
    simp [drain, spinByte, hst, hrem, hidx, hk2, writeAt]
  | cons c cs ih =>
    intro b s k hst hrem hidx hk
    simp only [List.length_cons] at hk hrem
    have hk2 : (k : Int) < (cfg.INPUT_SIZE : Int) := by omega
    have hne : ((cs.length + 1 + 1 : Nat) : Int) - 1 ≠ 0 := by omega
    rw [drain]
    simp only [spinByte, hst, hrem, hidx, hk2, hne, if_true, if_false, and_self, Nat.cast_nonneg, true_and]
    rw [ih c _ (k + 1) rfl (by simp) (by simp) (by omega)]
    simp only [Int.toNat_ofNat, writeAt, List.sum_cons, List.length_cons, Except.ok.injEq,
      NodeHandle.mk.injEq, true_and, and_true]
    refine ⟨?_, ?_⟩
    · push_cast; omega
    · push_cast; omega

theorem drain_header (cfg : Config) (h : Heap) (t : Nat) (tlo thi llo lhi : Nat)
    (s : NodeHandle) (hs : s.state_ = STATE_FIRST_FF) :
    drain cfg h t [0xff, 0xff, tlo, thi, llo, lhi] s = .ok
      { s with state_ := if (llo : Int) + (lhi : Int) * 256 = 0 then STATE_CHECKSUM else STATE_MESSAGE,
               last_msg_timeout_time := uadd cfg t MSG_TIMEOUT,
               topic_ := (tlo : Int) + (thi : Int) * 256,
               checksum_ := (tlo : Int) + (thi : Int) + (llo : Int) + (lhi : Int),
               remaining_data_bytes_ := (llo : Int) + (lhi : Int) * 256,
               data_index_ := 0 } := by
  simp only [drain, spinByte, hs, STATE_FIRST_FF, STATE_SECOND_FF, STATE_TOPIC_L, STATE_TOPIC_H,
    STATE_SIZE_L, STATE_SIZE_H, STATE_MESSAGE, STATE_CHECKSUM]
  by_cases hz : (llo : Int) + (lhi : Int) * 256 = 0 <;> simp [hz]

theorem drain_frame_body (cfg : Config) (h : Heap) (t : Nat) (tlo thi llo lhi : Nat)
    (P : List Nat) (s : NodeHandle) (hs : s.state_ = STATE_FIRST_FF)
    (hL : llo + 256 * lhi = P.length) (hmax : P.length ≤ cfg.INPUT_SIZE) :
    drain cfg h t ([0xff, 0xff, tlo, thi, llo, lhi] ++ P) s = .ok
      { s with state_ := STATE_CHECKSUM,
               last_msg_timeout_time := uadd cfg t MSG_TIMEOUT,
               topic_ := (tlo : Int) + (thi : Int) * 256,
               checksum_ := (tlo : Int) + (thi : Int) + (llo : Int) + (lhi : Int) + ((P.sum : Nat) : Int),
               remaining_data_bytes_ := 0,
               data_index_ := ((P.length : Nat) : Int),
               message_in := writeAt s.message_in 0 P } := by
  rw [drain_append, drain_header cfg h t tlo thi llo lhi s hs]
  have hLi : (llo : Int) + (lhi : Int) * 256 = ((P.length : Nat) : Int) := by
    rw [← hL]; push_cast; ring
  cases P with
  | nil =>
    simp only [List.length_nil, Nat.cast_zero] at hLi
    simp [drain, hLi, writeAt]
  | cons b bs =>
    simp only [List.length_cons] at hLi hmax
    have hne : ¬ ((llo : Int) + (lhi : Int) * 256 = 0) := by rw [hLi]; omega
    simp only [hne, if_false]
    rw [drain_payload cfg h t bs b _ 0 rfl (by simpa using hLi) (by simp) (by omega)]
    simp

theorem spinByte_checksum_valid (cfg : Config) (h : Heap) (t c : Nat) (s : NodeHandle)
    (hs : s.state_ = STATE_CHECKSUM) (hnn : 0 ≤ s.checksum_ + (c : Int))
    (hc : (s.checksum_ + (c : Int)) % 256 = 255) :
    spinByte cfg h t c s =
      match dispatch cfg h t { s with checksum_ := s.checksum_ + (c : Int) } with
      | .ok s1 => .ok { s1 with state_ := STATE_FIRST_FF }
      | .error e => .error e := by
  have hc' : Int.tmod (s.checksum_ + (c : Int)) 256 = 255 := by
    rw [Int.tmod_eq_emod hnn (by decide)]; exact hc
  simp [spinByte, hs, hc', STATE_FIRST_FF, STATE_SECOND_FF, STATE_TOPIC_L, STATE_TOPIC_H,
    STATE_SIZE_L, STATE_SIZE_H, STATE_MESSAGE, STATE_CHECKSUM]

theorem spinByte_checksum_invalid (cfg : Config) (h : Heap) (t c : Nat) (s : NodeHandle)
    (hs : s.state_ = STATE_CHECKSUM) (hnn : 0 ≤ s.checksum_ + (c : Int))
    (hc : (s.checksum_ + (c : Int)) % 256 ≠ 255) :
    spinByte cfg h t c s =
      .ok { s with checksum_ := s.checksum_ + (c : Int), state_ := STATE_FIRST_FF } := by
  have hc' : Int.tmod (s.checksum_ + (c : Int)) 256 ≠ 255 := by
    rw [Int.tmod_eq_emod hnn (by decide)]; exact hc
  simp [spinByte, hs, hc', STATE_FIRST_FF, STATE_SECOND_FF, STATE_TOPIC_L, STATE_TOPIC_H,
    STATE_SIZE_L, STATE_SIZE_H, STATE_MESSAGE, STATE_CHECKSUM]

theorem dispatch_receiver (cfg : Config) (h : Heap) (t i r : Nat) (s : NodeHandle)
    (htop : s.topic_ = 100 + (i : Int)) (hi : i < cfg.MAX_SUBSCRIBERS)
    (hr : s.receivers.getD i none = some r)
    (htime : cfg.ID_TIME < 100) (hparam : cfg.ID_PARAMETER_REQUEST < 100) :
    dispatch cfg h t s = .ok { s with received := s.received ++ [(r, s.message_in)] } := by
  have h1 : ¬ (100 + (i : Int) = TOPIC_NEGOTIATION) := by simp [TOPIC_NEGOTIATION]; omega
  have h2 : ¬ (100 + (i : Int) = cfg.ID_TIME) := by omega
  have h3 : ¬ (100 + (i : Int) = cfg.ID_PARAMETER_REQUEST) := by omega
  have h4 : (100 + (i : Int) - 100).toNat = i := by simp
  have h5 : (0 : Int) ≤ 100 + (i : Int) - 100 ∧ 100 + (i : Int) - 100 < (cfg.MAX_SUBSCRIBERS : Int) := by
    omega
  simp only [dispatch, htop, h1, h2, h3, h4, h5, if_false, if_true, and_self, hr]

theorem timeoutCheck_idle (t : Nat) (s : NodeHandle) (hs : s.state_ = STATE_FIRST_FF) :
    timeoutCheck t s = s := by
  simp [timeoutCheck, hs]

theorem drain_valid_frame (cfg : Config) (h : Heap) (t : Nat) (s : NodeHandle)
    (i r tlo thi llo lhi : Nat) (P : List Nat)
    (hs : s.state_ = STATE_FIRST_FF)
    (hi : i < cfg.MAX_SUBSCRIBERS) (hr : s.receivers.getD i none = some r)
    (hT : tlo + 256 * thi = 100 + i)
    (hL : llo + 256 * lhi = P.length) (hmax : P.length ≤ cfg.INPUT_SIZE)
    (htime : cfg.ID_TIME < 100) (hparam : cfg.ID_PARAMETER_REQUEST < 100) :
    drain cfg h t ([0xff, 0xff, tlo, thi, llo, lhi] ++ P
        ++ [255 - (tlo + thi + llo + lhi + P.sum) % 256]) s = .ok
      { s with state_ := STATE_FIRST_FF,
               last_msg_timeout_time := uadd cfg t MSG_TIMEOUT,
               topic_ := (tlo : Int) + (thi : Int) * 256,
               checksum_ := (tlo : Int) + (thi : Int) + (llo : Int) + (lhi : Int)
                 + ((P.sum : Nat) : Int)
                 + ((255 - (tlo + thi + llo + lhi + P.sum) % 256 : Nat) : Int),
               remaining_data_bytes_ := 0,
               data_index_ := ((P.length : Nat) : Int),
               message_in := writeAt s.message_in 0 P,
               received := s.received ++ [(r, writeAt s.message_in 0 P)] } := by
  have hck : ((tlo : Int) + (thi : Int) + (llo : Int) + (lhi : Int) + ((P.sum : Nat) : Int)
      + ((255 - (tlo + thi + llo + lhi + P.sum) % 256 : Nat) : Int)) % 256 = 255 := by
    omega
  have hTi : (tlo : Int) + (thi : Int) * 256 = 100 + (i : Int) := by omega
  rw [drain_append, drain_frame_body cfg h t tlo thi llo lhi P _ hs hL hmax]
  simp only [drain]
  rw [spinByte_checksum_valid cfg h t _ _ rfl (by simp only; omega) hck,
    dispatch_receiver cfg h t i r]
  · exact hTi
  · exact hi
  · exact hr
  · exact htime
  · exact hparam

/-- C1. Valid-frame delivery: from await-sync-1, one poll that reads a frame for
the populated receiver slot `i` (topic id `100 + i`), with a payload `P` of at most
`INPUT_SIZE` bytes and the checksum `255 - (sum of covered bytes mod 256)`, invokes
exactly that receiver once, on a buffer whose first `P.length` bytes are `P`, and
leaves the parser in await-sync-1. -/
theorem valid_frame_delivery (cfg : Config) (h : Heap) (t : Nat) (s : NodeHandle)
    (i r tlo thi llo lhi : Nat) (P : List Nat)
    (hs : s.state_ = STATE_FIRST_FF)
    (hbuf : s.message_in.length = cfg.INPUT_SIZE)
    (hi : i < cfg.MAX_SUBSCRIBERS) (hr : s.receivers.getD i none = some r)
    (hT : tlo + 256 * thi = 100 + i)
    (hL : llo + 256 * lhi = P.length) (hmax : P.length ≤ cfg.INPUT_SIZE)
    (htime : cfg.ID_TIME < 100) (hparam : cfg.ID_PARAMETER_REQUEST < 100) :
    ∃ s' buf,
      spinOnce cfg h t
          ([0xff, 0xff, tlo, thi, llo, lhi] ++ P
            ++ [255 - (tlo + thi + llo + lhi + P.sum) % 256]) s = .ok s'
        ∧ s'.received = s.received ++ [(r, buf)]
        ∧ buf.take P.length = P
        ∧ s'.state_ = STATE_FIRST_FF := by
  have hl : (livenessCheck cfg t s).state_ = STATE_FIRST_FF := by
    unfold livenessCheck; split <;> simp [hs]
  have hrecv : (livenessCheck cfg t s).receivers = s.receivers := by
    unfold livenessCheck; split <;> rfl
  have hrcvd : (livenessCheck cfg t s).received = s.received := by
    unfold livenessCheck; split <;> rfl
  have hmi : (livenessCheck cfg t s).message_in = s.message_in := by
    unfold livenessCheck; split <;> rfl
  have hd := drain_valid_frame cfg h t (livenessCheck cfg t s) i r tlo thi llo lhi P hl hi
    (by simpa [hrecv] using hr) hT hL hmax htime hparam
  obtain ⟨s1, hd1, hr1, hs1⟩ : ∃ s1,
      drain cfg h t ([0xff, 0xff, tlo, thi, llo, lhi] ++ P
          ++ [255 - (tlo + thi + llo + lhi + P.sum) % 256]) (livenessCheck cfg t s) = .ok s1
      ∧ s1.received = s.received ++ [(r, writeAt s.message_in 0 P)]
      ∧ s1.state_ = STATE_FIRST_FF :=
    ⟨_, hd, by simp [hrcvd, hmi], rfl⟩
  refine ⟨resyncCheck cfg t s1, writeAt s.message_in 0 P, ?_, ?_, ?_, ?_⟩
  · unfold spinOnce; rw [timeoutCheck_idle t _ hl, hd1]
  · unfold resyncCheck requestSyncTime nodeOutputPublish
    split <;> simp [hr1]
  · have := writeAt_take P s.message_in 0 (by omega)
    simpa using this
  · unfold resyncCheck requestSyncTime nodeOutputPublish
    split <;> simp [hs1]

theorem drain_bad_frame (cfg : Config) (h : Heap) (t : Nat) (s : NodeHandle)
    (tlo thi llo lhi c : Nat) (P : List Nat)
    (hs : s.state_ = STATE_FIRST_FF)
    (hL : llo + 256 * lhi = P.length) (hmax : P.length ≤ cfg.INPUT_SIZE)
    (hbad : (tlo + thi + llo + lhi + P.sum + c) % 256 ≠ 255) :
    drain cfg h t ([0xff, 0xff, tlo, thi, llo, lhi] ++ P ++ [c]) s = .ok
      { s with state_ := STATE_FIRST_FF,
               last_msg_timeout_time := uadd cfg t MSG_TIMEOUT,
               topic_ := (tlo : Int) + (thi : Int) * 256,
               checksum_ := (tlo : Int) + (thi : Int) + (llo : Int) + (lhi : Int)
                 + ((P.sum : Nat) : Int) + (c : Int),
               remaining_data_bytes_ := 0,
               data_index_ := ((P.length : Nat) : Int),
               message_in := writeAt s.message_in 0 P } := by
  have hck : ((tlo : Int) + (thi : Int) + (llo : Int) + (lhi : Int) + ((P.sum : Nat) : Int)
      + (c : Int)) % 256 ≠ 255 := by
    omega
  rw [drain_append, drain_frame_body cfg h t tlo thi llo lhi P _ hs hL hmax]
  simp only [drain]
  rw [spinByte_checksum_invalid cfg h t _ _ rfl (by simp only; omega) hck]

/-- C2. Bad checksum is dropped: when the receive loop, started in await-sync-1,
reads a frame (payload no longer than `INPUT_SIZE`) whose covered bytes plus
checksum byte do not sum to 255 modulo 256, it ends in await-sync-1 and nothing the
dispatcher touches has changed: no receiver call, no published message, the
connection flag, the parameter response, the clock offsets, the sync times and the
registry are as before. -/
theorem bad_checksum_dropped (cfg : Config) (h : Heap) (t : Nat) (s : NodeHandle)
    (tlo thi llo lhi c : Nat) (P : List Nat)
    (hs : s.state_ = STATE_FIRST_FF)
    (hL : llo + 256 * lhi = P.length) (hmax : P.length ≤ cfg.INPUT_SIZE)
    (hbad : (tlo + thi + llo + lhi + P.sum + c) % 256 ≠ 255) :
    ∃ s', drain cfg h t ([0xff, 0xff, tlo, thi, llo, lhi] ++ P ++ [c]) s = .ok s'
      ∧ s'.state_ = STATE_FIRST_FF
      ∧ s'.received = s.received
      ∧ s'.published = s.published
      ∧ s'.configured_ = s.configured_
      ∧ s'.param_recieved = s.param_recieved
      ∧ s'.req_param_resp = s.req_param_resp
      ∧ s'.sec_offset = s.sec_offset
      ∧ s'.nsec_offset = s.nsec_offset
      ∧ s'.remote_time_ = s.remote_time_
      ∧ s'.last_sync_time = s.last_sync_time
      ∧ s'.last_sync_receive_time = s.last_sync_receive_time
      ∧ s'.publishers = s.publishers
      ∧ s'.receivers = s.receivers
      ∧ s'.total_receivers_ = s.total_receivers_ := by
  exact ⟨_, drain_bad_frame cfg h t s tlo thi llo lhi c P hs hL hmax hbad,
    rfl, rfl, rfl, rfl, rfl, rfl, rfl, rfl, rfl, rfl, rfl, rfl, rfl, rfl⟩

set_option maxRecDepth 100000

theorem valid_frame_delivery_witness :
    ∃ s' buf,
      spinOnce defaultConfig oneSubscriber.2.2 1000
          ([0xff, 0xff, 100, 0, 3, 0] ++ [0xff, 0xff, 7]
            ++ [255 - (100 + 0 + 3 + 0 + [0xff, 0xff, 7].sum) % 256]) oneSubscriber.2.1 = .ok s'
        ∧ s'.received = oneSubscriber.2.1.received ++ [(7, buf)]
        ∧ buf.take [0xff, 0xff, 7].length = [0xff, 0xff, 7]
        ∧ s'.state_ = STATE_FIRST_FF :=
  valid_frame_delivery defaultConfig oneSubscriber.2.2 1000 oneSubscriber.2.1 0 7 100 0 3 0
    [0xff, 0xff, 7] rfl rfl (by decide) rfl rfl rfl (by decide) (by decide) (by decide)

theorem bad_checksum_dropped_witness :
    ∃ s', drain defaultConfig oneSubscriber.2.2 1000
        ([0xff, 0xff, 100, 0, 3, 0] ++ [1, 2, 3] ++ [0x93]) oneSubscriber.2.1 = .ok s'
      ∧ s'.state_ = STATE_FIRST_FF
      ∧ s'.received = oneSubscriber.2.1.received
      ∧ s'.published = oneSubscriber.2.1.published
      ∧ s'.configured_ = oneSubscriber.2.1.configured_
      ∧ s'.param_recieved = oneSubscriber.2.1.param_recieved
      ∧ s'.req_param_resp = oneSubscriber.2.1.req_param_resp
      ∧ s'.sec_offset = oneSubscriber.2.1.sec_offset
      ∧ s'.nsec_offset = oneSubscriber.2.1.nsec_offset
      ∧ s'.remote_time_ = oneSubscriber.2.1.remote_time_
      ∧ s'.last_sync_time = oneSubscriber.2.1.last_sync_time
      ∧ s'.last_sync_receive_time = oneSubscriber.2.1.last_sync_receive_time
      ∧ s'.publishers = oneSubscriber.2.1.publishers
      ∧ s'.receivers = oneSubscriber.2.1.receivers
      ∧ s'.total_receivers_ = oneSubscriber.2.1.total_receivers_ :=
  bad_checksum_dropped defaultConfig oneSubscriber.2.2 1000 oneSubscriber.2.1 100 0 3 0 0x93
    [1, 2, 3] rfl rfl (by decide) (by decide)

/-- C3. Oversized frames are not rejected at length-high: with `INPUT_SIZE = 512`
the header `FF FF 64 00 01 02` (length field 513) leaves the parser in the payload
state with 513 bytes expected, and the 513th payload byte is stored at index 512,
outside `message_in`. -/
theorem oversized_frame_enters_payload :
    (drain defaultConfig freshHeap 0 [0xff, 0xff, 0x64, 0x00, 0x01, 0x02] startNode).map
        (fun s => (s.state_, s.remaining_data_bytes_)) = .ok (STATE_MESSAGE, 513)
    ∧ drain defaultConfig freshHeap 0
        ([0xff, 0xff, 0x64, 0x00, 0x01, 0x02] ++ List.replicate 513 0) startNode
        = .error Fault.message_in_bounds := by
  constructor
  · rfl
  · rfl

/-- C4. Unknown topic ids are not all dropped: with `MAX_SUBSCRIBERS = 25` the
checksum-valid frames `FF FF 32 00 00 00 CD` (topic 50) and `FF FF 7D 00 00 00 82`
(topic 125) make the dispatcher read `receivers[-50]` and `receivers[25]`, outside
the table, while topic 101 (inside the range, slot empty) is dropped. -/
theorem unknown_topic_indexes_outside_table :
    drain defaultConfig freshHeap 0 [0xff, 0xff, 0x32, 0x00, 0x00, 0x00, 0xcd] startNode
        = .error Fault.receivers_bounds
    ∧ drain defaultConfig freshHeap 0 [0xff, 0xff, 0x7d, 0x00, 0x00, 0x00, 0x82] startNode
        = .error Fault.receivers_bounds
    ∧ (drain defaultConfig freshHeap 0 [0xff, 0xff, 0x65, 0x00, 0x00, 0x00, 0x9a] startNode).map
        (fun s => (s.state_, s.received, s.published)) = .ok (STATE_FIRST_FF, [], []) := by
  refine ⟨?_, ?_, ?_⟩
  · rfl
  · rfl
  · rfl

/-! ## Fields left alone by the checks around the receive loop -/

@[simp] theorem livenessCheck_published (cfg : Config) (t : Nat) (s : NodeHandle) :
    (livenessCheck cfg t s).published = s.published := by
  unfold livenessCheck; split <;> rfl

@[simp] theorem livenessCheck_remote_time_ (cfg : Config) (t : Nat) (s : NodeHandle) :
    (livenessCheck cfg t s).remote_time_ = s.remote_time_ := by
  unfold livenessCheck; split <;> rfl

@[simp] theorem livenessCheck_sec_offset (cfg : Config) (t : Nat) (s : NodeHandle) :
    (livenessCheck cfg t s).sec_offset = s.sec_offset := by
  unfold livenessCheck; split <;> rfl

@[simp] theorem livenessCheck_nsec_offset (cfg : Config) (t : Nat) (s : NodeHandle) :
    (livenessCheck cfg t s).nsec_offset = s.nsec_offset := by
  unfold livenessCheck; split <;> rfl

@[simp] theorem livenessCheck_message_in (cfg : Config) (t : Nat) (s : NodeHandle) :
    (livenessCheck cfg t s).message_in = s.message_in := by
  unfold livenessCheck; split <;> rfl

@[simp] theorem livenessCheck_publishers (cfg : Config) (t : Nat) (s : NodeHandle) :
    (livenessCheck cfg t s).publishers = s.publishers := by
  unfold livenessCheck; split <;> rfl

@[simp] theorem livenessCheck_receivers (cfg : Config) (t : Nat) (s : NodeHandle) :
    (livenessCheck cfg t s).receivers = s.receivers := by
  unfold livenessCheck; split <;> rfl

@[simp] theorem livenessCheck_state_ (cfg : Config) (t : Nat) (s : NodeHandle) :
    (livenessCheck cfg t s).state_ = s.state_ := by
  unfold livenessCheck; split <;> rfl

@[simp] theorem livenessCheck_remaining_data_bytes_ (cfg : Config) (t : Nat) (s : NodeHandle) :
    (livenessCheck cfg t s).remaining_data_bytes_ = s.remaining_data_bytes_ := by
  unfold livenessCheck; split <;> rfl

@[simp] theorem livenessCheck_topic_ (cfg : Config) (t : Nat) (s : NodeHandle) :
    (livenessCheck cfg t s).topic_ = s.topic_ := by
  unfold livenessCheck; split <;> rfl

@[simp] theorem livenessCheck_data_index_ (cfg : Config) (t : Nat) (s : NodeHandle) :
    (livenessCheck cfg t s).data_index_ = s.data_index_ := by
  unfold livenessCheck; split <;> rfl

@[simp] theorem livenessCheck_checksum_ (cfg : Config) (t : Nat) (s : NodeHandle) :
    (livenessCheck cfg t s).checksum_ = s.checksum_ := by
  unfold livenessCheck; split <;> rfl

@[simp] theorem livenessCheck_total_receivers_ (cfg : Config) (t : Nat) (s : NodeHandle) :
    (livenessCheck cfg t s).total_receivers_ = s.total_receivers_ := by
  unfold livenessCheck; split <;> rfl

@[simp] theorem livenessCheck_last_sync_time (cfg : Config) (t : Nat) (s : NodeHandle) :
    (livenessCheck cfg t s).last_sync_time = s.last_sync_time := by
  unfold livenessCheck; split <;> rfl

@[simp] theorem livenessCheck_last_sync_receive_time (cfg : Config) (t : Nat) (s : NodeHandle) :
    (livenessCheck cfg t s).last_sync_receive_time = s.last_sync_receive_time := by
  unfold livenessCheck; split <;> rfl

@[simp] theorem livenessCheck_last_msg_timeout_time (cfg : Config) (t : Nat) (s : NodeHandle) :
    (livenessCheck cfg t s).last_msg_timeout_time = s.last_msg_timeout_time := by
  unfold livenessCheck; split <;> rfl

@[simp] theorem livenessCheck_param_recieved (cfg : Config) (t : Nat) (s : NodeHandle) :
    (livenessCheck cfg t s).param_recieved = s.param_recieved := by
  unfold livenessCheck; split <;> rfl

@[simp] theorem livenessCheck_req_param_resp (cfg : Config) (t : Nat) (s : NodeHandle) :
    (livenessCheck cfg t s).req_param_resp = s.req_param_resp := by
  unfold livenessCheck; split <;> rfl

@[simp] theorem livenessCheck_received (cfg : Config) (t : Nat) (s : NodeHandle) :
    (livenessCheck cfg t s).received = s.received := by
  unfold livenessCheck; split <;> rfl

@[simp] theorem resyncCheck_configured_ (cfg : Config) (t : Nat) (s : NodeHandle) :
    (resyncCheck cfg t s).configured_ = s.configured_ := by
  unfold resyncCheck; split <;> rfl

@[simp] theorem resyncCheck_sec_offset (cfg : Config) (t : Nat) (s : NodeHandle) :
    (resyncCheck cfg t s).sec_offset = s.sec_offset := by
  unfold resyncCheck; split <;> rfl

@[simp] theorem resyncCheck_nsec_offset (cfg : Config) (t : Nat) (s : NodeHandle) :
    (resyncCheck cfg t s).nsec_offset = s.nsec_offset := by
  unfold resyncCheck; split <;> rfl

@[simp] theorem resyncCheck_message_in (cfg : Config) (t : Nat) (s : NodeHandle) :
    (resyncCheck cfg t s).message_in = s.message_in := by
  unfold resyncCheck; split <;> rfl

@[simp] theorem resyncCheck_publishers (cfg : Config) (t : Nat) (s : NodeHandle) :
    (resyncCheck cfg t s).publishers = s.publishers := by
  unfold resyncCheck; split <;> rfl

@[simp] theorem resyncCheck_receivers (cfg : Config) (t : Nat) (s : NodeHandle) :
    (resyncCheck cfg t s).receivers = s.receivers := by
  unfold resyncCheck; split <;> rfl

@[simp] theorem resyncCheck_state_ (cfg : Config) (t : Nat) (s : NodeHandle) :
    (resyncCheck cfg t s).state_ = s.state_ := by
  unfold resyncCheck; split <;> rfl

@[simp] theorem resyncCheck_remaining_data_bytes_ (cfg : Config) (t : Nat) (s : NodeHandle) :
    (resyncCheck cfg t s).remaining_data_bytes_ = s.remaining_data_bytes_ := by
  unfold resyncCheck; split <;> rfl

@[simp] theorem resyncCheck_topic_ (cfg : Config) (t : Nat) (s : NodeHandle) :
    (resyncCheck cfg t s).topic_ = s.topic_ := by
  unfold resyncCheck; split <;> rfl

@[simp] theorem resyncCheck_data_index_ (cfg : Config) (t : Nat) (s : NodeHandle) :
    (resyncCheck cfg t s).data_index_ = s.data_index_ := by
  unfold resyncCheck; split <;> rfl

@[simp] theorem resyncCheck_checksum_ (cfg : Config) (t : Nat) (s : NodeHandle) :
    (resyncCheck cfg t s).checksum_ = s.checksum_ := by
  unfold resyncCheck; split <;> rfl

@[simp] theorem resyncCheck_total_receivers_ (cfg : Config) (t : Nat) (s : NodeHandle) :
    (resyncCheck cfg t s).total_receivers_ = s.total_receivers_ := by
  unfold resyncCheck; split <;> rfl

@[simp] theorem resyncCheck_last_sync_receive_time (cfg : Config) (t : Nat) (s : NodeHandle) :
    (resyncCheck cfg t s).last_sync_receive_time = s.last_sync_receive_time := by
  unfold resyncCheck; split <;> rfl

@[simp] theorem resyncCheck_last_msg_timeout_time (cfg : Config) (t : Nat) (s : NodeHandle) :
    (resyncCheck cfg t s).last_msg_timeout_time = s.last_msg_timeout_time := by
  unfold resyncCheck; split <;> rfl

@[simp] theorem resyncCheck_param_recieved (cfg : Config) (t : Nat) (s : NodeHandle) :
    (resyncCheck cfg t s).param_recieved = s.param_recieved := by
  unfold resyncCheck; split <;> rfl

@[simp] theorem resyncCheck_req_param_resp (cfg : Config) (t : Nat) (s : NodeHandle) :
    (resyncCheck cfg t s).req_param_resp = s.req_param_resp := by
  unfold resyncCheck; split <;> rfl

@[simp] theorem resyncCheck_received (cfg : Config) (t : Nat) (s : NodeHandle) :
    (resyncCheck cfg t s).received = s.received := by
  unfold resyncCheck; split <;> rfl

@[simp] theorem timeoutCheck_configured_ (t : Nat) (s : NodeHandle) :
    (timeoutCheck t s).configured_ = s.configured_ := by
  unfold timeoutCheck; split <;> rfl

@[simp] theorem timeoutCheck_published (t : Nat) (s : NodeHandle) :
    (timeoutCheck t s).published = s.published := by
  unfold timeoutCheck; split <;> rfl

@[simp] theorem timeoutCheck_remote_time_ (t : Nat) (s : NodeHandle) :
    (timeoutCheck t s).remote_time_ = s.remote_time_ := by
  unfold timeoutCheck; split <;> rfl

@[simp] theorem timeoutCheck_sec_offset (t : Nat) (s : NodeHandle) :
    (timeoutCheck t s).sec_offset = s.sec_offset := by
  unfold timeoutCheck; split <;> rfl

@[simp] theorem timeoutCheck_nsec_offset (t : Nat) (s : NodeHandle) :
    (timeoutCheck t s).nsec_offset = s.nsec_offset := by
  unfold timeoutCheck; split <;> rfl

@[simp] theorem timeoutCheck_message_in (t : Nat) (s : NodeHandle) :
    (timeoutCheck t s).message_in = s.message_in := by
  unfold timeoutCheck; split <;> rfl

@[simp] theorem timeoutCheck_publishers (t : Nat) (s : NodeHandle) :
    (timeoutCheck t s).publishers = s.publishers := by
  unfold timeoutCheck; split <;> rfl

@[simp] theorem timeoutCheck_receivers (t : Nat) (s : NodeHandle) :
    (timeoutCheck t s).receivers = s.receivers := by
  unfold timeoutCheck; split <;> rfl

@[simp] theorem timeoutCheck_remaining_data_bytes_ (t : Nat) (s : NodeHandle) :
    (timeoutCheck t s).remaining_data_bytes_ = s.remaining_data_bytes_ := by
  unfold timeoutCheck; split <;> rfl

@[simp] theorem timeoutCheck_topic_ (t : Nat) (s : NodeHandle) :
    (timeoutCheck t s).topic_ = s.topic_ := by
  unfold timeoutCheck; split <;> rfl

@[simp] theorem timeoutCheck_data_index_ (t : Nat) (s : NodeHandle) :
    (timeoutCheck t s).data_index_ = s.data_index_ := by
  unfold timeoutCheck; split <;> rfl

@[simp] theorem timeoutCheck_checksum_ (t : Nat) (s : NodeHandle) :
    (timeoutCheck t s).checksum_ = s.checksum_ := by
  unfold timeoutCheck; split <;> rfl

@[simp] theorem timeoutCheck_total_receivers_ (t : Nat) (s : NodeHandle) :
    (timeoutCheck t s).total_receivers_ = s.total_receivers_ := by
  unfold timeoutCheck; split <;> rfl

@[simp] theorem timeoutCheck_last_sync_time (t : Nat) (s : NodeHandle) :
    (timeoutCheck t s).last_sync_time = s.last_sync_time := by
  unfold timeoutCheck; split <;> rfl

@[simp] theorem timeoutCheck_last_sync_receive_time (t : Nat) (s : NodeHandle) :
    (timeoutCheck t s).last_sync_receive_time = s.last_sync_receive_time := by
  unfold timeoutCheck; split <;> rfl

@[simp] theorem timeoutCheck_last_msg_timeout_time (t : Nat) (s : NodeHandle) :
    (timeoutCheck t s).last_msg_timeout_time = s.last_msg_timeout_time := by
  unfold timeoutCheck; split <;> rfl

@[simp] theorem timeoutCheck_param_recieved (t : Nat) (s : NodeHandle) :
    (timeoutCheck t s).param_recieved = s.param_recieved := by
  unfold timeoutCheck; split <;> rfl

@[simp] theorem timeoutCheck_req_param_resp (t : Nat) (s : NodeHandle) :
    (timeoutCheck t s).req_param_resp = s.req_param_resp := by
  unfold timeoutCheck; split <;> rfl

@[simp] theorem timeoutCheck_received (t : Nat) (s : NodeHandle) :
    (timeoutCheck t s).received = s.received := by
  unfold timeoutCheck; split <;> rfl


theorem drain_idle_noise (cfg : Config) (h : Heap) (t : Nat) (bs : List Nat) :
    ∀ s : NodeHandle, s.state_ = STATE_FIRST_FF → (∀ b ∈ bs, b ≠ 0xff) →
      drain cfg h t bs s = .ok { s with checksum_ := s.checksum_ + ((bs.sum : Nat) : Int) } := by
  induction bs with
  | nil => intro s _ _; simp [drain]
  | cons b bs ih =>
    intro s hs hb
    have hb0 : b ≠ 0xff := hb b (List.mem_cons_self _ _)
    have hstep : spinByte cfg h t b s = .ok { s with checksum_ := s.checksum_ + (b : Int) } := by
      simp [spinByte, hs, hb0, STATE_FIRST_FF, STATE_MESSAGE]
    rw [drain, hstep]
    simp only []
    rw [ih]
    · simp only [List.sum_cons, Nat.cast_add, Except.ok.injEq, NodeHandle.mk.injEq, true_and,
        and_true]
      omega
    · exact hs
    · exact fun c hc => hb c (List.mem_cons_of_mem _ hc)

theorem spinOnce_timeout_reset (cfg : Config) (h : Heap) (t : Nat) (input : List Nat)
    (s : NodeHandle) (hs : s.state_ ≠ STATE_FIRST_FF) (ht : s.last_msg_timeout_time < t) :
    spinOnce cfg h t input s = spinOnce cfg h t input { s with state_ := STATE_FIRST_FF } := by
  have h1 : timeoutCheck t (livenessCheck cfg t s)
      = timeoutCheck t (livenessCheck cfg t { s with state_ := STATE_FIRST_FF }) := by
    unfold timeoutCheck livenessCheck
    by_cases hc : usub cfg t s.last_sync_receive_time > SYNC_SECONDS * 2200
    · simp [hc, hs, ht]
    · simp [hc, hs, ht]
  unfold spinOnce
  rw [h1]

theorem drain_singleton (cfg : Config) (h : Heap) (t c : Nat) (s : NodeHandle) :
    drain cfg h t [c] s = spinByte cfg h t c s := by
  simp only [drain]
  cases spinByte cfg h t c s <;> rfl

theorem drain_idle_noise_ex (cfg : Config) (h : Heap) (t : Nat) (bs : List Nat)
    (s : NodeHandle) (hs : s.state_ = STATE_FIRST_FF) (hb : ∀ b ∈ bs, b ≠ 0xff) :
    ∃ s', drain cfg h t bs s = .ok s' ∧ s'.state_ = STATE_FIRST_FF
      ∧ s'.received = s.received :=
  ⟨_, drain_idle_noise cfg h t bs s hs hb, hs, rfl⟩

theorem drain_stalled_prefix (cfg : Config) (h : Heap) (t : Nat) (s : NodeHandle)
    (hs : s.state_ = STATE_FIRST_FF) (hsz : 1 ≤ cfg.INPUT_SIZE) :
    ∃ s1, drain cfg h t [0xff, 0xff, 0x64, 0, 3, 0, 1] s = .ok s1
      ∧ s1.state_ = STATE_MESSAGE ∧ s1.remaining_data_bytes_ = 2 ∧ s1.data_index_ = 1
      ∧ s1.checksum_ = 104 ∧ s1.received = s.received
      ∧ s1.last_msg_timeout_time = uadd cfg t MSG_TIMEOUT := by
  have hsz2 : (0 : Int) < (cfg.INPUT_SIZE : Int) := by omega
  have hd := drain_append cfg h t [0xff, 0xff, 0x64, 0, 3, 0] [1] s
  rw [drain_header cfg h t 0x64 0 3 0 s hs] at hd
  simp only [List.cons_append, List.nil_append] at hd
  rw [hd]
  simp [drain, spinByte, hsz2, STATE_MESSAGE, STATE_CHECKSUM]

theorem drain_stalled_suffix (cfg : Config) (h : Heap) (t : Nat) (s : NodeHandle)
    (hs : s.state_ = STATE_MESSAGE) (hrem : s.remaining_data_bytes_ = 2)
    (hidx : s.data_index_ = 1) (hck : s.checksum_ = 104) (hsz : 3 ≤ cfg.INPUT_SIZE) :
    ∃ s2, drain cfg h t [2, 3, 0x8d] s = .ok s2
      ∧ s2.state_ = STATE_FIRST_FF ∧ s2.received = s.received := by
  have hd := drain_append cfg h t [2, 3] [0x8d] s
  rw [drain_payload cfg h t [3] 2 s 1 hs (by simpa using hrem) (by simpa using hidx)
    (by simpa using hsz)] at hd
  simp only [] at hd
  rw [drain_singleton, spinByte_checksum_invalid] at hd
  · exact ⟨_, hd, rfl, rfl⟩
  · rfl
  · simp [hck]
  · simp [hck]

/-- C5. Mid-frame timeout: a poll entered outside await-sync-1 with a clock reading
above the frame deadline handles its input exactly like a poll entered in
await-sync-1; for the split `FF FF 64 00 03 00 01`, then 25 ms later `02 03 8D`, no
receiver is invoked and the parser ends in await-sync-1; and the same holds for the
split frame with the matching checksum byte `92` whenever the second poll's clock
reading is above the deadline `t0 + MSG_TIMEOUT`. -/
theorem mid_frame_timeout (cfg : Config) (h : Heap) :
    (∀ (t : Nat) (input : List Nat) (s : NodeHandle),
        s.state_ ≠ STATE_FIRST_FF → s.last_msg_timeout_time < t →
        spinOnce cfg h t input s = spinOnce cfg h t input { s with state_ := STATE_FIRST_FF })
    ∧ (∀ (t0 : Nat) (s : NodeHandle), s.state_ = STATE_FIRST_FF → 3 ≤ cfg.INPUT_SIZE →
        ∃ s1 s2, spinOnce cfg h t0 [0xff, 0xff, 0x64, 0, 3, 0, 1] s = .ok s1
          ∧ spinOnce cfg h (uadd cfg t0 25) [2, 3, 0x8d] s1 = .ok s2
          ∧ s2.received = s.received ∧ s2.state_ = STATE_FIRST_FF)
    ∧ (∀ (t0 t1 : Nat) (s : NodeHandle), s.state_ = STATE_FIRST_FF → 1 ≤ cfg.INPUT_SIZE →
        uadd cfg t0 MSG_TIMEOUT < t1 →
        ∃ s1 s2, spinOnce cfg h t0 [0xff, 0xff, 0x64, 0, 3, 0, 1] s = .ok s1
          ∧ spinOnce cfg h t1 [2, 3, 0x92] s1 = .ok s2
          ∧ s2.received = s.received ∧ s2.state_ = STATE_FIRST_FF) := by
  refine ⟨fun t input s hs ht => spinOnce_timeout_reset cfg h t input s hs ht, ?_, ?_⟩
  · intro t0 s hs hsz
    obtain ⟨x1, hx1, hst1, hrem1, hidx1, hck1, hrc1, -⟩ :=
      drain_stalled_prefix cfg h t0 (timeoutCheck t0 (livenessCheck cfg t0 s))
        (by simp [timeoutCheck, hs]) (by omega)
    have hrc1' : x1.received = s.received := by simpa using hrc1
    refine ⟨resyncCheck cfg t0 x1, ?_⟩
    have hp1 : spinOnce cfg h t0 [0xff, 0xff, 0x64, 0, 3, 0, 1] s
        = .ok (resyncCheck cfg t0 x1) := by
      unfold spinOnce; rw [hx1]
    by_cases hto : x1.last_msg_timeout_time < uadd cfg t0 25
    · have hy : (timeoutCheck (uadd cfg t0 25)
          (livenessCheck cfg (uadd cfg t0 25) (resyncCheck cfg t0 x1))).state_
            = STATE_FIRST_FF := by
        simp [timeoutCheck, hst1, hto, STATE_MESSAGE, STATE_FIRST_FF]
      obtain ⟨x2, hx2, hst2, hrc2⟩ :=
        drain_idle_noise_ex cfg h (uadd cfg t0 25) [2, 3, 0x8d] _ hy (by decide)
      refine ⟨resyncCheck cfg (uadd cfg t0 25) x2, hp1, ?_, ?_, ?_⟩
      · unfold spinOnce; rw [hx2]
      · simpa [hrc1'] using hrc2
      · simpa using hst2
    · have hy : timeoutCheck (uadd cfg t0 25)
          (livenessCheck cfg (uadd cfg t0 25) (resyncCheck cfg t0 x1))
            = livenessCheck cfg (uadd cfg t0 25) (resyncCheck cfg t0 x1) := by
        simp [timeoutCheck, hto]
      obtain ⟨x2, hx2, hst2, hrc2⟩ := drain_stalled_suffix cfg h (uadd cfg t0 25)
        (livenessCheck cfg (uadd cfg t0 25) (resyncCheck cfg t0 x1))
        (by simp [hst1]) (by simp [hrem1]) (by simp [hidx1]) (by simp [hck1]) hsz
      refine ⟨resyncCheck cfg (uadd cfg t0 25) x2, hp1, ?_, ?_, ?_⟩
      · unfold spinOnce; rw [hy, hx2]
      · simpa [hrc1'] using hrc2
      · simpa using hst2
  · intro t0 t1 s hs hsz hlt
    obtain ⟨x1, hx1, hst1, -, -, -, hrc1, hdl1⟩ :=
      drain_stalled_prefix cfg h t0 (timeoutCheck t0 (livenessCheck cfg t0 s))
        (by simp [timeoutCheck, hs]) hsz
    have hrc1' : x1.received = s.received := by simpa using hrc1
    have hp1 : spinOnce cfg h t0 [0xff, 0xff, 0x64, 0, 3, 0, 1] s
        = .ok (resyncCheck cfg t0 x1) := by
      unfold spinOnce; rw [hx1]
    have hy : (timeoutCheck t1 (livenessCheck cfg t1 (resyncCheck cfg t0 x1))).state_
          = STATE_FIRST_FF := by
      simp [timeoutCheck, hst1, hdl1, hlt, STATE_MESSAGE, STATE_FIRST_FF]
    obtain ⟨x2, hx2, hst2, hrc2⟩ := drain_idle_noise_ex cfg h t1 [2, 3, 0x92] _ hy (by decide)
    refine ⟨resyncCheck cfg t0 x1, resyncCheck cfg t1 x2, hp1, ?_, ?_, ?_⟩
    · unfold spinOnce; rw [hx2]
    · simpa [hrc1'] using hrc2
    · simpa using hst2

theorem mid_frame_timeout_witness :
    ∃ s1 s2, spinOnce defaultConfig oneSubscriber.2.2 1000 [0xff, 0xff, 0x64, 0, 3, 0, 1]
          oneSubscriber.2.1 = .ok s1
      ∧ spinOnce defaultConfig oneSubscriber.2.2 1025 [2, 3, 0x92] s1 = .ok s2
      ∧ s2.received = oneSubscriber.2.1.received ∧ s2.state_ = STATE_FIRST_FF :=
  (mid_frame_timeout defaultConfig oneSubscriber.2.2).2.2 1000 1025 oneSubscriber.2.1 rfl
    (by decide) (by decide)

/-! ## Endpoint registry -/

theorem advertiseFrom_found (cfg : Config) (p : Nat) (s : NodeHandle) (h : Heap) (k : Nat)
    (hk : s.publishers.getD k none = none) :
    ∀ (fuel i : Nat), i ≤ k → k < i + fuel →
      (∀ j, i ≤ j → j < k → s.publishers.getD j none ≠ none) →
      advertiseFrom cfg p s h fuel i =
        (true,
         { s with publishers := s.publishers.set k (some p) },
         { h with pubs := Function.update h.pubs p
                    { h.pubs p with id_ := (k : Int) + 100 + (cfg.MAX_SUBSCRIBERS : Int),
                                    node_output_ := NodeOutputPtr.ofNode } }) := by
  intro fuel
  induction fuel with
  | zero => intro i h1 h2 _; omega
  | succ n ih =>
    intro i h1 h2 hlow
    by_cases hik : i = k
    · subst hik
      rw [advertiseFrom, if_pos hk]
    · have hne : s.publishers.getD i none ≠ none := hlow i (le_refl _) (by omega)
      rw [advertiseFrom, if_neg hne]
      exact ih (i + 1) (by omega) (by omega) (fun j hj1 hj2 => hlow j (by omega) hj2)

theorem advertiseFrom_full (cfg : Config) (p : Nat) (s : NodeHandle) (h : Heap) :
    ∀ (fuel i : Nat), (∀ j, i ≤ j → j < i + fuel → s.publishers.getD j none ≠ none) →
      advertiseFrom cfg p s h fuel i = (false, s, h) := by
  intro fuel
  induction fuel with
  | zero => intro i _; rfl
  | succ n ih =>
    intro i hall
    have hne : s.publishers.getD i none ≠ none := hall i (le_refl _) (by omega)
    rw [advertiseFrom, if_neg hne]
    exact ih (i + 1) (fun j hj1 hj2 => hall j (by omega) (by omega))

theorem exists_lowestEmpty (tbl : List (Option Nat)) (n : Nat)
    (hex : ∃ i, i < n ∧ tbl.getD i none = none) : ∃ i, lowestEmpty tbl n i := by
  classical
  refine ⟨Nat.find hex, (Nat.find_spec hex).1, (Nat.find_spec hex).2, ?_⟩
  intro j hj hnone
  exact Nat.find_min hex hj ⟨lt_trans hj (Nat.find_spec hex).1, hnone⟩

theorem advertise_found (cfg : Config) (p : Nat) (s : NodeHandle) (h : Heap) (i : Nat)
    (hi : lowestEmpty s.publishers cfg.MAX_PUBLISHERS i) :
    advertise cfg p s h =
      (true,
       { s with publishers := s.publishers.set i (some p) },
       { h with pubs := Function.update h.pubs p
                  { h.pubs p with id_ := (i : Int) + 100 + (cfg.MAX_SUBSCRIBERS : Int),
                                  node_output_ := NodeOutputPtr.ofNode } }) :=
  advertiseFrom_found cfg p s h i hi.2.1 cfg.MAX_PUBLISHERS 0 (Nat.zero_le _)
    (by simpa using hi.1) (fun j _ hj => hi.2.2 j hj)

theorem advertise_full (cfg : Config) (p : Nat) (s : NodeHandle) (h : Heap)
    (hfull : ∀ i, i < cfg.MAX_PUBLISHERS → s.publishers.getD i none ≠ none) :
    advertise cfg p s h = (false, s, h) :=
  advertiseFrom_full cfg p s h cfg.MAX_PUBLISHERS 0 (fun j _ hj => hfull j (by simpa using hj))

theorem getD_set_self (tbl : List (Option Nat)) (i : Nat) (v : Option Nat)
    (hi : i < tbl.length) : (tbl.set i v).getD i none = v := by
  simp [List.getD, hi]

theorem getD_set_other (tbl : List (Option Nat)) (i j : Nat) (v : Option Nat)
    (hij : j ≠ i) : (tbl.set i v).getD j none = tbl.getD j none := by
  simp [List.getD, List.getElem?_set_ne (Ne.symm hij)]

/-- C6. `advertise` contract: the result is true iff the publishers table has an
empty slot; on success the lowest-index empty slot `i` holds the publisher, the
publisher's id is `100 + MAX_SUBSCRIBERS + i` (inside the publisher id range), its
encoder back-reference points to the node's encoder, and every other slot, every
other publisher object and the publisher's other members are unchanged; on a full
table the result is false and neither the node nor any publisher changes. -/
theorem advertise_contract (cfg : Config) (p : Nat) (s : NodeHandle) (h : Heap)
    (hlen : s.publishers.length = cfg.MAX_PUBLISHERS) :
    ((advertise cfg p s h).1 = true
        ↔ ∃ i, i < cfg.MAX_PUBLISHERS ∧ s.publishers.getD i none = none)
    ∧ (∀ i, lowestEmpty s.publishers cfg.MAX_PUBLISHERS i →
        (advertise cfg p s h).2.1.publishers.getD i none = some p
        ∧ ((advertise cfg p s h).2.2.pubs p).id_ = 100 + (cfg.MAX_SUBSCRIBERS : Int) + (i : Int)
        ∧ (100 + (cfg.MAX_SUBSCRIBERS : Int) ≤ ((advertise cfg p s h).2.2.pubs p).id_
            ∧ ((advertise cfg p s h).2.2.pubs p).id_
                < 100 + (cfg.MAX_SUBSCRIBERS : Int) + (cfg.MAX_PUBLISHERS : Int))
        ∧ ((advertise cfg p s h).2.2.pubs p).node_output_ = NodeOutputPtr.ofNode
        ∧ ((advertise cfg p s h).2.2.pubs p).topic_name_ = (h.pubs p).topic_name_
        ∧ ((advertise cfg p s h).2.2.pubs p).msg_ = (h.pubs p).msg_
        ∧ (∀ j, j ≠ i →
            (advertise cfg p s h).2.1.publishers.getD j none = s.publishers.getD j none)
        ∧ (∀ q, q ≠ p → (advertise cfg p s h).2.2.pubs q = h.pubs q))
    ∧ ((∀ i, i < cfg.MAX_PUBLISHERS → s.publishers.getD i none ≠ none) →
        advertise cfg p s h = (false, s, h)) := by
  refine ⟨?_, ?_, ?_⟩
  · constructor
    · intro htrue
      by_contra hno
      have hfull : ∀ i, i < cfg.MAX_PUBLISHERS → s.publishers.getD i none ≠ none := by
        intro i hi hnone
        exact hno ⟨i, hi, hnone⟩
      rw [advertise_full cfg p s h hfull] at htrue
      exact Bool.noConfusion htrue
    · intro hex
      obtain ⟨i, hi⟩ := exists_lowestEmpty s.publishers cfg.MAX_PUBLISHERS hex
      rw [advertise_found cfg p s h i hi]
  · intro i hi
    have hil : i < s.publishers.length := by rw [hlen]; exact hi.1
    rw [advertise_found cfg p s h i hi]
    refine ⟨getD_set_self _ _ _ hil, ?_, ⟨?_, ?_⟩, ?_, ?_, ?_, ?_, ?_⟩
    · simp only [Function.update_same]; omega
    · simp only [Function.update_same]; omega
    · have := hi.1
      simp only [Function.update_same]; omega
    · simp
    · simp
    · simp
    · intro j hj; exact getD_set_other _ _ _ _ hj
    · intro q hq; simp [Function.update_noteq hq]
  · exact advertise_full cfg p s h

theorem advertise_contract_witness :
    ((advertise defaultConfig 3 startNode freshHeap).1 = true
        ↔ ∃ i, i < defaultConfig.MAX_PUBLISHERS ∧ startNode.publishers.getD i none = none)
    ∧ ((advertise defaultConfig 3 startNode freshHeap).2.2.pubs 3).id_ = 125 := by
  have hc := advertise_contract defaultConfig 3 startNode freshHeap rfl
  refine ⟨hc.1, ?_⟩
  have h0 : lowestEmpty startNode.publishers defaultConfig.MAX_PUBLISHERS 0 :=
    ⟨by decide, rfl, fun j hj => absurd hj (Nat.not_lt_zero j)⟩
  exact (hc.2.1 0 h0).2.1

theorem registerReceiver_contract (cfg : Config) (r : Nat) (s : NodeHandle) (h h0 : Heap)
    (hc : receiversCounted cfg s) (hid : (h.rcvs r).id_ = (h0.rcvs r).id_) :
    registerContract cfg r s h0 (registerReceiver cfg r s h) := by
  obtain ⟨hlen, htot, hpop, hemp⟩ := hc
  have hlow : ∀ i, lowestEmpty s.receivers cfg.MAX_SUBSCRIBERS i → i = s.total_receivers_ := by
    intro i hi
    by_contra hne
    rcases Nat.lt_or_gt_of_ne hne with hlt | hgt
    · exact hpop i hlt hi.2.1
    · exact hi.2.2 _ hgt (hemp _ (le_refl _))
  by_cases hfull : s.total_receivers_ ≥ cfg.MAX_SUBSCRIBERS
  · have hres : registerReceiver cfg r s h = (false, s, h) := by
      simp [registerReceiver, hfull]
    rw [hres]
    refine ⟨?_, ?_, ?_⟩
    · constructor
      · intro hf; exact Bool.noConfusion hf
      · rintro ⟨i, hi, hnone⟩
        exact absurd hnone (hpop i (by omega))
    · intro i hi
      have := hlow i hi
      have := hi.1
      omega
    · intro _
      exact ⟨rfl, rfl, hid⟩
  · have hres : registerReceiver cfg r s h =
        (true,
         { s with receivers := s.receivers.set s.total_receivers_ (some r),
                  total_receivers_ := s.total_receivers_ + 1 },
         { h with rcvs := Function.update h.rcvs r
                    { h.rcvs r with id_ := 100 + (s.total_receivers_ : Int) } }) := by
      simp [registerReceiver, hfull]
    rw [hres]
    have hlt : s.total_receivers_ < cfg.MAX_SUBSCRIBERS := by omega
    refine ⟨?_, ?_, ?_⟩
    · constructor
      · intro _
        exact ⟨s.total_receivers_, hlt, hemp _ (le_refl _)⟩
      · intro _; rfl
    · intro i hi
      have hi' := hlow i hi
      subst hi'
      refine ⟨getD_set_self _ _ _ (by omega), ?_, ⟨?_, ?_⟩, ?_⟩
      · simp
      · simp
      · simp only [Function.update_same]; omega
      · intro j hj; exact getD_set_other _ _ _ _ hj
    · intro hall
      exact absurd (hemp _ (le_refl _)) (hall _ hlt)

/-- C7 (amended). `subscribe` and `advertiseService` contract: whenever the populated
slots of `receivers[]` are exactly the first `total_receivers_` ones, the result is
true iff the table has an empty slot; on success the lowest-index empty slot `i`
holds the receiver, its id is `100 + i` (inside the receiver id range) and every
other slot is unchanged; on a full table the result is false and neither the table
nor the receiver's id changes. -/
theorem subscribe_contract (cfg : Config) (r : Nat) (s : NodeHandle) (h : Heap)
    (hc : receiversCounted cfg s) :
    registerContract cfg r s h (subscribe cfg r s h)
    ∧ registerContract cfg r s h (advertiseService cfg r s h) := by
  constructor
  · exact registerReceiver_contract cfg r s h h hc rfl
  · unfold advertiseService
    exact registerReceiver_contract cfg r s _ h hc (by simp [wireService])

theorem startNode_receiversCounted : receiversCounted defaultConfig startNode := by
  refine ⟨rfl, by decide, ?_, ?_⟩
  · intro j hj; exact absurd hj (Nat.not_lt_zero j)
  · intro j _
    simp [startNode, initNode, reset, NodeHandle.zero, List.getD]

theorem subscribe_contract_witness :
    registerContract defaultConfig 7 startNode freshHeap
        (subscribe defaultConfig 7 startNode freshHeap)
    ∧ registerContract defaultConfig 7 startNode freshHeap
        (advertiseService defaultConfig 7 startNode freshHeap) :=
  subscribe_contract defaultConfig 7 startNode freshHeap startNode_receiversCounted

/-- C7 (as stated) fails: after `initNode`, `subscribe(7)`, `initNode`, the call
`subscribe(8)` succeeds, but the lowest-index empty slot 1 stays empty: the receiver
is stored over slot 0 and gets id 100. -/
theorem subscribe_contract_fails_after_reinit :
    ¬ registerContract defaultConfig 8 (initNode oneSubscriber.2.1) oneSubscriber.2.2
        (subscribe defaultConfig 8 (initNode oneSubscriber.2.1) oneSubscriber.2.2) := by
  intro hc
  have h1 : lowestEmpty (initNode oneSubscriber.2.1).receivers defaultConfig.MAX_SUBSCRIBERS 1 := by
    refine ⟨by decide, rfl, ?_⟩
    intro j hj
    have hj0 : j = 0 := by omega
    subst hj0
    decide
  have h2 := (hc.2.1 1 h1).1
  revert h2
  decide

/-! ## The poll leaves the registry alone -/

theorem negotiatePublishers_registry (cfg : Config) (h : Heap) :
    ∀ (fuel i : Nat) (s : NodeHandle),
      registryOf (negotiatePublishers cfg h s fuel i) = registryOf s := by
  intro fuel
  induction fuel with
  | zero => intro i s; rfl
  | succ n ih =>
    intro i s
    rw [negotiatePublishers]
    split
    · rw [ih]; rfl
    · rfl

theorem negotiateReceivers_registry (cfg : Config) (h : Heap) :
    ∀ (fuel i : Nat) (s : NodeHandle),
      registryOf (negotiateReceivers cfg h s fuel i) = registryOf s := by
  intro fuel
  induction fuel with
  | zero => intro i s; rfl
  | succ n ih =>
    intro i s
    rw [negotiateReceivers]
    split
    · rw [ih]; rfl
    · rfl

theorem dispatch_registry (cfg : Config) (h : Heap) (t : Nat) (s s' : NodeHandle)
    (hd : dispatch cfg h t s = .ok s') : registryOf s' = registryOf s := by
  unfold dispatch at hd
  split at hd
  · simp only [Except.ok.injEq] at hd
    subst hd
    unfold negotiateTopics
    show registryOf (negotiateReceivers cfg h _ cfg.MAX_SUBSCRIBERS 0) = _
    rw [negotiateReceivers_registry, negotiatePublishers_registry]
    rfl
  · split at hd
    · simp only [Except.ok.injEq] at hd
      subst hd; rfl
    · split at hd
      · simp only [Except.ok.injEq] at hd
        subst hd; rfl
      · split at hd
        · split at hd
          · simp only [Except.ok.injEq] at hd
            subst hd; rfl
          · simp only [Except.ok.injEq] at hd
            subst hd; rfl
        · exact Except.noConfusion hd

theorem spinByte_registry (cfg : Config) (h : Heap) (t b : Nat) (s s' : NodeHandle)
    (hb : spinByte cfg h t b s = .ok s') : registryOf s' = registryOf s := by
  by_cases h6 : s.state_ = STATE_MESSAGE
  · simp only [spinByte, h6, if_true] at hb
    split at hb
    · split at hb <;> (simp only [Except.ok.injEq] at hb; subst hb; rfl)
    · exact Except.noConfusion hb
  by_cases h0 : s.state_ = STATE_FIRST_FF
  · simp only [spinByte, h0, STATE_FIRST_FF, STATE_SECOND_FF, STATE_TOPIC_L, STATE_TOPIC_H, STATE_SIZE_L, STATE_SIZE_H, STATE_MESSAGE, STATE_CHECKSUM] at hb
    norm_num at hb
    split at hb <;> (simp only [Except.ok.injEq] at hb; subst hb; rfl)
  by_cases h1 : s.state_ = STATE_SECOND_FF
  · simp only [spinByte, h1, STATE_FIRST_FF, STATE_SECOND_FF, STATE_TOPIC_L, STATE_TOPIC_H, STATE_SIZE_L, STATE_SIZE_H, STATE_MESSAGE, STATE_CHECKSUM] at hb
    norm_num at hb
    split at hb <;> (simp only [Except.ok.injEq] at hb; subst hb; rfl)
  by_cases h2 : s.state_ = STATE_TOPIC_L
  · simp only [spinByte, h2, STATE_FIRST_FF, STATE_SECOND_FF, STATE_TOPIC_L, STATE_TOPIC_H, STATE_SIZE_L, STATE_SIZE_H, STATE_MESSAGE, STATE_CHECKSUM] at hb
    norm_num at hb
    subst hb; rfl
  by_cases h3 : s.state_ = STATE_TOPIC_H
  · simp only [spinByte, h3, STATE_FIRST_FF, STATE_SECOND_FF, STATE_TOPIC_L, STATE_TOPIC_H, STATE_SIZE_L, STATE_SIZE_H, STATE_MESSAGE, STATE_CHECKSUM] at hb
    norm_num at hb
    subst hb; rfl
  by_cases h4 : s.state_ = STATE_SIZE_L
  · simp only [spinByte, h4, STATE_FIRST_FF, STATE_SECOND_FF, STATE_TOPIC_L, STATE_TOPIC_H, STATE_SIZE_L, STATE_SIZE_H, STATE_MESSAGE, STATE_CHECKSUM] at hb
    norm_num at hb
    subst hb; rfl
  by_cases h5 : s.state_ = STATE_SIZE_H
  · simp only [spinByte, h5, STATE_FIRST_FF, STATE_SECOND_FF, STATE_TOPIC_L, STATE_TOPIC_H, STATE_SIZE_L, STATE_SIZE_H, STATE_MESSAGE, STATE_CHECKSUM] at hb
    norm_num at hb
    split at hb <;> (simp only [Except.ok.injEq] at hb; subst hb; rfl)
  by_cases h7 : s.state_ = STATE_CHECKSUM
  · simp only [spinByte, h7, STATE_FIRST_FF, STATE_SECOND_FF, STATE_TOPIC_L, STATE_TOPIC_H, STATE_SIZE_L, STATE_SIZE_H, STATE_MESSAGE, STATE_CHECKSUM] at hb
    norm_num at hb
    split at hb
    · split at hb
      · rename_i s1 hdis
        simp only [Except.ok.injEq] at hb
        subst hb
        have hreg := dispatch_registry cfg h t _ s1 hdis
        exact hreg
      · exact Except.noConfusion hb
    · simp only [Except.ok.injEq] at hb; subst hb; rfl
  · simp only [spinByte, h6, h0, h1, h2, h3, h4, h5, h7, if_false, Except.ok.injEq] at hb
    subst hb; rfl

theorem drain_registry (cfg : Config) (h : Heap) (t : Nat) (bs : List Nat) :
    ∀ (s s' : NodeHandle), drain cfg h t bs s = .ok s' → registryOf s' = registryOf s := by
  induction bs with
  | nil =>
    intro s s' hd
    simp only [drain, Except.ok.injEq] at hd
    subst hd; rfl
  | cons b bs ih =>
    intro s s' hd
    rw [drain] at hd
    cases hb : spinByte cfg h t b s with
    | error e => rw [hb] at hd; exact Except.noConfusion hd
    | ok s1 =>
      rw [hb] at hd
      rw [ih s1 s' hd, spinByte_registry cfg h t b s s1 hb]

theorem spinOnce_registry (cfg : Config) (h : Heap) (t : Nat) (input : List Nat)
    (s s' : NodeHandle) (hsp : spinOnce cfg h t input s = .ok s') :
    registryOf s' = registryOf s := by
  unfold spinOnce at hsp
  cases hd : drain cfg h t input (timeoutCheck t (livenessCheck cfg t s)) with
  | error e => rw [hd] at hsp; exact Except.noConfusion hsp
  | ok s1 =>
    rw [hd] at hsp
    simp only [Except.ok.injEq] at hsp
    subst hsp
    have h1 := drain_registry cfg h t input _ s1 hd
    simp only [registryOf, Prod.mk.injEq] at h1 ⊢
    simpa using h1

/-! ## Ids handed out by the registry -/

theorem stepOp_spinOnce_ok (cfg : Config) (t : Nat) (input : List Nat) (w w' : Sys)
    (hst : stepOp cfg (Op.spinOnce t input) w = .ok w') :
    registryOf w'.node = registryOf w.node ∧ w'.heap = w.heap
      ∧ w'.pubIds = w.pubIds ∧ w'.rcvIds = w.rcvIds := by
  simp only [stepOp] at hst
  cases hsp : spinOnce cfg w.heap t input w.node with
  | error e => rw [hsp] at hst; exact Except.noConfusion hst
  | ok n =>
    rw [hsp] at hst
    simp only [Except.ok.injEq] at hst
    subst hst
    exact ⟨spinOnce_registry cfg w.heap t input w.node n hsp, rfl, rfl, rfl⟩

theorem registerReceiver_cases (cfg : Config) (r : Nat) (s : NodeHandle) (h : Heap) :
    (cfg.MAX_SUBSCRIBERS ≤ s.total_receivers_ ∧ registerReceiver cfg r s h = (false, s, h))
    ∨ (s.total_receivers_ < cfg.MAX_SUBSCRIBERS ∧ registerReceiver cfg r s h =
        (true,
         { s with receivers := s.receivers.set s.total_receivers_ (some r),
                  total_receivers_ := s.total_receivers_ + 1 },
         { h with rcvs := Function.update h.rcvs r
                    { h.rcvs r with id_ := 100 + (s.total_receivers_ : Int) } })) := by
  by_cases hfull : s.total_receivers_ ≥ cfg.MAX_SUBSCRIBERS
  · left; exact ⟨hfull, by simp [registerReceiver, hfull]⟩
  · right; exact ⟨by omega, by simp [registerReceiver, hfull]⟩

theorem advertise_cases (cfg : Config) (p : Nat) (s : NodeHandle) (h : Heap) :
    ((∀ i, i < cfg.MAX_PUBLISHERS → s.publishers.getD i none ≠ none)
        ∧ advertise cfg p s h = (false, s, h))
    ∨ (∃ i, lowestEmpty s.publishers cfg.MAX_PUBLISHERS i ∧ advertise cfg p s h =
        (true,
         { s with publishers := s.publishers.set i (some p) },
         { h with pubs := Function.update h.pubs p
                    { h.pubs p with id_ := (i : Int) + 100 + (cfg.MAX_SUBSCRIBERS : Int),
                                    node_output_ := NodeOutputPtr.ofNode } })) := by
  by_cases hex : ∃ i, i < cfg.MAX_PUBLISHERS ∧ s.publishers.getD i none = none
  · right
    obtain ⟨i, hi⟩ := exists_lowestEmpty s.publishers cfg.MAX_PUBLISHERS hex
    exact ⟨i, hi, advertise_found cfg p s h i hi⟩
  · left
    have hfull : ∀ i, i < cfg.MAX_PUBLISHERS → s.publishers.getD i none ≠ none :=
      fun i hi hnone => hex ⟨i, hi, hnone⟩
    exact ⟨hfull, advertise_full cfg p s h hfull⟩

theorem stepOp_pubIdsInv (cfg : Config) (op : Op) (w w' : Sys)
    (hst : stepOp cfg op w = .ok w') (hinv : pubIdsInv cfg w) : pubIdsInv cfg w' := by
  obtain ⟨hlen, hnd, hids⟩ := hinv
  cases op with
  | initNode =>
    simp only [stepOp, Except.ok.injEq] at hst
    subst hst
    exact ⟨hlen, hnd, hids⟩
  | advertise p =>
    simp only [stepOp, Except.ok.injEq] at hst
    subst hst
    rcases advertise_cases cfg p w.node w.heap with ⟨_, hres⟩ | ⟨i, hi, hres⟩
    · simp only [hres]
      exact ⟨hlen, by simpa using hnd, by simpa using hids⟩
    · simp only [hres, if_true, Function.update_same]
      have hil : i < w.node.publishers.length := by rw [hlen]; exact hi.1
      refine ⟨by simpa using hlen, ?_, ?_⟩
      · rw [List.nodup_append]
        refine ⟨hnd, List.nodup_singleton _, ?_⟩
        intro id hid hid2
        obtain ⟨j, _, hjid, hjpop⟩ := hids id hid
        have hji : j = i := by
          have := List.mem_singleton.mp hid2
          omega
        subst hji
        exact hjpop hi.2.1
      · intro id hid
        rcases List.mem_append.mp hid with hold | hnew
        · obtain ⟨j, hj, hjid, hjpop⟩ := hids id hold
          refine ⟨j, hj, hjid, ?_⟩
          have hji : j ≠ i := fun hji => hjpop (hji ▸ hi.2.1)
          rw [getD_set_other _ _ _ _ hji]
          exact hjpop
        · refine ⟨i, hi.1, List.mem_singleton.mp hnew, ?_⟩
          rw [getD_set_self _ _ _ hil]
          exact Option.some_ne_none p
  | subscribe r =>
    simp only [stepOp, subscribe, Except.ok.injEq] at hst
    subst hst
    rcases registerReceiver_cases cfg r w.node w.heap with ⟨_, hres⟩ | ⟨_, hres⟩ <;>
      simp only [hres] <;> exact ⟨hlen, hnd, hids⟩
  | advertiseService r =>
    simp only [stepOp, advertiseService, Except.ok.injEq] at hst
    subst hst
    rcases registerReceiver_cases cfg r w.node (wireService r w.heap) with
      ⟨_, hres⟩ | ⟨_, hres⟩ <;>
      simp only [hres] <;> exact ⟨hlen, hnd, hids⟩
  | spinOnce t input =>
    obtain ⟨hreg, _, hp, _⟩ := stepOp_spinOnce_ok cfg t input w w' hst
    simp only [registryOf, Prod.mk.injEq] at hreg
    refine ⟨by rw [hreg.1]; exact hlen, by rw [hp]; exact hnd, ?_⟩
    intro id hid
    rw [hp] at hid
    rw [hreg.1]
    exact hids id hid

theorem register_rcvIds (cfg : Config) (r : Nat) (s : NodeHandle) (h : Heap) (ids : List Int)
    (hrange : ∀ id, id ∈ ids → 100 ≤ id ∧ id < 100 + (cfg.MAX_SUBSCRIBERS : Int)) :
    (∀ id, id ∈ (if (registerReceiver cfg r s h).1 = true
          then ids ++ [((registerReceiver cfg r s h).2.2.rcvs r).id_] else ids) →
        100 ≤ id ∧ id < 100 + (cfg.MAX_SUBSCRIBERS : Int))
    ∧ ((ids.Nodup ∧ ∀ id, id ∈ ids → id < 100 + (s.total_receivers_ : Int)) →
        (if (registerReceiver cfg r s h).1 = true
          then ids ++ [((registerReceiver cfg r s h).2.2.rcvs r).id_] else ids).Nodup
        ∧ ∀ id, id ∈ (if (registerReceiver cfg r s h).1 = true
            then ids ++ [((registerReceiver cfg r s h).2.2.rcvs r).id_] else ids) →
          id < 100 + ((registerReceiver cfg r s h).2.1.total_receivers_ : Int)) := by
  rcases registerReceiver_cases cfg r s h with ⟨_, hres⟩ | ⟨hlt, hres⟩
  · simp only [hres]
    exact ⟨by simpa using hrange, fun hc => by simpa using hc⟩
  · simp only [hres, if_true, Function.update_same]
    constructor
    · intro id hid
      rcases List.mem_append.mp hid with hold | hnew
      · exact hrange id hold
      · have := List.mem_singleton.mp hnew
        omega
    · rintro ⟨hnd, hlow⟩
      constructor
      · rw [List.nodup_append]
        refine ⟨hnd, List.nodup_singleton _, ?_⟩
        intro id hid hid2
        have h1 := hlow id hid
        have h2 := List.mem_singleton.mp hid2
        omega
      · intro id hid
        rcases List.mem_append.mp hid with hold | hnew
        · have := hlow id hold
          push_cast
          omega
        · have := List.mem_singleton.mp hnew
          push_cast
          omega

theorem stepOp_rcvRangeInv (cfg : Config) (op : Op) (w w' : Sys)
    (hst : stepOp cfg op w = .ok w') (hinv : rcvRangeInv cfg w) : rcvRangeInv cfg w' := by
  cases op with
  | initNode =>
    simp only [stepOp, Except.ok.injEq] at hst
    subst hst
    exact hinv
  | advertise p =>
    simp only [stepOp, Except.ok.injEq] at hst
    subst hst
    exact hinv
  | subscribe r =>
    simp only [stepOp, subscribe, Except.ok.injEq] at hst
    subst hst
    exact (register_rcvIds cfg r w.node w.heap w.rcvIds hinv).1
  | advertiseService r =>
    simp only [stepOp, advertiseService, Except.ok.injEq] at hst
    subst hst
    exact (register_rcvIds cfg r w.node (wireService r w.heap) w.rcvIds hinv).1
  | spinOnce t input =>
    obtain ⟨_, _, _, hr⟩ := stepOp_spinOnce_ok cfg t input w w' hst
    intro id hid
    rw [hr] at hid
    exact hinv id hid

theorem stepOp_rcvCountInv (cfg : Config) (op : Op) (w w' : Sys)
    (hst : stepOp cfg op w = .ok w') (hop : op ≠ Op.initNode)
    (hrange : rcvRangeInv cfg w) (hinv : rcvCountInv w) : rcvCountInv w' := by
  cases op with
  | initNode => exact absurd rfl hop
  | advertise p =>
    simp only [stepOp, Except.ok.injEq] at hst
    subst hst
    rcases advertise_cases cfg p w.node w.heap with ⟨_, hres⟩ | ⟨i, _, hres⟩ <;>
      simp only [hres] <;> exact hinv
  | subscribe r =>
    simp only [stepOp, subscribe, Except.ok.injEq] at hst
    subst hst
    exact (register_rcvIds cfg r w.node w.heap w.rcvIds hrange).2 hinv
  | advertiseService r =>
    simp only [stepOp, advertiseService, Except.ok.injEq] at hst
    subst hst
    exact (register_rcvIds cfg r w.node (wireService r w.heap) w.rcvIds hrange).2 hinv
  | spinOnce t input =>
    obtain ⟨hreg, _, _, hr⟩ := stepOp_spinOnce_ok cfg t input w w' hst
    simp only [registryOf, Prod.mk.injEq] at hreg
    unfold rcvCountInv
    rw [hr, hreg.2.2]
    exact hinv

theorem runOps_inv (cfg : Config) (ops : List Op) :
    ∀ (w w' : Sys), runOps cfg ops w = .ok w' → pubIdsInv cfg w → rcvRangeInv cfg w →
      pubIdsInv cfg w' ∧ rcvRangeInv cfg w'
        ∧ (Op.initNode ∉ ops → rcvCountInv w → rcvCountInv w') := by
  induction ops with
  | nil =>
    intro w w' hrun hp hr
    simp only [runOps, Except.ok.injEq] at hrun
    subst hrun
    exact ⟨hp, hr, fun _ hc => hc⟩
  | cons op ops ih =>
    intro w w' hrun hp hr
    rw [runOps] at hrun
    cases hst : stepOp cfg op w with
    | error e => rw [hst] at hrun; exact Except.noConfusion hrun
    | ok w1 =>
      rw [hst] at hrun
      have hp1 := stepOp_pubIdsInv cfg op w w1 hst hp
      have hr1 := stepOp_rcvRangeInv cfg op w w1 hst hr
      obtain ⟨hp', hr', hc'⟩ := ih w1 w' hrun hp1 hr1
      refine ⟨hp', hr', ?_⟩
      intro hno hc
      have hop : op ≠ Op.initNode := fun he => hno (he ▸ List.mem_cons_self _ _)
      exact hc' (fun hm => hno (List.mem_cons_of_mem _ hm))
        (stepOp_rcvCountInv cfg op w w1 hst hop hr hc)

theorem start_pubIdsInv (cfg : Config) (h : Heap) : pubIdsInv cfg (Sys.start cfg h) := by
  refine ⟨?_, List.nodup_nil, ?_⟩
  · simp [Sys.start, initNode, reset, NodeHandle.zero]
  · intro id hid
    simp [Sys.start] at hid

/-- C8 (amended). Ids handed out by one node: after any sequence of `initNode`,
`advertise`, `subscribe`, `advertiseService` and `spinOnce` on a freshly initialised
node, the ids of the successful `advertise` calls are pairwise distinct and lie in
`[100 + MAX_SUBSCRIBERS, 100 + MAX_SUBSCRIBERS + MAX_PUBLISHERS)`, the ids of the
successful receiver registrations lie in `[100, 100 + MAX_SUBSCRIBERS)` (so none
equals a publisher id or a reserved id below 100); and when `initNode` is not called
again, no two distinct successful registration calls are assigned the same id. -/
theorem ids_never_reused (cfg : Config) (h : Heap) (ops : List Op) (w : Sys)
    (hrun : runOps cfg ops (Sys.start cfg h) = .ok w) :
    w.pubIds.Nodup
    ∧ (∀ id, id ∈ w.pubIds → 100 + (cfg.MAX_SUBSCRIBERS : Int) ≤ id
        ∧ id < 100 + (cfg.MAX_SUBSCRIBERS : Int) + (cfg.MAX_PUBLISHERS : Int))
    ∧ (∀ id, id ∈ w.rcvIds → 100 ≤ id ∧ id < 100 + (cfg.MAX_SUBSCRIBERS : Int))
    ∧ (∀ id, id ∈ w.rcvIds → id ∉ w.pubIds)
    ∧ (Op.initNode ∉ ops → (w.pubIds ++ w.rcvIds).Nodup) := by
  have hr0 : rcvRangeInv cfg (Sys.start cfg h) := by
    intro id hid
    simp [Sys.start] at hid
  have hc0 : rcvCountInv (Sys.start cfg h) := by
    refine ⟨List.nodup_nil, ?_⟩
    intro id hid
    simp [Sys.start] at hid
  obtain ⟨⟨_, hnd, hids⟩, hrange, hcount⟩ :=
    runOps_inv cfg ops (Sys.start cfg h) w hrun (start_pubIdsInv cfg h) hr0
  have hprange : ∀ id, id ∈ w.pubIds → 100 + (cfg.MAX_SUBSCRIBERS : Int) ≤ id
      ∧ id < 100 + (cfg.MAX_SUBSCRIBERS : Int) + (cfg.MAX_PUBLISHERS : Int) := by
    intro id hid
    obtain ⟨i, hi, hid2, _⟩ := hids id hid
    omega
  have hdisj : ∀ id, id ∈ w.rcvIds → id ∉ w.pubIds := by
    intro id hid hid2
    have h1 := hrange id hid
    have h2 := hprange id hid2
    omega
  refine ⟨hnd, hprange, hrange, hdisj, ?_⟩
  intro hno
  rw [List.nodup_append]
  exact ⟨hnd, (hcount hno hc0).1, fun id hp hr => hdisj id hr hp⟩

theorem ids_never_reused_witness :
    (runOrKeep defaultConfig
        [Op.advertise 3, Op.subscribe 7, Op.spinOnce 1000 [0xff, 0xff], Op.advertiseService 8]
        (Sys.start defaultConfig freshHeap)).rcvIds = [100, 101]
    ∧ ((runOrKeep defaultConfig
        [Op.advertise 3, Op.subscribe 7, Op.spinOnce 1000 [0xff, 0xff], Op.advertiseService 8]
        (Sys.start defaultConfig freshHeap)).pubIds
      ++ (runOrKeep defaultConfig
        [Op.advertise 3, Op.subscribe 7, Op.spinOnce 1000 [0xff, 0xff], Op.advertiseService 8]
        (Sys.start defaultConfig freshHeap)).rcvIds).Nodup :=
  ⟨rfl, (ids_never_reused defaultConfig freshHeap
      [Op.advertise 3, Op.subscribe 7, Op.spinOnce 1000 [0xff, 0xff], Op.advertiseService 8]
      _ rfl).2.2.2.2 (by decide)⟩

/-- C8 (as stated) fails: `initNode`, `subscribe(7)`, `initNode`, `subscribe(8)`
are four public operations after which both successful `subscribe` calls have been
assigned id 100. -/
theorem ids_reused_after_reinit :
    (runOrKeep defaultConfig [Op.initNode, Op.subscribe 7, Op.initNode, Op.subscribe 8]
        (Sys.start defaultConfig freshHeap)).rcvIds = [100, 100]
    ∧ ∃ w, runOps defaultConfig [Op.initNode, Op.subscribe 7, Op.initNode, Op.subscribe 8]
        (Sys.start defaultConfig freshHeap) = .ok w ∧ ¬ w.rcvIds.Nodup :=
  ⟨rfl, _, rfl, by decide⟩

/-! ## Registry invariant -/

theorem getD_some_mem (tbl : List (Option Nat)) (i q : Nat)
    (hq : tbl.getD i none = some q) : some q ∈ tbl := by
  by_cases hi : i < tbl.length
  · have : tbl.getD i none = tbl[i] := by simp [List.getD, hi]
    rw [this] at hq
    rw [← hq]
    exact List.getElem_mem _
  · have : tbl.getD i none = none := by
      simp [List.getD, List.getElem?_eq_none (Nat.le_of_not_lt hi)]
    rw [this] at hq
    exact Option.noConfusion hq

theorem receiversCounted_prefix (cfg : Config) (s : NodeHandle)
    (hc : receiversCounted cfg s) : populatedPrefix s.receivers := by
  obtain ⟨_, _, hpop, hemp⟩ := hc
  intro i j hij hnone
  apply hemp
  by_contra hlt
  exact hpop i (by omega) hnone

theorem registerReceiver_registryInv (cfg : Config) (r : Nat) (w : Sys) (h1 : Heap)
    (hpubs : h1.pubs = w.heap.pubs)
    (hids : ∀ q, (h1.rcvs q).id_ = (w.heap.rcvs q).id_)
    (hfresh : some r ∉ w.node.receivers) (hinv : registryInv cfg w)
    (pubIds rcvIds : List Int) :
    registryInv cfg
      { node := (registerReceiver cfg r w.node h1).2.1,
        heap := (registerReceiver cfg r w.node h1).2.2,
        pubIds := pubIds, rcvIds := rcvIds } := by
  obtain ⟨hlen, hcnt, hpre, hpid, hrid⟩ := hinv
  rcases registerReceiver_cases cfg r w.node h1 with ⟨_, hres⟩ | ⟨hlt, hres⟩
  · simp only [hres]
    refine ⟨hlen, hcnt, hpre, ?_, ?_⟩
    · intro i p hp; rw [hpubs]; exact hpid i p hp
    · intro i q hq; rw [hids]; exact hrid i q hq
  · simp only [hres]
    obtain ⟨hrlen, htot, hpop, hemp⟩ := hcnt
    have htl : w.node.total_receivers_ < w.node.receivers.length := by omega
    refine ⟨hlen, ⟨by simpa using hrlen, by simpa using hlt, ?_, ?_⟩, hpre, ?_, ?_⟩
    · intro j hj
      simp only at hj ⊢
      by_cases hjt : j = w.node.total_receivers_
      · subst hjt
        rw [getD_set_self _ _ _ htl]
        exact Option.some_ne_none r
      · rw [getD_set_other _ _ _ _ hjt]
        exact hpop j (by omega)
    · intro j hj
      simp only at hj ⊢
      rw [getD_set_other _ _ _ _ (by omega)]
      exact hemp j (by omega)
    · intro i p hp
      simp only at hp ⊢
      rw [hpubs]; exact hpid i p hp
    · intro i q hq
      simp only at hq ⊢
      by_cases hit : i = w.node.total_receivers_
      · subst hit
        rw [getD_set_self _ _ _ htl] at hq
        have hqr : r = q := Option.some.inj hq
        subst hqr
        simp
      · rw [getD_set_other _ _ _ _ hit] at hq
        have hqr : q ≠ r := by
          intro he
          subst he
          exact hfresh (getD_some_mem _ _ _ hq)
        rw [Function.update_noteq hqr, hids]
        exact hrid i q hq

theorem stepOp_registryInv (cfg : Config) (op : Op) (w w' : Sys)
    (hst : stepOp cfg op w = .ok w') (hop : op ≠ Op.initNode) (hfresh : opFresh op w)
    (hinv : registryInv cfg w) : registryInv cfg w' := by
  cases op with
  | initNode => exact absurd rfl hop
  | advertise p =>
    simp only [stepOp, Except.ok.injEq] at hst
    subst hst
    obtain ⟨hlen, hcnt, hpre, hpid, hrid⟩ := hinv
    rcases advertise_cases cfg p w.node w.heap with ⟨_, hres⟩ | ⟨i, hi, hres⟩
    · simp only [hres]
      exact ⟨hlen, hcnt, hpre, hpid, hrid⟩
    · simp only [hres]
      have hil : i < w.node.publishers.length := by rw [hlen]; exact hi.1
      refine ⟨by simpa using hlen, hcnt, ?_, ?_, hrid⟩
      · intro a b hab hnone
        simp only at hnone ⊢
        have hai : a ≠ i := by
          intro he
          subst he
          rw [getD_set_self _ _ _ hil] at hnone
          exact Option.noConfusion hnone
        rw [getD_set_other _ _ _ _ hai] at hnone
        have hia : i < a := by
          by_contra hle
          exact hi.2.2 a (by omega) hnone
        rw [getD_set_other _ _ _ _ (by omega)]
        exact hpre a b hab hnone
      · intro j q hq
        simp only at hq ⊢
        by_cases hji : j = i
        · subst hji
          rw [getD_set_self _ _ _ hil] at hq
          have hqp : p = q := Option.some.inj hq
          subst hqp
          simp only [Function.update_same]
          omega
        · rw [getD_set_other _ _ _ _ hji] at hq
          have hqp : q ≠ p := by
            intro he
            subst he
            exact hfresh (getD_some_mem _ _ _ hq)
          rw [Function.update_noteq hqp]
          exact hpid j q hq
  | subscribe r =>
    simp only [stepOp, subscribe, Except.ok.injEq] at hst
    subst hst
    exact registerReceiver_registryInv cfg r w w.heap rfl (fun _ => rfl) hfresh hinv _ _
  | advertiseService r =>
    simp only [stepOp, advertiseService, Except.ok.injEq] at hst
    subst hst
    refine registerReceiver_registryInv cfg r w (wireService r w.heap) rfl ?_ hfresh hinv _ _
    intro q
    by_cases hqr : q = r
    · subst hqr; simp [wireService]
    · simp [wireService, Function.update_noteq hqr]
  | spinOnce t input =>
    obtain ⟨hreg, hheap, _, _⟩ := stepOp_spinOnce_ok cfg t input w w' hst
    simp only [registryOf, Prod.mk.injEq] at hreg
    obtain ⟨hlen, hcnt, hpre, hpid, hrid⟩ := hinv
    unfold registryInv receiversCounted
    rw [hreg.1, hreg.2.1, hreg.2.2, hheap]
    exact ⟨hlen, hcnt, hpre, hpid, hrid⟩

theorem runOps_registryInv (cfg : Config) (ops : List Op) :
    ∀ (w w' : Sys), runOps cfg ops w = .ok w' → Op.initNode ∉ ops → freshOps cfg ops w →
      registryInv cfg w → registryInv cfg w' := by
  induction ops with
  | nil =>
    intro w w' hrun _ _ hinv
    simp only [runOps, Except.ok.injEq] at hrun
    subst hrun
    exact hinv
  | cons op ops ih =>
    intro w w' hrun hno hfresh hinv
    rw [runOps] at hrun
    rw [freshOps] at hfresh
    cases hst : stepOp cfg op w with
    | error e => rw [hst] at hrun; exact Except.noConfusion hrun
    | ok w1 =>
      rw [hst] at hrun hfresh
      have hop : op ≠ Op.initNode := fun he => hno (he ▸ List.mem_cons_self _ _)
      exact ih w1 w' hrun (fun hm => hno (List.mem_cons_of_mem _ hm)) hfresh.2
        (stepOp_registryInv cfg op w w1 hst hop hfresh.1 hinv)

theorem start_registryInv (cfg : Config) (h : Heap) : registryInv cfg (Sys.start cfg h) := by
  have hp : ∀ i, (List.replicate cfg.MAX_PUBLISHERS (none : Option Nat)).getD i none = none := by
    intro i
    by_cases hi : i < cfg.MAX_PUBLISHERS <;> simp [List.getD, List.getElem?_replicate, hi]
  have hr : ∀ i, (List.replicate cfg.MAX_SUBSCRIBERS (none : Option Nat)).getD i none = none := by
    intro i
    by_cases hi : i < cfg.MAX_SUBSCRIBERS <;> simp [List.getD, List.getElem?_replicate, hi]
  refine ⟨?_, ⟨?_, ?_, ?_, ?_⟩, ?_, ?_, ?_⟩
  · simp [Sys.start, initNode, reset, NodeHandle.zero]
  · simp [Sys.start, initNode, reset, NodeHandle.zero]
  · simp [Sys.start, initNode, reset, NodeHandle.zero]
  · intro j hj
    simp [Sys.start, initNode, reset, NodeHandle.zero] at hj
  · intro j _
    exact hr j
  · intro i j _ _
    exact hp j
  · intro i p hip
    have := hp i
    simp only [Sys.start, initNode, reset, NodeHandle.zero] at hip
    rw [this] at hip
    exact Option.noConfusion hip
  · intro i r hir
    have := hr i
    simp only [Sys.start, initNode, reset, NodeHandle.zero] at hir
    rw [this] at hir
    exact Option.noConfusion hir

/-- C9 (amended). Registry invariant: starting from an empty registry, after every
sequence of `advertise`, `subscribe`, `advertiseService` and `spinOnce` calls in
which no call registers an endpoint object that already occupies a slot, (a) in each
table the populated slots form a prefix, (b) the publisher held in slot `i` has id
`100 + MAX_SUBSCRIBERS + i` and the receiver held in slot `i` has id `100 + i`, and
(c) a further `spinOnce` changes neither table nor any endpoint object. -/
theorem registry_invariant (cfg : Config) (h : Heap) (ops : List Op) (w : Sys)
    (hno : Op.initNode ∉ ops) (hfresh : freshOps cfg ops (Sys.start cfg h))
    (hrun : runOps cfg ops (Sys.start cfg h) = .ok w) :
    (populatedPrefix w.node.publishers ∧ populatedPrefix w.node.receivers)
    ∧ ((∀ i p, w.node.publishers.getD i none = some p →
          (w.heap.pubs p).id_ = 100 + (cfg.MAX_SUBSCRIBERS : Int) + (i : Int))
      ∧ (∀ i r, w.node.receivers.getD i none = some r →
          (w.heap.rcvs r).id_ = 100 + (i : Int)))
    ∧ (∀ t input w', stepOp cfg (Op.spinOnce t input) w = .ok w' →
        w'.node.publishers = w.node.publishers ∧ w'.node.receivers = w.node.receivers
        ∧ w'.heap.pubs = w.heap.pubs ∧ w'.heap.rcvs = w.heap.rcvs) := by
  obtain ⟨_, hcnt, hpre, hpid, hrid⟩ :=
    runOps_registryInv cfg ops (Sys.start cfg h) w hrun hno hfresh (start_registryInv cfg h)
  refine ⟨⟨hpre, receiversCounted_prefix cfg w.node hcnt⟩, ⟨hpid, hrid⟩, ?_⟩
  intro t input w' hst
  obtain ⟨hreg, hheap, _, _⟩ := stepOp_spinOnce_ok cfg t input w w' hst
  simp only [registryOf, Prod.mk.injEq] at hreg
  exact ⟨hreg.1, hreg.2.1, by rw [hheap], by rw [hheap]⟩

theorem exampleOps_fresh :
    freshOps defaultConfig [Op.advertise 3, Op.subscribe 7, Op.spinOnce 1000 [0xff, 0xff]]
      (Sys.start defaultConfig freshHeap) := by
  refine ⟨?_, ?_, ?_, ?_⟩
  · show some 3 ∉ _
    decide
  · show some 7 ∉ _
    decide
  · trivial
  · trivial

theorem registry_invariant_witness :
    ((runOrKeep defaultConfig [Op.advertise 3, Op.subscribe 7, Op.spinOnce 1000 [0xff, 0xff]]
        (Sys.start defaultConfig freshHeap)).heap.pubs 3).id_ = 125
    ∧ ∀ i r, (runOrKeep defaultConfig
          [Op.advertise 3, Op.subscribe 7, Op.spinOnce 1000 [0xff, 0xff]]
          (Sys.start defaultConfig freshHeap)).node.receivers.getD i none = some r →
        ((runOrKeep defaultConfig
          [Op.advertise 3, Op.subscribe 7, Op.spinOnce 1000 [0xff, 0xff]]
          (Sys.start defaultConfig freshHeap)).heap.rcvs r).id_ = 100 + (i : Int) :=
  ⟨rfl, (registry_invariant defaultConfig freshHeap
      [Op.advertise 3, Op.subscribe 7, Op.spinOnce 1000 [0xff, 0xff]] _
      (by decide) exampleOps_fresh rfl).2.1.2⟩

/-- C9 (as stated) fails: after `advertise(p)`, `advertise(p)` on the same publisher
object (address 3), slot 0 holds that publisher but its id is 126, the id of slot 1,
not `100 + MAX_SUBSCRIBERS + 0 = 125`. -/
theorem registry_ids_fail_on_reregistration :
    ∃ w, runOps defaultConfig [Op.advertise 3, Op.advertise 3]
        (Sys.start defaultConfig freshHeap) = .ok w
      ∧ w.node.publishers.getD 0 none = some 3
      ∧ (w.heap.pubs 3).id_ = 126
      ∧ (w.heap.pubs 3).id_ ≠ 100 + (defaultConfig.MAX_SUBSCRIBERS : Int) + ((0 : Nat) : Int) :=
  ⟨_, rfl, rfl, rfl, by decide⟩

/-! ## Clock offsets -/

theorem ulongMod_pos (cfg : Config) : 0 < cfg.ulongMod := by
  unfold Config.ulongMod
  exact Nat.pos_pow_of_pos _ (by decide)

theorem ulongMod_ge (cfg : Config) (hw : 32 ≤ cfg.ULONG_BITS) : 4294967296 ≤ cfg.ulongMod := by
  unfold Config.ulongMod
  calc 4294967296 = 2 ^ 32 := by norm_num
    _ ≤ 2 ^ cfg.ULONG_BITS := Nat.pow_le_pow_right (by decide) hw

theorem uadd_lt (cfg : Config) (a b : Nat) : uadd cfg a b < cfg.ulongMod :=
  Nat.mod_lt _ (ulongMod_pos cfg)

theorem usub_lt (cfg : Config) (a b : Nat) : usub cfg a b < cfg.ulongMod :=
  Nat.mod_lt _ (ulongMod_pos cfg)

theorem uadd_cast (cfg : Config) (a b : Nat) :
    ((uadd cfg a b : Nat) : Int) ≡ (a : Int) + (b : Int) [ZMOD (cfg.ulongMod : Int)] := by
  unfold uadd
  push_cast
  exact Int.mod_modEq _ _

theorem usub_cast (cfg : Config) (a b : Nat) :
    ((usub cfg a b : Nat) : Int) ≡ (a : Int) - (b : Int) [ZMOD (cfg.ulongMod : Int)] := by
  have hle : b % cfg.ulongMod ≤ cfg.ulongMod := le_of_lt (Nat.mod_lt _ (ulongMod_pos cfg))
  have h1 : ((usub cfg a b : Nat) : Int)
      = ((a : Int) % (cfg.ulongMod : Int)
          + ((cfg.ulongMod : Int) - (b : Int) % (cfg.ulongMod : Int))) % (cfg.ulongMod : Int) := by
    unfold usub
    push_cast [Nat.cast_sub hle]
    rfl
  rw [h1]
  have h2 : (a : Int) + ((cfg.ulongMod : Int) - (b : Int))
      = ((a : Int) - (b : Int)) + (cfg.ulongMod : Int) := by ring
  calc ((a : Int) % (cfg.ulongMod : Int)
          + ((cfg.ulongMod : Int) - (b : Int) % (cfg.ulongMod : Int))) % (cfg.ulongMod : Int)
      ≡ (a : Int) % (cfg.ulongMod : Int)
          + ((cfg.ulongMod : Int) - (b : Int) % (cfg.ulongMod : Int)) [ZMOD (cfg.ulongMod : Int)] :=
        Int.mod_modEq _ _
    _ ≡ (a : Int) + ((cfg.ulongMod : Int) - (b : Int)) [ZMOD (cfg.ulongMod : Int)] :=
        (Int.mod_modEq _ _).add ((Int.ModEq.refl _).sub (Int.mod_modEq _ _))
    _ ≡ (a : Int) - (b : Int) [ZMOD (cfg.ulongMod : Int)] := by
        rw [h2]; exact Int.add_modEq_right

theorem eq_of_cast_modEq (M a b : Nat) (ha : a < M) (hb : b < M)
    (h : (a : Int) ≡ (b : Int) [ZMOD (M : Int)]) : a = b :=
  Nat.ModEq.eq_of_lt_of_lt (Int.natCast_modEq_iff.mp h) ha hb

theorem now_setNow (cfg : Config) (s : NodeHandle) (sec nsec ms0 ms1 : Nat)
    (hw : 32 ≤ cfg.ULONG_BITS) (hnsec : nsec < 1000000000) (h01 : ms0 ≤ ms1) :
    now cfg ms1 (setNow cfg ms0 (sec, nsec) s)
      = ((sec + (nsec + (ms1 - ms0) * 1000000) / 1000000000) % cfg.ulongMod,
         (nsec + (ms1 - ms0) * 1000000) % 1000000000) := by
  have hM := ulongMod_ge cfg hw
  have hx : ms0 % 1000 * 1000000 % cfg.ulongMod = ms0 % 1000 * 1000000 :=
    Nat.mod_eq_of_lt (by omega)
  have hy : ms1 % 1000 * 1000000 % cfg.ulongMod = ms1 % 1000 * 1000000 :=
    Nat.mod_eq_of_lt (by omega)
  -- the raw nanosecond offset does not wrap
  have hno : uadd cfg (usub cfg nsec (ms0 % 1000 * 1000000)) 1000000000
      = nsec + 1000000000 - ms0 % 1000 * 1000000 := by
    apply eq_of_cast_modEq cfg.ulongMod _ _ (uadd_lt cfg _ _) (by omega)
    have h1 := (uadd_cast cfg (usub cfg nsec (ms0 % 1000 * 1000000)) 1000000000).trans
      ((usub_cast cfg nsec (ms0 % 1000 * 1000000)).add (Int.ModEq.refl _))
    have h2 : ((nsec + 1000000000 - ms0 % 1000 * 1000000 : Nat) : Int)
        = (nsec : Int) - ((ms0 % 1000 * 1000000 : Nat) : Int) + ((1000000000 : Nat) : Int) := by
      omega
    rw [h2]
    exact h1
  have hns : uadd cfg (ms1 % 1000 * 1000000)
        ((nsec + 1000000000 - ms0 % 1000 * 1000000) % 1000000000)
      = ms1 % 1000 * 1000000 + (nsec + 1000000000 - ms0 % 1000 * 1000000) % 1000000000 := by
    unfold uadd
    exact Nat.mod_eq_of_lt (by omega)
  simp only [now, setNow, normalizeSecNSec, hx, hy, hno, hns]
  refine Prod.ext ?_ ?_
  · simp only
    apply eq_of_cast_modEq cfg.ulongMod _ _ (uadd_lt cfg _ _)
      (Nat.mod_lt _ (ulongMod_pos cfg))
    have h1 := uadd_cast cfg
      (uadd cfg (ms1 / 1000)
        (uadd cfg (usub cfg (usub cfg sec (ms0 / 1000)) 1)
          ((nsec + 1000000000 - ms0 % 1000 * 1000000) / 1000000000)))
      ((ms1 % 1000 * 1000000 + (nsec + 1000000000 - ms0 % 1000 * 1000000) % 1000000000)
        / 1000000000)
    have h2 := uadd_cast cfg (ms1 / 1000)
      (uadd cfg (usub cfg (usub cfg sec (ms0 / 1000)) 1)
        ((nsec + 1000000000 - ms0 % 1000 * 1000000) / 1000000000))
    have h3 := uadd_cast cfg (usub cfg (usub cfg sec (ms0 / 1000)) 1)
      ((nsec + 1000000000 - ms0 % 1000 * 1000000) / 1000000000)
    have h4 := (usub_cast cfg (usub cfg sec (ms0 / 1000)) 1).trans
      ((usub_cast cfg sec (ms0 / 1000)).sub (Int.ModEq.refl _))
    have h5 := h1.trans ((h2.trans ((Int.ModEq.refl _).add
      (h3.trans (h4.add (Int.ModEq.refl _))))).add (Int.ModEq.refl _))
    have h6 : ((ms1 / 1000 : Nat) : Int)
          + ((sec : Int) - ((ms0 / 1000 : Nat) : Int) - ((1 : Nat) : Int)
            + (((nsec + 1000000000 - ms0 % 1000 * 1000000) / 1000000000 : Nat) : Int))
          + (((ms1 % 1000 * 1000000 + (nsec + 1000000000 - ms0 % 1000 * 1000000) % 1000000000)
              / 1000000000 : Nat) : Int)
        = (((sec + (nsec + (ms1 - ms0) * 1000000) / 1000000000 : Nat)) : Int) := by
      omega
    rw [h6] at h5
    have h7 : (((sec + (nsec + (ms1 - ms0) * 1000000) / 1000000000) % cfg.ulongMod : Nat) : Int)
        ≡ ((sec + (nsec + (ms1 - ms0) * 1000000) / 1000000000 : Nat) : Int)
          [ZMOD (cfg.ulongMod : Int)] := by
      rw [Int.ofNat_emod]
      exact Int.mod_modEq _ _
    exact h5.trans h7.symm
  · simp only
    omega

/-- C10. Clock round trip: for a time `(sec, nsec)` with `nsec < 10^9`, after
`setNow` at clock reading `ms0`, `now` at any clock reading `ms1 ≥ ms0` returns the
normalized time `(sec, nsec) + (ms1 - ms0)` milliseconds, seconds taken modulo the
range of `unsigned long` (at least 32 bits wide) and nanoseconds in `[0, 10^9)`; at
`ms1 = ms0` it returns `(sec, nsec)`, and `setNow(now())` leaves the reported time
unchanged. -/
theorem clock_round_trip (cfg : Config) (s : NodeHandle) (sec nsec ms0 ms1 : Nat)
    (hw : 32 ≤ cfg.ULONG_BITS) (hsec : sec < cfg.ulongMod) (hnsec : nsec < 1000000000)
    (h01 : ms0 ≤ ms1) :
    now cfg ms1 (setNow cfg ms0 (sec, nsec) s)
        = ((sec + (nsec + (ms1 - ms0) * 1000000) / 1000000000) % cfg.ulongMod,
           (nsec + (ms1 - ms0) * 1000000) % 1000000000)
    ∧ (now cfg ms1 (setNow cfg ms0 (sec, nsec) s)).2 < 1000000000
    ∧ now cfg ms0 (setNow cfg ms0 (sec, nsec) s) = (sec, nsec)
    ∧ now cfg ms1 (setNow cfg ms1 (now cfg ms1 s) s) = now cfg ms1 s := by
  have hsame : ∀ (a b m : Nat), a < cfg.ulongMod → b < 1000000000 →
      now cfg m (setNow cfg m (a, b) s) = (a, b) := by
    intro a b m ha hb
    rw [now_setNow cfg s a b m m hw hb (le_refl _)]
    refine Prod.ext ?_ ?_
    · simp only [Nat.sub_self, Nat.zero_mul, Nat.add_zero]
      rw [Nat.div_eq_of_lt hb, Nat.add_zero, Nat.mod_eq_of_lt ha]
    · simp only [Nat.sub_self, Nat.zero_mul, Nat.add_zero]
      exact Nat.mod_eq_of_lt hb
  refine ⟨now_setNow cfg s sec nsec ms0 ms1 hw hnsec h01, ?_, hsame sec nsec ms0 hsec hnsec, ?_⟩
  · rw [now_setNow cfg s sec nsec ms0 ms1 hw hnsec h01]
    exact Nat.mod_lt _ (by decide)
  · have h1 : (now cfg ms1 s).1 < cfg.ulongMod := by
      simp only [now, normalizeSecNSec]
      exact uadd_lt cfg _ _
    have h2 : (now cfg ms1 s).2 < 1000000000 := by
      simp only [now, normalizeSecNSec]
      exact Nat.mod_lt _ (by decide)
    exact hsame (now cfg ms1 s).1 (now cfg ms1 s).2 ms1 h1 h2

theorem clock_round_trip_witness :
    now defaultConfig 5000 (setNow defaultConfig 1234 (10, 999999999) startNode)
        = ((10 + (999999999 + (5000 - 1234) * 1000000) / 1000000000) % defaultConfig.ulongMod,
           (999999999 + (5000 - 1234) * 1000000) % 1000000000)
    ∧ now defaultConfig 1234 (setNow defaultConfig 1234 (10, 999999999) startNode)
        = (10, 999999999) :=
  ⟨(clock_round_trip defaultConfig startNode 10 999999999 1234 5000 (by decide) (by decide)
      (by decide) (by decide)).1,
   (clock_round_trip defaultConfig startNode 10 999999999 1234 5000 (by decide) (by decide)
      (by decide) (by decide)).2.2.1⟩

/-! ## Time synchronisation -/

theorem now_setNow_wide (cfg : Config) (s : NodeHandle) (sec nsec ms0 ms1 : Nat)
    (hw : 32 ≤ cfg.ULONG_BITS) (hnsec : nsec < 2000000000) (h01 : ms0 ≤ ms1) :
    now cfg ms1 (setNow cfg ms0 (sec, nsec) s)
      = ((sec + (nsec + (ms1 - ms0) * 1000000) / 1000000000) % cfg.ulongMod,
         (nsec + (ms1 - ms0) * 1000000) % 1000000000) := by
  have hM := ulongMod_ge cfg hw
  have hx : ms0 % 1000 * 1000000 % cfg.ulongMod = ms0 % 1000 * 1000000 :=
    Nat.mod_eq_of_lt (by omega)
  have hy : ms1 % 1000 * 1000000 % cfg.ulongMod = ms1 % 1000 * 1000000 :=
    Nat.mod_eq_of_lt (by omega)
  have hno : uadd cfg (usub cfg nsec (ms0 % 1000 * 1000000)) 1000000000
      = nsec + 1000000000 - ms0 % 1000 * 1000000 := by
    apply eq_of_cast_modEq cfg.ulongMod _ _ (uadd_lt cfg _ _) (by omega)
    have h1 := (uadd_cast cfg (usub cfg nsec (ms0 % 1000 * 1000000)) 1000000000).trans
      ((usub_cast cfg nsec (ms0 % 1000 * 1000000)).add (Int.ModEq.refl _))
    have h2 : ((nsec + 1000000000 - ms0 % 1000 * 1000000 : Nat) : Int)
        = (nsec : Int) - ((ms0 % 1000 * 1000000 : Nat) : Int) + ((1000000000 : Nat) : Int) := by
      omega
    rw [h2]
    exact h1
  have hns : uadd cfg (ms1 % 1000 * 1000000)
        ((nsec + 1000000000 - ms0 % 1000 * 1000000) % 1000000000)
      = ms1 % 1000 * 1000000 + (nsec + 1000000000 - ms0 % 1000 * 1000000) % 1000000000 := by
    unfold uadd
    exact Nat.mod_eq_of_lt (by omega)
  simp only [now, setNow, normalizeSecNSec, hx, hy, hno, hns]
  refine Prod.ext ?_ ?_
  · simp only
    apply eq_of_cast_modEq cfg.ulongMod _ _ (uadd_lt cfg _ _)
      (Nat.mod_lt _ (ulongMod_pos cfg))
    have h1 := uadd_cast cfg
      (uadd cfg (ms1 / 1000)
        (uadd cfg (usub cfg (usub cfg sec (ms0 / 1000)) 1)
          ((nsec + 1000000000 - ms0 % 1000 * 1000000) / 1000000000)))
      ((ms1 % 1000 * 1000000 + (nsec + 1000000000 - ms0 % 1000 * 1000000) % 1000000000)
        / 1000000000)
    have h2 := uadd_cast cfg (ms1 / 1000)
      (uadd cfg (usub cfg (usub cfg sec (ms0 / 1000)) 1)
        ((nsec + 1000000000 - ms0 % 1000 * 1000000) / 1000000000))
    have h3 := uadd_cast cfg (usub cfg (usub cfg sec (ms0 / 1000)) 1)
      ((nsec + 1000000000 - ms0 % 1000 * 1000000) / 1000000000)
    have h4 := (usub_cast cfg (usub cfg sec (ms0 / 1000)) 1).trans
      ((usub_cast cfg sec (ms0 / 1000)).sub (Int.ModEq.refl _))
    have h5 := h1.trans ((h2.trans ((Int.ModEq.refl _).add
      (h3.trans (h4.add (Int.ModEq.refl _))))).add (Int.ModEq.refl _))
    have h6 : ((ms1 / 1000 : Nat) : Int)
          + ((sec : Int) - ((ms0 / 1000 : Nat) : Int) - ((1 : Nat) : Int)
            + (((nsec + 1000000000 - ms0 % 1000 * 1000000) / 1000000000 : Nat) : Int))
          + (((ms1 % 1000 * 1000000 + (nsec + 1000000000 - ms0 % 1000 * 1000000) % 1000000000)
              / 1000000000 : Nat) : Int)
        = (((sec + (nsec + (ms1 - ms0) * 1000000) / 1000000000 : Nat)) : Int) := by
      omega
    rw [h6] at h5
    have h7 : (((sec + (nsec + (ms1 - ms0) * 1000000) / 1000000000) % cfg.ulongMod : Nat) : Int)
        ≡ ((sec + (nsec + (ms1 - ms0) * 1000000) / 1000000000 : Nat) : Int)
          [ZMOD (cfg.ulongMod : Int)] := by
      rw [Int.ofNat_emod]
      exact Int.mod_modEq _ _
    exact h5.trans h7.symm
  · simp only
    omega


theorem usub_of_le (cfg : Config) (a b : Nat) (hba : b ≤ a) (ha : a < cfg.ulongMod) :
    usub cfg a b = a - b := by
  apply eq_of_cast_modEq cfg.ulongMod _ _ (usub_lt cfg _ _) (by omega)
  have h1 := usub_cast cfg a b
  have h2 : ((a - b : Nat) : Int) = (a : Int) - (b : Int) := by omega
  rw [h2]
  exact h1

/-- C11. Time sync: when `remote_time_` holds the reading `t1` recorded by
`requestSyncTime` and a reply carrying `(sec, nsec)` with `nsec < 10^9` is processed
at clock reading `t2 ≥ t1`, then `now()` at reading `t2` is the normalized value of
`(sec + (t2 - t1) / 1000, nsec + ((t2 - t1) mod 1000) * 10^6)` and
`last_sync_receive_time` is `t2`; the dispatcher hands a frame on the time-sync id
to exactly this computation; for `t1 = 1000`, `t2 = 1050`, `(sec, nsec) = (10, 0)` the
result is `(10, 50000000)`. -/
theorem time_sync (cfg : Config) (hw : 32 ≤ cfg.ULONG_BITS) :
    (∀ (s : NodeHandle) (data : List Nat) (sec nsec t1 t2 : Nat),
        s.remote_time_ = t1 → cfg.timeDeserialize data = (sec, nsec) →
        nsec < 1000000000 → t1 ≤ t2 → t2 < cfg.ulongMod →
        now cfg t2 (syncTime cfg t2 data s)
            = normalizeSecNSec cfg (sec + (t2 - t1) / 1000)
                (nsec + (t2 - t1) % 1000 * 1000000)
          ∧ (syncTime cfg t2 data s).last_sync_receive_time = t2)
    ∧ (∀ (h : Heap) (s : NodeHandle) (t2 : Nat), s.topic_ = cfg.ID_TIME →
        cfg.ID_TIME ≠ TOPIC_NEGOTIATION →
        dispatch cfg h t2 s = .ok (syncTime cfg t2 s.message_in s))
    ∧ (∀ (s : NodeHandle) (data : List Nat),
        s.remote_time_ = 1000 → cfg.timeDeserialize data = (10, 0) →
        now cfg 1050 (syncTime cfg 1050 data s) = (10, 50000000)) := by
  have hM := ulongMod_ge cfg hw
  have hgen : ∀ (s : NodeHandle) (data : List Nat) (sec nsec t1 t2 : Nat),
      s.remote_time_ = t1 → cfg.timeDeserialize data = (sec, nsec) →
      nsec < 1000000000 → t1 ≤ t2 → t2 < cfg.ulongMod →
      now cfg t2 (syncTime cfg t2 data s)
          = normalizeSecNSec cfg (sec + (t2 - t1) / 1000)
              (nsec + (t2 - t1) % 1000 * 1000000) := by
    intro s data sec nsec t1 t2 hrem hdes hnsec h12 ht2
    have hoff : usub cfg t2 s.remote_time_ = t2 - t1 := by
      rw [hrem]; exact usub_of_le cfg t2 t1 h12 ht2
    have hmul : (t2 - t1) % 1000 * 1000000 % cfg.ulongMod = (t2 - t1) % 1000 * 1000000 :=
      Nat.mod_eq_of_lt (by omega)
    have hns : uadd cfg nsec ((t2 - t1) % 1000 * 1000000)
        = nsec + (t2 - t1) % 1000 * 1000000 := by
      unfold uadd
      exact Nat.mod_eq_of_lt (by omega)
    have hnow : now cfg t2 (syncTime cfg t2 data s)
        = now cfg t2 (setNow cfg t2
            (uadd cfg sec ((t2 - t1) / 1000), nsec + (t2 - t1) % 1000 * 1000000) s) := by
      simp only [syncTime, hoff, hdes, hmul, hns, now]
    rw [hnow, now_setNow_wide cfg s _ _ t2 t2 hw (by omega) (le_refl _)]
    simp only [Nat.sub_self, Nat.zero_mul, Nat.add_zero, normalizeSecNSec, uadd]
    rw [Nat.mod_add_mod]
  refine ⟨?_, ?_, ?_⟩
  · intro s data sec nsec t1 t2 hrem hdes hnsec h12 ht2
    exact ⟨hgen s data sec nsec t1 t2 hrem hdes hnsec h12 ht2, rfl⟩
  · intro h s t2 htop hne
    simp only [dispatch, htop, if_neg hne, if_true]
  · intro s data hrem hdes
    rw [hgen s data 10 0 1000 1050 hrem hdes (by decide) (by decide) (by omega)]
    simp only [normalizeSecNSec, uadd]
    refine Prod.ext ?_ ?_
    · exact Nat.mod_eq_of_lt (by omega)
    · rfl

theorem time_sync_witness :
    now defaultConfig 1050
        (syncTime defaultConfig 1050 [10, 0, 0, 0, 0, 0, 0, 0]
          (requestSyncTime defaultConfig 1000 startNode))
      = (10, 50000000) :=
  (time_sync defaultConfig (by decide)).2.2
    (requestSyncTime defaultConfig 1000 startNode) [10, 0, 0, 0, 0, 0, 0, 0] rfl rfl

/-! ## Liveness schedule -/

theorem dispatch_configured (cfg : Config) (h : Heap) (t : Nat) (s s' : NodeHandle)
    (hd : dispatch cfg h t s = .ok s') (hne : s.topic_ ≠ TOPIC_NEGOTIATION) :
    s'.configured_ = s.configured_ := by
  unfold dispatch at hd
  rw [if_neg hne] at hd
  split at hd
  · simp only [Except.ok.injEq] at hd
    subst hd; rfl
  · split at hd
    · simp only [Except.ok.injEq] at hd
      subst hd; rfl
    · split at hd
      · split at hd
        · simp only [Except.ok.injEq] at hd
          subst hd; rfl
        · simp only [Except.ok.injEq] at hd
          subst hd; rfl
      · exact Except.noConfusion hd

theorem spinByte_configured (cfg : Config) (h : Heap) (t b : Nat) (s s' : NodeHandle)
    (hb : spinByte cfg h t b s = .ok s')
    (hno : ¬ (s.state_ = STATE_CHECKSUM ∧ Int.tmod (s.checksum_ + (b : Int)) 256 = 255
        ∧ s.topic_ = TOPIC_NEGOTIATION)) :
    s'.configured_ = s.configured_ := by
  by_cases h6 : s.state_ = STATE_MESSAGE
  · simp only [spinByte, h6, if_true] at hb
    split at hb
    · split at hb <;> (simp only [Except.ok.injEq] at hb; subst hb; rfl)
    · exact Except.noConfusion hb
  by_cases h0 : s.state_ = STATE_FIRST_FF
  · simp only [spinByte, h0, STATE_FIRST_FF, STATE_SECOND_FF, STATE_TOPIC_L, STATE_TOPIC_H, STATE_SIZE_L, STATE_SIZE_H, STATE_MESSAGE, STATE_CHECKSUM] at hb
    norm_num at hb
    split at hb <;> (simp only [Except.ok.injEq] at hb; subst hb; rfl)
  by_cases h1 : s.state_ = STATE_SECOND_FF
  · simp only [spinByte, h1, STATE_FIRST_FF, STATE_SECOND_FF, STATE_TOPIC_L, STATE_TOPIC_H, STATE_SIZE_L, STATE_SIZE_H, STATE_MESSAGE, STATE_CHECKSUM] at hb
    norm_num at hb
    split at hb <;> (simp only [Except.ok.injEq] at hb; subst hb; rfl)
  by_cases h2 : s.state_ = STATE_TOPIC_L
  · simp only [spinByte, h2, STATE_FIRST_FF, STATE_SECOND_FF, STATE_TOPIC_L, STATE_TOPIC_H, STATE_SIZE_L, STATE_SIZE_H, STATE_MESSAGE, STATE_CHECKSUM] at hb
    norm_num at hb
    subst hb; rfl
  by_cases h3 : s.state_ = STATE_TOPIC_H
  · simp only [spinByte, h3, STATE_FIRST_FF, STATE_SECOND_FF, STATE_TOPIC_L, STATE_TOPIC_H, STATE_SIZE_L, STATE_SIZE_H, STATE_MESSAGE, STATE_CHECKSUM] at hb
    norm_num at hb
    subst hb; rfl
  by_cases h4 : s.state_ = STATE_SIZE_L
  · simp only [spinByte, h4, STATE_FIRST_FF, STATE_SECOND_FF, STATE_TOPIC_L, STATE_TOPIC_H, STATE_SIZE_L, STATE_SIZE_H, STATE_MESSAGE, STATE_CHECKSUM] at hb
    norm_num at hb
    subst hb; rfl
  by_cases h5 : s.state_ = STATE_SIZE_H
  · simp only [spinByte, h5, STATE_FIRST_FF, STATE_SECOND_FF, STATE_TOPIC_L, STATE_TOPIC_H, STATE_SIZE_L, STATE_SIZE_H, STATE_MESSAGE, STATE_CHECKSUM] at hb
    norm_num at hb
    split at hb <;> (simp only [Except.ok.injEq] at hb; subst hb; rfl)
  by_cases h7 : s.state_ = STATE_CHECKSUM
  · by_cases hck : Int.tmod (s.checksum_ + (b : Int)) 256 = 255
    · have htop : s.topic_ ≠ TOPIC_NEGOTIATION := fun ht => hno ⟨h7, hck, ht⟩
      simp only [spinByte, h7, hck, STATE_FIRST_FF, STATE_SECOND_FF, STATE_TOPIC_L, STATE_TOPIC_H, STATE_SIZE_L, STATE_SIZE_H, STATE_MESSAGE, STATE_CHECKSUM] at hb
      norm_num at hb
      split at hb
      · rename_i s1 hdis
        simp only [Except.ok.injEq] at hb
        subst hb
        have hcfg := dispatch_configured cfg h t _ s1 hdis htop
        exact hcfg
      · exact Except.noConfusion hb
    · simp only [spinByte, h7, hck, STATE_FIRST_FF, STATE_SECOND_FF, STATE_TOPIC_L, STATE_TOPIC_H, STATE_SIZE_L, STATE_SIZE_H, STATE_MESSAGE, STATE_CHECKSUM] at hb
      norm_num at hb
      subst hb; rfl
  · simp only [spinByte, h6, h0, h1, h2, h3, h4, h5, h7, if_false, Except.ok.injEq] at hb
    subst hb; rfl

theorem drain_configured (cfg : Config) (h : Heap) (t : Nat) (bs : List Nat) :
    ∀ (s s' : NodeHandle), drain cfg h t bs s = .ok s' →
      TOPIC_NEGOTIATION ∉ dispatchedTopics cfg h t bs s → s'.configured_ = s.configured_ := by
  induction bs with
  | nil =>
    intro s s' hd _
    simp only [drain, Except.ok.injEq] at hd
    subst hd; rfl
  | cons b bs ih =>
    intro s s' hd hno
    rw [drain] at hd
    rw [dispatchedTopics] at hno
    cases hb : spinByte cfg h t b s with
    | error e => rw [hb] at hd; exact Except.noConfusion hd
    | ok s1 =>
      rw [hb] at hd hno
      have hhere : ¬ (s.state_ = STATE_CHECKSUM ∧ Int.tmod (s.checksum_ + (b : Int)) 256 = 255
          ∧ s.topic_ = TOPIC_NEGOTIATION) := by
        rintro ⟨h1, h2, h3⟩
        apply hno
        rw [if_pos ⟨h1, h2⟩, h3]
        exact List.mem_append_left _ (List.mem_singleton_self _)
      have hrest : TOPIC_NEGOTIATION ∉ dispatchedTopics cfg h t bs s1 :=
        fun hm => hno (List.mem_append_right _ hm)
      rw [ih s1 s' hd hrest, spinByte_configured cfg h t b s s1 hb hhere]

theorem spinOnce_stays_unconfigured (cfg : Config) (h : Heap) (t : Nat) (input : List Nat)
    (s s' : NodeHandle) (hsp : spinOnce cfg h t input s = .ok s')
    (hno : TOPIC_NEGOTIATION ∉
      dispatchedTopics cfg h t input (timeoutCheck t (livenessCheck cfg t s)))
    (hoff : usub cfg t s.last_sync_receive_time > SYNC_SECONDS * 2200 ∨ s.configured_ = false) :
    s'.configured_ = false := by
  unfold spinOnce at hsp
  cases hd : drain cfg h t input (timeoutCheck t (livenessCheck cfg t s)) with
  | error e => rw [hd] at hsp; exact Except.noConfusion hsp
  | ok s1 =>
    rw [hd] at hsp
    simp only [Except.ok.injEq] at hsp
    subst hsp
    have h1 := drain_configured cfg h t input _ s1 hd hno
    have h2 : (livenessCheck cfg t s).configured_ = false := by
      unfold livenessCheck
      rcases hoff with hgt | hfalse
      · rw [if_pos hgt]
      · split
        · rfl
        · exact hfalse
    rw [resyncCheck_configured_, h1, timeoutCheck_configured_, h2]

/-- C12. Liveness schedule: a poll that hands no negotiation frame to the
dispatcher and whose clock reading exceeds `last_sync_receive_time` by more than
`5 * 2200 = 11000` ms, or that finds the node unconfigured, leaves `connected()`
false; hence `connected()` stays false over every run of polls without a dispatched
negotiation frame; and `initNode`, `advertise`, `subscribe` and `advertiseService`
never change the flag. -/
theorem liveness_monotone (cfg : Config) (h : Heap) :
    (∀ (t : Nat) (input : List Nat) (s s' : NodeHandle),
        spinOnce cfg h t input s = .ok s' →
        TOPIC_NEGOTIATION ∉
          dispatchedTopics cfg h t input (timeoutCheck t (livenessCheck cfg t s)) →
        (s.last_sync_receive_time + 11000 < t ∧ t < cfg.ulongMod) ∨ connected s = false →
        connected s' = false)
    ∧ (∀ (polls : List (Nat × List Nat)) (s s' : NodeHandle),
        runPolls cfg h polls s = .ok s' → pollsNoNegotiation cfg h polls s →
        connected s = false → connected s' = false)
    ∧ (∀ (s : NodeHandle) (hp : Heap) (a : Nat),
        connected (initNode s) = connected s
        ∧ connected (advertise cfg a s hp).2.1 = connected s
        ∧ connected (subscribe cfg a s hp).2.1 = connected s
        ∧ connected (advertiseService cfg a s hp).2.1 = connected s) := by
  have hpoll : ∀ (t : Nat) (input : List Nat) (s s' : NodeHandle),
      spinOnce cfg h t input s = .ok s' →
      TOPIC_NEGOTIATION ∉
        dispatchedTopics cfg h t input (timeoutCheck t (livenessCheck cfg t s)) →
      (s.last_sync_receive_time + 11000 < t ∧ t < cfg.ulongMod) ∨ connected s = false →
      connected s' = false := by
    intro t input s s' hsp hno hoff
    apply spinOnce_stays_unconfigured cfg h t input s s' hsp hno
    rcases hoff with ⟨hgt, hlt⟩ | hfalse
    · left
      rw [usub_of_le cfg t s.last_sync_receive_time (by omega) hlt]
      simp only [SYNC_SECONDS]
      omega
    · right; exact hfalse
  refine ⟨hpoll, ?_, ?_⟩
  · intro polls
    induction polls with
    | nil =>
      intro s s' hrun _ hs
      simp only [runPolls, Except.ok.injEq] at hrun
      subst hrun; exact hs
    | cons p ps ih =>
      intro s s' hrun hno hs
      rw [runPolls] at hrun
      rw [pollsNoNegotiation] at hno
      cases hsp : spinOnce cfg h p.1 p.2 s with
      | error e => rw [hsp] at hrun; exact Except.noConfusion hrun
      | ok s1 =>
        rw [hsp] at hrun hno
        exact ih s1 s' hrun hno.2 (hpoll p.1 p.2 s s1 hsp hno.1 (Or.inr hs))
  · intro s hp a
    refine ⟨rfl, ?_, ?_, ?_⟩
    · rcases advertise_cases cfg a s hp with ⟨_, hres⟩ | ⟨i, _, hres⟩ <;> simp only [hres, connected]
    · unfold subscribe
      rcases registerReceiver_cases cfg a s hp with ⟨_, hres⟩ | ⟨_, hres⟩ <;> simp only [hres, connected]
    · unfold advertiseService
      rcases registerReceiver_cases cfg a s (wireService a hp) with ⟨_, hres⟩ | ⟨_, hres⟩ <;>
        simp only [hres, connected]

theorem liveness_monotone_witness :
    connected negotiatedNode = true
    ∧ connected (pollOrKeep defaultConfig oneSubscriber.2.2 12001 [] negotiatedNode) = false :=
  ⟨rfl, (liveness_monotone defaultConfig oneSubscriber.2.2).1 12001 [] negotiatedNode
    (pollOrKeep defaultConfig oneSubscriber.2.2 12001 [] negotiatedNode) rfl
    (List.not_mem_nil _) (Or.inl ⟨by decide, by decide⟩)⟩

/-! ## Negotiation -/

theorem prefixTable_getD (held : List Nat) (n j : Nat) :
    (prefixTable held n).getD j none = held[j]? := by
  unfold prefixTable
  by_cases hj : j < held.length
  · simp [List.getD, List.getElem?_append_left, hj]
  · have hj' : held.length ≤ j := Nat.le_of_not_lt hj
    rw [List.getElem?_eq_none hj']
    by_cases hr : j - held.length < n - held.length
    · simp [List.getD, List.getElem?_append_right, hj', List.getElem?_replicate, hr]
    · simp [List.getD, List.getElem?_append_right, hj', List.getElem?_replicate, hr]

theorem negotiatePublishers_held (cfg : Config) (h : Heap) (rest : List Nat) :
    ∀ (fuel i : Nat) (s : NodeHandle),
      (∀ j x, rest[j]? = some x → s.publishers.getD (i + j) none = some x) →
      (fuel = rest.length ∨
        (rest.length < fuel ∧ s.publishers.getD (i + rest.length) none = none)) →
      negotiatePublishers cfg h s fuel i
        = { s with published := s.published ++ rest.map (publisherInfo cfg h) } := by
  induction rest with
  | nil =>
    intro fuel i s _ hstop
    cases fuel with
    | zero => simp [negotiatePublishers]
    | succ f =>
      rcases hstop with hz | ⟨_, hnone⟩
      · simp at hz
      · simp only [List.length_nil, Nat.add_zero] at hnone
        rw [negotiatePublishers, hnone]
        simp
  | cons p ps ih =>
    intro fuel i s hsome hstop
    cases fuel with
    | zero =>
      rcases hstop with hz | ⟨hlt, _⟩
      · simp at hz
      · exact absurd hlt (Nat.not_lt_zero _)
    | succ f =>
      have h0 : s.publishers.getD i none = some p := by
        have := hsome 0 p (by simp)
        simpa using this
      rw [negotiatePublishers, h0]
      simp only
      rw [ih f (i + 1) _ ?_ ?_]
      · simp [nodeOutputPublish, publisherInfo]
      · intro j x hj
        have := hsome (j + 1) x (by simpa using hj)
        simpa [nodeOutputPublish, Nat.add_assoc, Nat.add_comm 1 j] using this
      · rcases hstop with heq | ⟨hlt, hnone⟩
        · left
          simpa using heq
        · right
          refine ⟨by simpa using hlt, ?_⟩
          simpa [nodeOutputPublish, Nat.add_assoc, Nat.add_comm 1 ps.length] using hnone

theorem negotiateReceivers_held (cfg : Config) (h : Heap) (rest : List Nat) :
    ∀ (fuel i : Nat) (s : NodeHandle),
      (∀ j x, rest[j]? = some x → s.receivers.getD (i + j) none = some x) →
      (fuel = rest.length ∨
        (rest.length < fuel ∧ s.receivers.getD (i + rest.length) none = none)) →
      negotiateReceivers cfg h s fuel i
        = { s with published := s.published ++ rest.map (receiverInfo cfg h) } := by
  induction rest with
  | nil =>
    intro fuel i s _ hstop
    cases fuel with
    | zero => simp [negotiateReceivers]
    | succ f =>
      rcases hstop with hz | ⟨_, hnone⟩
      · simp at hz
      · simp only [List.length_nil, Nat.add_zero] at hnone
        rw [negotiateReceivers, hnone]
        simp
  | cons p ps ih =>
    intro fuel i s hsome hstop
    cases fuel with
    | zero =>
      rcases hstop with hz | ⟨hlt, _⟩
      · simp at hz
      · exact absurd hlt (Nat.not_lt_zero _)
    | succ f =>
      have h0 : s.receivers.getD i none = some p := by
        have := hsome 0 p (by simp)
        simpa using this
      rw [negotiateReceivers, h0]
      simp only
      rw [ih f (i + 1) _ ?_ ?_]
      · simp [nodeOutputPublish, receiverInfo]
      · intro j x hj
        have := hsome (j + 1) x (by simpa using hj)
        simpa [nodeOutputPublish, Nat.add_assoc, Nat.add_comm 1 j] using this
      · rcases hstop with heq | ⟨hlt, hnone⟩
        · left
          simpa using heq
        · right
          refine ⟨by simpa using hlt, ?_⟩
          simpa [nodeOutputPublish, Nat.add_assoc, Nat.add_comm 1 ps.length] using hnone

theorem negotiateTopics_held (cfg : Config) (h : Heap) (s : NodeHandle)
    (pubs rcvs : List Nat)
    (hpubs : s.publishers = prefixTable pubs cfg.MAX_PUBLISHERS)
    (hrcvs : s.receivers = prefixTable rcvs cfg.MAX_SUBSCRIBERS)
    (hk : pubs.length ≤ cfg.MAX_PUBLISHERS) (hm : rcvs.length ≤ cfg.MAX_SUBSCRIBERS) :
    negotiateTopics cfg h s
      = { s with configured_ := true,
                 published := s.published ++ pubs.map (publisherInfo cfg h)
                   ++ rcvs.map (receiverInfo cfg h) } := by
  unfold negotiateTopics
  simp only
  rw [negotiatePublishers_held cfg h pubs cfg.MAX_PUBLISHERS 0 _ ?_ ?_]
  · rw [negotiateReceivers_held cfg h rcvs cfg.MAX_SUBSCRIBERS 0 _ ?_ ?_]
    · intro j x hj
      simp only [hrcvs, Nat.zero_add, prefixTable_getD]
      exact hj
    · rcases Nat.eq_or_lt_of_le hm with heq | hlt
      · left; exact heq.symm
      · right
        refine ⟨hlt, ?_⟩
        simp only [hrcvs, Nat.zero_add, prefixTable_getD]
        exact List.getElem?_eq_none (le_refl _)
  · intro j x hj
    simp only [hpubs, Nat.zero_add, prefixTable_getD]
    exact hj
  · rcases Nat.eq_or_lt_of_le hk with heq | hlt
    · left; exact heq.symm
    · right
      refine ⟨hlt, ?_⟩
      simp only [hpubs, Nat.zero_add, prefixTable_getD]
      exact List.getElem?_eq_none (le_refl _)

theorem usub_self (cfg : Config) (t : Nat) : usub cfg t t = 0 := by
  have hpos := ulongMod_pos cfg
  have hlt : t % cfg.ulongMod < cfg.ulongMod := Nat.mod_lt _ hpos
  unfold usub
  rw [Nat.add_sub_cancel' (le_of_lt hlt)]
  exact Nat.mod_self _

theorem drain_negotiation (cfg : Config) (h : Heap) (t : Nat) (s : NodeHandle)
    (pubs rcvs : List Nat) (hs : s.state_ = STATE_FIRST_FF)
    (hpubs : s.publishers = prefixTable pubs cfg.MAX_PUBLISHERS)
    (hrcvs : s.receivers = prefixTable rcvs cfg.MAX_SUBSCRIBERS)
    (hk : pubs.length ≤ cfg.MAX_PUBLISHERS) (hm : rcvs.length ≤ cfg.MAX_SUBSCRIBERS) :
    drain cfg h t [0xff, 0xff, 0, 0, 0, 0, 0xff] s = .ok
      { s with state_ := STATE_FIRST_FF,
               last_msg_timeout_time := uadd cfg t MSG_TIMEOUT,
               topic_ := 0, checksum_ := 255, remaining_data_bytes_ := 0, data_index_ := 0,
               configured_ := true,
               published := s.published ++ [(cfg.ID_TIME, OutMsg.time 0 0)]
                 ++ pubs.map (publisherInfo cfg h) ++ rcvs.map (receiverInfo cfg h),
               remote_time_ := t,
               last_sync_time := t,
               last_sync_receive_time := t } := by
  have hd := drain_append cfg h t [0xff, 0xff, 0, 0, 0, 0] [0xff] s
  have hbody := drain_frame_body cfg h t 0 0 0 0 [] s hs rfl (Nat.zero_le _)
  simp only [List.append_nil] at hbody
  rw [hbody] at hd
  simp only [List.cons_append, List.nil_append] at hd
  rw [hd, drain_singleton, spinByte_checksum_valid cfg h t]
  · have hdis : dispatch cfg h t
        { s with state_ := STATE_CHECKSUM,
                 last_msg_timeout_time := uadd cfg t MSG_TIMEOUT,
                 topic_ := ((0 : Nat) : Int) + ((0 : Nat) : Int) * 256,
                 checksum_ := ((0 : Nat) : Int) + ((0 : Nat) : Int) + ((0 : Nat) : Int)
                   + ((0 : Nat) : Int) + ((([] : List Nat).sum : Nat) : Int)
                   + ((0xff : Nat) : Int),
                 remaining_data_bytes_ := 0,
                 data_index_ := ((([] : List Nat).length : Nat) : Int),
                 message_in := writeAt s.message_in 0 [] }
        = .ok { negotiateTopics cfg h (requestSyncTime cfg t
                  { s with state_ := STATE_CHECKSUM,
                           last_msg_timeout_time := uadd cfg t MSG_TIMEOUT,
                           topic_ := 0, checksum_ := 255, remaining_data_bytes_ := 0,
                           data_index_ := 0 })
                with last_sync_time := t, last_sync_receive_time := t } := by
      simp [dispatch, TOPIC_NEGOTIATION, writeAt]
    rw [hdis]
    simp only
    rw [negotiateTopics_held cfg h _ pubs rcvs (by simpa [requestSyncTime, nodeOutputPublish] using hpubs)
      (by simpa [requestSyncTime, nodeOutputPublish] using hrcvs) hk hm]
    simp [requestSyncTime, nodeOutputPublish]
  · rfl
  · simp
  · simp

/-- C15. Negotiation: when the populated publisher slots are a prefix holding `pubs`
and the populated receiver slots a prefix holding `rcvs`, a poll at clock reading `t`
that reads `FF FF 00 00 00 00 FF` from await-sync-1 leaves `connected()` true, sets
`last_sync_time = last_sync_receive_time = t`, and hands the output encoder one
time-sync request, then one topic-info message on the publishers id per publisher
slot, in slot order, then one on the subscribers id per receiver slot, in slot
order, each carrying the endpoint's id, topic name and type name, and nothing else. -/
theorem negotiation_poll (cfg : Config) (h : Heap) (t : Nat) (s : NodeHandle)
    (pubs rcvs : List Nat) (hs : s.state_ = STATE_FIRST_FF)
    (hpubs : s.publishers = prefixTable pubs cfg.MAX_PUBLISHERS)
    (hrcvs : s.receivers = prefixTable rcvs cfg.MAX_SUBSCRIBERS)
    (hk : pubs.length ≤ cfg.MAX_PUBLISHERS) (hm : rcvs.length ≤ cfg.MAX_SUBSCRIBERS) :
    ∃ s', spinOnce cfg h t [0xff, 0xff, 0, 0, 0, 0, 0xff] s = .ok s'
      ∧ connected s' = true
      ∧ s'.last_sync_time = t ∧ s'.last_sync_receive_time = t
      ∧ s'.published = s.published ++ [(cfg.ID_TIME, OutMsg.time 0 0)]
          ++ pubs.map (publisherInfo cfg h) ++ rcvs.map (receiverInfo cfg h) := by
  have hl : (livenessCheck cfg t s).state_ = STATE_FIRST_FF := by simpa using hs
  have hd := drain_negotiation cfg h t (livenessCheck cfg t s) pubs rcvs hl
    (by simpa using hpubs) (by simpa using hrcvs) hk hm
  obtain ⟨s1, hd1, hc1, hst1, hsr1, hp1⟩ : ∃ s1,
      drain cfg h t [0xff, 0xff, 0, 0, 0, 0, 0xff] (timeoutCheck t (livenessCheck cfg t s))
        = .ok s1
      ∧ s1.configured_ = true ∧ s1.last_sync_time = t ∧ s1.last_sync_receive_time = t
      ∧ s1.published = s.published ++ [(cfg.ID_TIME, OutMsg.time 0 0)]
          ++ pubs.map (publisherInfo cfg h) ++ rcvs.map (receiverInfo cfg h) := by
    rw [timeoutCheck_idle t _ hl]
    exact ⟨_, hd, rfl, rfl, rfl, by simp⟩
  have hre : resyncCheck cfg t s1 = s1 := by
    unfold resyncCheck
    rw [hst1, usub_self]
    simp [SYNC_SECONDS]
  refine ⟨s1, ?_, hc1, hst1, hsr1, hp1⟩
  unfold spinOnce
  rw [hd1]
  simp only [hre]

theorem negotiation_poll_witness :
    ∃ s', spinOnce defaultConfig oneSubscriber.2.2 1000 [0xff, 0xff, 0, 0, 0, 0, 0xff]
        oneSubscriber.2.1 = .ok s'
      ∧ connected s' = true
      ∧ s'.last_sync_time = 1000 ∧ s'.last_sync_receive_time = 1000
      ∧ s'.published = oneSubscriber.2.1.published ++ [(defaultConfig.ID_TIME, OutMsg.time 0 0)]
          ++ ([] : List Nat).map (publisherInfo defaultConfig oneSubscriber.2.2)
          ++ [7].map (receiverInfo defaultConfig oneSubscriber.2.2) :=
  negotiation_poll defaultConfig oneSubscriber.2.2 1000 oneSubscriber.2.1 [] [7] rfl rfl rfl
    (by decide) (by decide)

/-! ## Resync schedule -/

theorem spinOnce_idle (cfg : Config) (h : Heap) (t : Nat) (s : NodeHandle) :
    spinOnce cfg h t [] s
      = .ok (resyncCheck cfg t (timeoutCheck t (livenessCheck cfg t s))) := rfl

/-- C17. Resync schedule: a poll that reads no input and finds the node configured,
with `now - last_sync_receive_time` at most `11000`, hands the encoder a time-sync
request iff `now - last_sync_time > 5 * 500 = 2500` (unsigned subtraction); when it
does, exactly one empty time message on the time-sync id is added, `last_sync_time`
becomes the poll's clock reading and `remote_time_` records it; when it does not,
nothing is published and `last_sync_time` is unchanged. A poll that reads no input
on an unconfigured node publishes nothing. -/
theorem resync_schedule (cfg : Config) (h : Heap) (t : Nat) (s : NodeHandle) :
    (connected s = true → usub cfg t s.last_sync_receive_time ≤ SYNC_SECONDS * 2200 →
      ∃ s', spinOnce cfg h t [] s = .ok s'
        ∧ (usub cfg t s.last_sync_time > 2500 →
            s'.published = s.published ++ [(cfg.ID_TIME, OutMsg.time 0 0)]
            ∧ s'.last_sync_time = t ∧ s'.remote_time_ = t)
        ∧ (¬ usub cfg t s.last_sync_time > 2500 →
            s'.published = s.published ∧ s'.last_sync_time = s.last_sync_time
            ∧ s'.remote_time_ = s.remote_time_))
    ∧ (connected s = false →
      ∃ s', spinOnce cfg h t [] s = .ok s'
        ∧ s'.published = s.published ∧ s'.last_sync_time = s.last_sync_time) := by
  constructor
  · intro hc hlive
    have hl : livenessCheck cfg t s = s := by
      unfold livenessCheck
      rw [if_neg (Nat.not_lt.mpr hlive)]
    have hcfg : (timeoutCheck t s).configured_ = true := by
      rw [timeoutCheck_configured_]; exact hc
    refine ⟨_, spinOnce_idle cfg h t s, ?_, ?_⟩
    · intro hgt
      have hcond : (timeoutCheck t s).configured_ = true
          ∧ usub cfg t (timeoutCheck t s).last_sync_time > SYNC_SECONDS * 500 := by
        refine ⟨hcfg, ?_⟩
        rw [timeoutCheck_last_sync_time]
        simpa [SYNC_SECONDS] using hgt
      rw [hl]
      unfold resyncCheck
      rw [if_pos hcond]
      simp [requestSyncTime, nodeOutputPublish]
    · intro hle
      have hcond : ¬ ((timeoutCheck t s).configured_ = true
          ∧ usub cfg t (timeoutCheck t s).last_sync_time > SYNC_SECONDS * 500) := by
        rintro ⟨_, hgt⟩
        rw [timeoutCheck_last_sync_time] at hgt
        exact hle (by simpa [SYNC_SECONDS] using hgt)
      rw [hl]
      unfold resyncCheck
      rw [if_neg hcond]
      simp
  · intro hc
    have hc' : s.configured_ = false := hc
    have hcfg : (timeoutCheck t (livenessCheck cfg t s)).configured_ = false := by
      rw [timeoutCheck_configured_]
      unfold livenessCheck
      split
      · rfl
      · exact hc'
    refine ⟨_, spinOnce_idle cfg h t s, ?_, ?_⟩
    · unfold resyncCheck
      rw [if_neg (by rw [hcfg]; simp)]
      simp
    · unfold resyncCheck
      rw [if_neg (by rw [hcfg]; simp)]
      simp

theorem resync_schedule_witness :
    ∃ s', spinOnce defaultConfig oneSubscriber.2.2 4000 [] negotiatedNode = .ok s'
      ∧ (usub defaultConfig 4000 negotiatedNode.last_sync_time > 2500 →
          s'.published = negotiatedNode.published ++ [(defaultConfig.ID_TIME, OutMsg.time 0 0)]
          ∧ s'.last_sync_time = 4000 ∧ s'.remote_time_ = 4000)
      ∧ (¬ usub defaultConfig 4000 negotiatedNode.last_sync_time > 2500 →
          s'.published = negotiatedNode.published
          ∧ s'.last_sync_time = negotiatedNode.last_sync_time
          ∧ s'.remote_time_ = negotiatedNode.remote_time_) :=
  (resync_schedule defaultConfig oneSubscriber.2.2 4000 negotiatedNode).1 rfl (by decide)

/-! ## Order of the steps of a poll -/

theorem dispatch_last_sync_receive_time (cfg : Config) (h : Heap) (t : Nat)
    (s s' : NodeHandle) (hd : dispatch cfg h t s = .ok s') :
    s'.last_sync_receive_time = s.last_sync_receive_time ∨ s'.last_sync_receive_time = t := by
  unfold dispatch at hd
  split at hd
  · simp only [Except.ok.injEq] at hd
    subst hd; right; rfl
  · split at hd
    · simp only [Except.ok.injEq] at hd
      subst hd; right; rfl
    · split at hd
      · simp only [Except.ok.injEq] at hd
        subst hd; left; rfl
      · split at hd
        · split at hd
          · simp only [Except.ok.injEq] at hd
            subst hd; left; rfl
          · simp only [Except.ok.injEq] at hd
            subst hd; left; rfl
        · exact Except.noConfusion hd

theorem spinByte_last_sync_receive_time (cfg : Config) (h : Heap) (t b : Nat)
    (s s' : NodeHandle) (hb : spinByte cfg h t b s = .ok s') :
    s'.last_sync_receive_time = s.last_sync_receive_time ∨ s'.last_sync_receive_time = t := by
  by_cases h6 : s.state_ = STATE_MESSAGE
  · simp only [spinByte, h6, if_true] at hb
    split at hb
    · split at hb <;> (simp only [Except.ok.injEq] at hb; subst hb; left; rfl)
    · exact Except.noConfusion hb
  by_cases h0 : s.state_ = STATE_FIRST_FF
  · simp only [spinByte, h0, STATE_FIRST_FF, STATE_SECOND_FF, STATE_TOPIC_L, STATE_TOPIC_H, STATE_SIZE_L, STATE_SIZE_H, STATE_MESSAGE, STATE_CHECKSUM] at hb
    norm_num at hb
    split at hb <;> (simp only [Except.ok.injEq] at hb; subst hb; left; rfl)
  by_cases h1 : s.state_ = STATE_SECOND_FF
  · simp only [spinByte, h1, STATE_FIRST_FF, STATE_SECOND_FF, STATE_TOPIC_L, STATE_TOPIC_H, STATE_SIZE_L, STATE_SIZE_H, STATE_MESSAGE, STATE_CHECKSUM] at hb
    norm_num at hb
    split at hb <;> (simp only [Except.ok.injEq] at hb; subst hb; left; rfl)
  by_cases h2 : s.state_ = STATE_TOPIC_L
  · simp only [spinByte, h2, STATE_FIRST_FF, STATE_SECOND_FF, STATE_TOPIC_L, STATE_TOPIC_H, STATE_SIZE_L, STATE_SIZE_H, STATE_MESSAGE, STATE_CHECKSUM] at hb
    norm_num at hb
    subst hb; left; rfl
  by_cases h3 : s.state_ = STATE_TOPIC_H
  · simp only [spinByte, h3, STATE_FIRST_FF, STATE_SECOND_FF, STATE_TOPIC_L, STATE_TOPIC_H, STATE_SIZE_L, STATE_SIZE_H, STATE_MESSAGE, STATE_CHECKSUM] at hb
    norm_num at hb
    subst hb; left; rfl
  by_cases h4 : s.state_ = STATE_SIZE_L
  · simp only [spinByte, h4, STATE_FIRST_FF, STATE_SECOND_FF, STATE_TOPIC_L, STATE_TOPIC_H, STATE_SIZE_L, STATE_SIZE_H, STATE_MESSAGE, STATE_CHECKSUM] at hb
    norm_num at hb
    subst hb; left; rfl
  by_cases h5 : s.state_ = STATE_SIZE_H
  · simp only [spinByte, h5, STATE_FIRST_FF, STATE_SECOND_FF, STATE_TOPIC_L, STATE_TOPIC_H, STATE_SIZE_L, STATE_SIZE_H, STATE_MESSAGE, STATE_CHECKSUM] at hb
    norm_num at hb
    split at hb <;> (simp only [Except.ok.injEq] at hb; subst hb; left; rfl)
  by_cases h7 : s.state_ = STATE_CHECKSUM
  · simp only [spinByte, h7, STATE_FIRST_FF, STATE_SECOND_FF, STATE_TOPIC_L, STATE_TOPIC_H, STATE_SIZE_L, STATE_SIZE_H, STATE_MESSAGE, STATE_CHECKSUM] at hb
    norm_num at hb
    split at hb
    · split at hb
      · rename_i s1 hdis
        simp only [Except.ok.injEq] at hb
        subst hb
        have hres := dispatch_last_sync_receive_time cfg h t _ s1 hdis
        exact hres
      · exact Except.noConfusion hb
    · simp only [Except.ok.injEq] at hb; subst hb; left; rfl
  · simp only [spinByte, h6, h0, h1, h2, h3, h4, h5, h7, if_false, Except.ok.injEq] at hb
    subst hb; left; rfl

theorem drain_last_sync_receive_time (cfg : Config) (h : Heap) (t : Nat) (bs : List Nat) :
    ∀ (s s' : NodeHandle), drain cfg h t bs s = .ok s' →
      s'.last_sync_receive_time = s.last_sync_receive_time
        ∨ s'.last_sync_receive_time = t := by
  induction bs with
  | nil =>
    intro s s' hd
    simp only [drain, Except.ok.injEq] at hd
    subst hd; left; rfl
  | cons b bs ih =>
    intro s s' hd
    rw [drain] at hd
    cases hb : spinByte cfg h t b s with
    | error e => rw [hb] at hd; exact Except.noConfusion hd
    | ok s1 =>
      rw [hb] at hd
      rcases ih s1 s' hd with h1 | h1
      · rcases spinByte_last_sync_receive_time cfg h t b s s1 hb with h2 | h2
        · left; rw [h1, h2]
        · right; rw [h1, h2]
      · right; exact h1

/-- C16 (amended). Poll order: `spinOnce` performs the liveness check first, on the
state found at poll entry, then the stale-frame timeout check, then the drain of the
input through parser and dispatcher, and only then the resync schedule on the state
left by the drain; it agrees with the order timeout, drain, liveness, resync
whenever `now - last_sync_receive_time` at poll entry is at most `11000`; and when
that difference is above `11000`, the node is not configured after the poll unless
the poll hands a negotiation frame to the dispatcher, also when the poll processes a
valid time-sync reply. -/
theorem poll_order (cfg : Config) (h : Heap) (t : Nat) (input : List Nat) (s : NodeHandle) :
    (spinOnce cfg h t input s
        = match drain cfg h t input (timeoutCheck t (livenessCheck cfg t s)) with
          | .ok s1 => .ok (resyncCheck cfg t s1)
          | .error e => .error e)
    ∧ (usub cfg t s.last_sync_receive_time ≤ SYNC_SECONDS * 2200 →
        spinOnce cfg h t input s = spinOnceSpecOrder cfg h t input s)
    ∧ (usub cfg t s.last_sync_receive_time > SYNC_SECONDS * 2200 →
        TOPIC_NEGOTIATION ∉
          dispatchedTopics cfg h t input (timeoutCheck t (livenessCheck cfg t s)) →
        ∀ s', spinOnce cfg h t input s = .ok s' → connected s' = false) := by
  refine ⟨rfl, ?_, ?_⟩
  · intro hle
    have hl : livenessCheck cfg t s = s := by
      unfold livenessCheck
      rw [if_neg (Nat.not_lt.mpr hle)]
    unfold spinOnce spinOnceSpecOrder
    rw [hl]
    cases hd : drain cfg h t input (timeoutCheck t s) with
    | error e => rfl
    | ok s1 =>
      have hl1 : livenessCheck cfg t s1 = s1 := by
        unfold livenessCheck
        rcases drain_last_sync_receive_time cfg h t input _ s1 hd with h1 | h1
        · rw [h1, timeoutCheck_last_sync_receive_time, if_neg (Nat.not_lt.mpr hle)]
        · rw [h1, usub_self]
          simp [SYNC_SECONDS]
      simp only [hl1]
  · intro hgt hno s' hsp
    exact spinOnce_stays_unconfigured cfg h t input s s' hsp hno (Or.inl hgt)

theorem poll_order_witness :
    spinOnce defaultConfig oneSubscriber.2.2 5000 timeReplyFrame negotiatedNode
      = spinOnceSpecOrder defaultConfig oneSubscriber.2.2 5000 timeReplyFrame negotiatedNode :=
  (poll_order defaultConfig oneSubscriber.2.2 5000 timeReplyFrame negotiatedNode).2.1
    (by decide)

/-- C16 (as stated) fails: the configured node that last heard from the host at
clock reading 1000 polls at reading 20000 and processes a valid time-sync reply
(`last_sync_receive_time` becomes 20000); `spinOnce` leaves it unconfigured, while
the order timeout, drain, liveness, resync leaves it configured. -/
theorem poll_order_liveness_first :
    connected negotiatedNode = true
    ∧ negotiatedNode.last_sync_receive_time = 1000
    ∧ (spinOnce defaultConfig oneSubscriber.2.2 20000 timeReplyFrame negotiatedNode).map
        (fun s => (connected s, s.last_sync_receive_time)) = .ok (false, 20000)
    ∧ (spinOnceSpecOrder defaultConfig oneSubscriber.2.2 20000 timeReplyFrame
        negotiatedNode).map
        (fun s => (connected s, s.last_sync_receive_time)) = .ok (true, 20000) := by
  refine ⟨rfl, rfl, ?_, ?_⟩
  · rfl
  · rfl

/-! ## Frame reassembly across polls -/

theorem negotiatePublishers_loopView (cfg : Config) (h : Heap) :
    ∀ (fuel i : Nat) (s : NodeHandle),
      loopView (negotiatePublishers cfg h s fuel i) = loopView s := by
  intro fuel
  induction fuel with
  | zero => intro i s; rfl
  | succ n ih =>
    intro i s
    rw [negotiatePublishers]
    split
    · rw [ih]; rfl
    · rfl

theorem negotiateReceivers_loopView (cfg : Config) (h : Heap) :
    ∀ (fuel i : Nat) (s : NodeHandle),
      loopView (negotiateReceivers cfg h s fuel i) = loopView s := by
  intro fuel
  induction fuel with
  | zero => intro i s; rfl
  | succ n ih =>
    intro i s
    rw [negotiateReceivers]
    split
    · rw [ih]; rfl
    · rfl

theorem negotiateTopics_loopView (cfg : Config) (h : Heap) (s : NodeHandle) :
    loopView (negotiateTopics cfg h s) = loopView s := by
  unfold negotiateTopics
  show loopView (negotiateReceivers cfg h _ cfg.MAX_SUBSCRIBERS 0) = _
  rw [negotiateReceivers_loopView, negotiatePublishers_loopView]
  rfl

theorem loopView_fields (s s' : NodeHandle) (hv : loopView s = loopView s') :
    s.state_ = s'.state_ ∧ s.topic_ = s'.topic_
    ∧ s.remaining_data_bytes_ = s'.remaining_data_bytes_ ∧ s.data_index_ = s'.data_index_
    ∧ s.checksum_ = s'.checksum_ ∧ s.message_in = s'.message_in
    ∧ s.received = s'.received ∧ s.receivers = s'.receivers := by
  simp only [loopView, reassemblyView, Prod.mk.injEq] at hv
  obtain ⟨⟨⟨h1, h2, h3, h4, h5, h6⟩, h7⟩, h8⟩ := hv
  exact ⟨h1, h2, h3, h4, h5, h6, h7, h8⟩

theorem dispatch_sameOutcome (cfg : Config) (h : Heap) (t t' : Nat) (s s' : NodeHandle)
    (hv : loopView s = loopView s') :
    sameOutcome (dispatch cfg h t s) (dispatch cfg h t' s') := by
  obtain ⟨-, htop, -, -, -, hmi, hrcvd, hrcv⟩ := loopView_fields s s' hv
  by_cases h0 : s.topic_ = TOPIC_NEGOTIATION
  · have h0' : s'.topic_ = TOPIC_NEGOTIATION := by rw [← htop]; exact h0
    simp only [dispatch, if_pos h0, if_pos h0']
    show loopView (negotiateTopics cfg h (requestSyncTime cfg t s))
      = loopView (negotiateTopics cfg h (requestSyncTime cfg t' s'))
    rw [negotiateTopics_loopView, negotiateTopics_loopView]
    exact hv
  have h0' : ¬ s'.topic_ = TOPIC_NEGOTIATION := by rw [← htop]; exact h0
  by_cases h1 : s.topic_ = cfg.ID_TIME
  · have h1' : s'.topic_ = cfg.ID_TIME := by rw [← htop]; exact h1
    simp only [dispatch, if_neg h0, if_neg h0', if_pos h1, if_pos h1']
    exact hv
  have h1' : ¬ s'.topic_ = cfg.ID_TIME := by rw [← htop]; exact h1
  by_cases h2 : s.topic_ = cfg.ID_PARAMETER_REQUEST
  · have h2' : s'.topic_ = cfg.ID_PARAMETER_REQUEST := by rw [← htop]; exact h2
    simp only [dispatch, if_neg h0, if_neg h0', if_neg h1, if_neg h1', if_pos h2, if_pos h2']
    exact hv
  have h2' : ¬ s'.topic_ = cfg.ID_PARAMETER_REQUEST := by rw [← htop]; exact h2
  by_cases h3 : 0 ≤ s.topic_ - 100 ∧ s.topic_ - 100 < (cfg.MAX_SUBSCRIBERS : Int)
  · have h3' : 0 ≤ s'.topic_ - 100 ∧ s'.topic_ - 100 < (cfg.MAX_SUBSCRIBERS : Int) := by
      rw [← htop]; exact h3
    have hr' : s'.receivers.getD (s'.topic_ - 100).toNat none
        = s.receivers.getD (s.topic_ - 100).toNat none := by rw [htop, hrcv]
    simp only [dispatch, if_neg h0, if_neg h0', if_neg h1, if_neg h1', if_neg h2, if_neg h2',
      if_pos h3, if_pos h3', hr']
    cases hr : s.receivers.getD (s.topic_ - 100).toNat none with
    | none => exact hv
    | some r =>
      show loopView _ = loopView _
      simp only [loopView, reassemblyView, Prod.mk.injEq] at hv ⊢
      obtain ⟨⟨⟨h1', h2', h3', h4', h5', h6'⟩, h7'⟩, h8'⟩ := hv
      exact ⟨⟨⟨h1', h2', h3', h4', h5', h6'⟩, by rw [h7', h6']⟩, h8'⟩
  · have h3' : ¬ (0 ≤ s'.topic_ - 100 ∧ s'.topic_ - 100 < (cfg.MAX_SUBSCRIBERS : Int)) := by
      rw [← htop]; exact h3
    simp only [dispatch, if_neg h0, if_neg h0', if_neg h1, if_neg h1', if_neg h2, if_neg h2',
      if_neg h3, if_neg h3']
    rfl

@[simp] theorem sameOutcome_ok (x y : NodeHandle) :
    sameOutcome (.ok x) (.ok y) ↔ loopView x = loopView y := Iff.rfl

@[simp] theorem sameOutcome_error (e f : Fault) :
    sameOutcome (.error e) (.error f) ↔ e = f := Iff.rfl

theorem spinByte_checksum_dispatch (cfg : Config) (h : Heap) (t c : Nat) (s : NodeHandle)
    (hs : s.state_ = STATE_CHECKSUM) (hc : Int.tmod (s.checksum_ + (c : Int)) 256 = 255) :
    spinByte cfg h t c s =
      match dispatch cfg h t { s with checksum_ := s.checksum_ + (c : Int) } with
      | .ok s1 => .ok { s1 with state_ := STATE_FIRST_FF }
      | .error e => .error e := by
  simp [spinByte, hs, hc, STATE_FIRST_FF, STATE_SECOND_FF, STATE_TOPIC_L, STATE_TOPIC_H, STATE_SIZE_L, STATE_SIZE_H, STATE_MESSAGE, STATE_CHECKSUM]

theorem spinByte_sameOutcome (cfg : Config) (h : Heap) (t t' b : Nat) (s s' : NodeHandle)
    (hv : loopView s = loopView s') :
    sameOutcome (spinByte cfg h t b s) (spinByte cfg h t' b s') := by
  obtain ⟨hst, htop, hrem, hidx, hck, hmi, hrcvd, hrcv⟩ := loopView_fields s s' hv
  by_cases h6 : s.state_ = STATE_MESSAGE
  · have h6' : s'.state_ = STATE_MESSAGE := by rw [← hst]; exact h6
    by_cases hb : 0 ≤ s.data_index_ ∧ s.data_index_ < (cfg.INPUT_SIZE : Int)
    · have hb' : 0 ≤ s'.data_index_ ∧ s'.data_index_ < (cfg.INPUT_SIZE : Int) := by
        rw [← hidx]; exact hb
      by_cases hz : s.remaining_data_bytes_ - 1 = 0
      · have hz' : s'.remaining_data_bytes_ - 1 = 0 := by rw [← hrem]; exact hz
        simp only [spinByte, h6, h6', if_true, if_pos hb, if_pos hb', if_pos hz, if_pos hz']
        simp [loopView, reassemblyView, htop, hrem, hidx, hck, hmi, hrcvd, hrcv]
      · have hz' : ¬ s'.remaining_data_bytes_ - 1 = 0 := by rw [← hrem]; exact hz
        simp only [spinByte, h6, h6', if_true, if_pos hb, if_pos hb', if_neg hz, if_neg hz']
        simp [loopView, reassemblyView, htop, hrem, hidx, hck, hmi, hrcvd, hrcv]
    · have hb' : ¬ (0 ≤ s'.data_index_ ∧ s'.data_index_ < (cfg.INPUT_SIZE : Int)) := by
        rw [← hidx]; exact hb
      simp only [spinByte, h6, h6', if_true, if_neg hb, if_neg hb']
      rfl
  by_cases h0 : s.state_ = STATE_FIRST_FF
  · have h0' : s'.state_ = STATE_FIRST_FF := by rw [← hst]; exact h0
    by_cases hff : b = 255
    · subst hff
      simp [spinByte, h0, h0', STATE_FIRST_FF, STATE_SECOND_FF, STATE_TOPIC_L, STATE_TOPIC_H, STATE_SIZE_L, STATE_SIZE_H, STATE_MESSAGE, STATE_CHECKSUM, loopView, reassemblyView, htop, hrem, hidx, hck, hmi, hrcvd, hrcv]
    · simp [hff, spinByte, h0, h0', STATE_FIRST_FF, STATE_SECOND_FF, STATE_TOPIC_L, STATE_TOPIC_H, STATE_SIZE_L, STATE_SIZE_H, STATE_MESSAGE, STATE_CHECKSUM, loopView, reassemblyView, htop, hrem, hidx, hck, hmi, hrcvd, hrcv]
  by_cases h1 : s.state_ = STATE_SECOND_FF
  · have h1' : s'.state_ = STATE_SECOND_FF := by rw [← hst]; exact h1
    by_cases hff : b = 255
    · subst hff
      simp [spinByte, h1, h1', STATE_FIRST_FF, STATE_SECOND_FF, STATE_TOPIC_L, STATE_TOPIC_H, STATE_SIZE_L, STATE_SIZE_H, STATE_MESSAGE, STATE_CHECKSUM, loopView, reassemblyView, htop, hrem, hidx, hck, hmi, hrcvd, hrcv]
    · simp [hff, spinByte, h1, h1', STATE_FIRST_FF, STATE_SECOND_FF, STATE_TOPIC_L, STATE_TOPIC_H, STATE_SIZE_L, STATE_SIZE_H, STATE_MESSAGE, STATE_CHECKSUM, loopView, reassemblyView, htop, hrem, hidx, hck, hmi, hrcvd, hrcv]
  by_cases h2 : s.state_ = STATE_TOPIC_L
  · have h2' : s'.state_ = STATE_TOPIC_L := by rw [← hst]; exact h2
    simp [spinByte, h2, h2', STATE_FIRST_FF, STATE_SECOND_FF, STATE_TOPIC_L, STATE_TOPIC_H, STATE_SIZE_L, STATE_SIZE_H, STATE_MESSAGE, STATE_CHECKSUM, loopView, reassemblyView, htop, hrem, hidx, hck, hmi, hrcvd, hrcv]
  by_cases h3 : s.state_ = STATE_TOPIC_H
  · have h3' : s'.state_ = STATE_TOPIC_H := by rw [← hst]; exact h3
    simp [spinByte, h3, h3', STATE_FIRST_FF, STATE_SECOND_FF, STATE_TOPIC_L, STATE_TOPIC_H, STATE_SIZE_L, STATE_SIZE_H, STATE_MESSAGE, STATE_CHECKSUM, loopView, reassemblyView, htop, hrem, hidx, hck, hmi, hrcvd, hrcv]
  by_cases h4 : s.state_ = STATE_SIZE_L
  · have h4' : s'.state_ = STATE_SIZE_L := by rw [← hst]; exact h4
    simp [spinByte, h4, h4', STATE_FIRST_FF, STATE_SECOND_FF, STATE_TOPIC_L, STATE_TOPIC_H, STATE_SIZE_L, STATE_SIZE_H, STATE_MESSAGE, STATE_CHECKSUM, loopView, reassemblyView, htop, hrem, hidx, hck, hmi, hrcvd, hrcv]
  by_cases h5 : s.state_ = STATE_SIZE_H
  · have h5' : s'.state_ = STATE_SIZE_H := by rw [← hst]; exact h5
    by_cases hz : s.remaining_data_bytes_ + (b : Int) * 256 = 0
    · have hz' : s'.remaining_data_bytes_ + (b : Int) * 256 = 0 := by rw [← hrem]; exact hz
      simp [hz, hz', spinByte, h5, h5', STATE_FIRST_FF, STATE_SECOND_FF, STATE_TOPIC_L, STATE_TOPIC_H, STATE_SIZE_L, STATE_SIZE_H, STATE_MESSAGE, STATE_CHECKSUM, loopView, reassemblyView, htop, hrem, hidx, hck, hmi, hrcvd, hrcv]
    · have hz' : ¬ s'.remaining_data_bytes_ + (b : Int) * 256 = 0 := by rw [← hrem]; exact hz
      simp [hz, hz', spinByte, h5, h5', STATE_FIRST_FF, STATE_SECOND_FF, STATE_TOPIC_L, STATE_TOPIC_H, STATE_SIZE_L, STATE_SIZE_H, STATE_MESSAGE, STATE_CHECKSUM, loopView, reassemblyView, htop, hrem, hidx, hck, hmi, hrcvd, hrcv]
  by_cases h7 : s.state_ = STATE_CHECKSUM
  · have h7' : s'.state_ = STATE_CHECKSUM := by rw [← hst]; exact h7
    by_cases hc : Int.tmod (s.checksum_ + (b : Int)) 256 = 255
    · have hc' : Int.tmod (s'.checksum_ + (b : Int)) 256 = 255 := by rw [← hck]; exact hc
      rw [spinByte_checksum_dispatch cfg h t b s h7 hc,
        spinByte_checksum_dispatch cfg h t' b s' h7' hc']
      have hx : loopView { s with checksum_ := s.checksum_ + (b : Int) }
          = loopView { s' with checksum_ := s'.checksum_ + (b : Int) } := by
        simp [loopView, reassemblyView, hst, htop, hrem, hidx, hck, hmi, hrcvd, hrcv]
      have hd := dispatch_sameOutcome cfg h t t' _ _ hx
      cases hd1 : dispatch cfg h t { s with checksum_ := s.checksum_ + (b : Int) } with
      | error e =>
        cases hd2 : dispatch cfg h t' { s' with checksum_ := s'.checksum_ + (b : Int) } with
        | error f => rw [hd1, hd2] at hd; exact hd
        | ok y => rw [hd1, hd2] at hd; exact hd.elim
      | ok x =>
        cases hd2 : dispatch cfg h t' { s' with checksum_ := s'.checksum_ + (b : Int) } with
        | error f => rw [hd1, hd2] at hd; exact hd.elim
        | ok y =>
          rw [hd1, hd2] at hd
          obtain ⟨-, e2, e3, e4, e5, e6, e7, e8⟩ := loopView_fields x y hd
          simp [loopView, reassemblyView, e2, e3, e4, e5, e6, e7, e8]
    · have hc' : ¬ Int.tmod (s'.checksum_ + (b : Int)) 256 = 255 := by rw [← hck]; exact hc
      simp [spinByte, h7, h7', hc, hc', STATE_FIRST_FF, STATE_SECOND_FF, STATE_TOPIC_L, STATE_TOPIC_H, STATE_SIZE_L, STATE_SIZE_H, STATE_MESSAGE, STATE_CHECKSUM, loopView, reassemblyView, htop, hrem, hidx,
        hck, hmi, hrcvd, hrcv]
  · have h6' : ¬ s'.state_ = STATE_MESSAGE := by rw [← hst]; exact h6
    have h0' : ¬ s'.state_ = STATE_FIRST_FF := by rw [← hst]; exact h0
    have h1' : ¬ s'.state_ = STATE_SECOND_FF := by rw [← hst]; exact h1
    have h2' : ¬ s'.state_ = STATE_TOPIC_L := by rw [← hst]; exact h2
    have h3' : ¬ s'.state_ = STATE_TOPIC_H := by rw [← hst]; exact h3
    have h4' : ¬ s'.state_ = STATE_SIZE_L := by rw [← hst]; exact h4
    have h5' : ¬ s'.state_ = STATE_SIZE_H := by rw [← hst]; exact h5
    have h7' : ¬ s'.state_ = STATE_CHECKSUM := by rw [← hst]; exact h7
    simp only [spinByte, h6, h0, h1, h2, h3, h4, h5, h7, h6', h0', h1', h2', h3', h4', h5', h7',
      if_false, sameOutcome_ok]
    simp [loopView, reassemblyView, hst, htop, hrem, hidx, hck, hmi, hrcvd, hrcv]

theorem drain_sameOutcome (cfg : Config) (h : Heap) (t t' : Nat) (bs : List Nat) :
    ∀ (s s' : NodeHandle), loopView s = loopView s' →
      sameOutcome (drain cfg h t bs s) (drain cfg h t' bs s') := by
  induction bs with
  | nil => intro s s' hv; exact hv
  | cons b bs ih =>
    intro s s' hv
    have hb := spinByte_sameOutcome cfg h t t' b s s' hv
    rw [drain, drain]
    cases h1 : spinByte cfg h t b s with
    | error e =>
      cases h2 : spinByte cfg h t' b s' with
      | error f => rw [h1, h2] at hb; exact hb
      | ok y => rw [h1, h2] at hb; exact hb.elim
    | ok x =>
      cases h2 : spinByte cfg h t' b s' with
      | error f => rw [h1, h2] at hb; exact hb.elim
      | ok y =>
        rw [h1, h2] at hb
        exact ih x y hb

theorem loopView_resyncCheck (cfg : Config) (t : Nat) (s : NodeHandle) :
    loopView (resyncCheck cfg t s) = loopView s := by
  simp [loopView, reassemblyView]

theorem loopView_livenessCheck (cfg : Config) (t : Nat) (s : NodeHandle) :
    loopView (livenessCheck cfg t s) = loopView s := by
  simp [loopView, reassemblyView]

theorem timeoutCheck_fresh (t : Nat) (s : NodeHandle)
    (hno : ¬ (s.state_ ≠ STATE_FIRST_FF ∧ t > s.last_msg_timeout_time)) :
    timeoutCheck t s = s := by
  unfold timeoutCheck
  rw [if_neg hno]

theorem runPolls_sameOutcome (cfg : Config) (h : Heap) (t : Nat)
    (polls : List (Nat × List Nat)) :
    ∀ (s s0 : NodeHandle), loopView s = loopView s0 → noStaleTimeout cfg h polls s →
      sameOutcome (runPolls cfg h polls s) (drain cfg h t (polls.map Prod.snd).flatten s0) := by
  induction polls with
  | nil => intro s s0 hv _; exact hv
  | cons p ps ih =>
    intro s s0 hv hno
    rw [noStaleTimeout] at hno
    obtain ⟨hentry, hrest⟩ := hno
    have hto : timeoutCheck p.1 (livenessCheck cfg p.1 s) = livenessCheck cfg p.1 s := by
      apply timeoutCheck_fresh
      simpa using hentry
    have hd := drain_sameOutcome cfg h p.1 t p.2 (livenessCheck cfg p.1 s) s0
      ((loopView_livenessCheck cfg p.1 s).trans hv)
    simp only [List.map_cons, List.flatten_cons]
    rw [drain_append, runPolls]
    unfold spinOnce at hrest ⊢
    rw [hto] at hrest ⊢
    cases h1 : drain cfg h p.1 p.2 (livenessCheck cfg p.1 s) with
    | error e =>
      cases h2 : drain cfg h t p.2 s0 with
      | error f => rw [h1, h2] at hd; exact hd
      | ok y => rw [h1, h2] at hd; exact hd.elim
    | ok x =>
      cases h2 : drain cfg h t p.2 s0 with
      | error f => rw [h1, h2] at hd; exact hd.elim
      | ok y =>
        rw [h1, h2] at hd
        rw [h1] at hrest
        exact ih (resyncCheck cfg p.1 x) y ((loopView_resyncCheck cfg p.1 x).trans hd) hrest

/-- C19. Frame reassembly across polls: when a byte sequence is read in consecutive
chunks by successive polls, none of which is entered with a frame in progress and a
clock reading above the deadline stored at the frame's first sync byte, the final
parser state and the sequence of receiver invocations (which receiver, which buffer,
in arrival order), or the fault, are the same as when one poll reads the whole
sequence. -/
theorem reassembly_across_polls (cfg : Config) (h : Heap) (polls : List (Nat × List Nat))
    (t : Nat) (s : NodeHandle) (hpolls : noStaleTimeout cfg h polls s)
    (hsingle : ¬ (s.state_ ≠ STATE_FIRST_FF ∧ t > s.last_msg_timeout_time)) :
    (runPolls cfg h polls s).map reassemblyView
      = (spinOnce cfg h t (polls.map Prod.snd).flatten s).map reassemblyView := by
  have hto : timeoutCheck t (livenessCheck cfg t s) = livenessCheck cfg t s := by
    apply timeoutCheck_fresh
    simpa using hsingle
  have hd := runPolls_sameOutcome cfg h t polls s (livenessCheck cfg t s)
    (loopView_livenessCheck cfg t s).symm hpolls
  unfold spinOnce
  rw [hto]
  cases h1 : runPolls cfg h polls s with
  | error e =>
    cases h2 : drain cfg h t (polls.map Prod.snd).flatten (livenessCheck cfg t s) with
    | error f =>
      rw [h1, h2] at hd
      have hef : e = f := hd
      rw [hef]
    | ok y => rw [h1, h2] at hd; exact hd.elim
  | ok x =>
    cases h2 : drain cfg h t (polls.map Prod.snd).flatten (livenessCheck cfg t s) with
    | error f => rw [h1, h2] at hd; exact hd.elim
    | ok y =>
      rw [h1, h2] at hd
      have hxy : loopView x = loopView y := hd
      have hy := (loopView_resyncCheck cfg t y)
      have hfin : reassemblyView x = reassemblyView (resyncCheck cfg t y) := by
        have := hxy.trans hy.symm
        simp only [loopView, Prod.mk.injEq] at this
        exact this.1
      show Except.ok (reassemblyView x) = Except.ok (reassemblyView (resyncCheck cfg t y))
      rw [hfin]

theorem splitFramePolls_fresh :
    noStaleTimeout defaultConfig oneSubscriber.2.2 splitFramePolls oneSubscriber.2.1 := by
  refine ⟨?_, ?_, ?_⟩
  · decide
  · decide
  · trivial

theorem reassembly_across_polls_witness :
    (runPolls defaultConfig oneSubscriber.2.2 splitFramePolls oneSubscriber.2.1).map
        reassemblyView
      = (spinOnce defaultConfig oneSubscriber.2.2 1000
          (splitFramePolls.map Prod.snd).flatten oneSubscriber.2.1).map reassemblyView :=
  reassembly_across_polls defaultConfig oneSubscriber.2.2 splitFramePolls 1000
    oneSubscriber.2.1 splitFramePolls_fresh (by decide)

/-! ## Frame timeout at the clock's wrap point -/

/-- C18. The frame timeout is not wrap tolerant (32-bit `unsigned long`): a frame
whose first sync byte is read at clock reading `2^32 - 10` gets the deadline 10, so a
poll 5 ms later (reading `2^32 - 5`) resets the parser and the frame
`FF FF 64 00 03 00 01 | 02 03 92` split over these two polls is not delivered; a
frame started at `2^32 - 30` gets the deadline `2^32 - 10`, so a poll 35 ms later
(reading 5) does not reset the parser. -/
theorem frame_timeout_not_wrap_tolerant :
    ((pollOrKeep defaultConfig freshHeap 4294967286 [0xff] startNode).state_ = STATE_SECOND_FF
      ∧ (pollOrKeep defaultConfig freshHeap 4294967286 [0xff] startNode).last_msg_timeout_time
          = 10
      ∧ usub defaultConfig 4294967291 4294967286 = 5
      ∧ (timeoutCheck 4294967291
          (pollOrKeep defaultConfig freshHeap 4294967286 [0xff] startNode)).state_
          = STATE_FIRST_FF)
    ∧ ((runPolls defaultConfig oneSubscriber.2.2
          [(4294967286, [0xff, 0xff, 0x64, 0, 3, 0, 1]), (4294967291, [2, 3, 0x92])]
          oneSubscriber.2.1).map (fun s => s.received) = .ok []
      ∧ (spinOnce defaultConfig oneSubscriber.2.2 4294967286
          [0xff, 0xff, 0x64, 0, 3, 0, 1, 2, 3, 0x92] oneSubscriber.2.1).map
          (fun s => s.received.map (fun c => (c.1, c.2.take 3))) = .ok [(7, [1, 2, 3])])
    ∧ ((pollOrKeep defaultConfig freshHeap 4294967266 [0xff] startNode).state_ = STATE_SECOND_FF
      ∧ (pollOrKeep defaultConfig freshHeap 4294967266 [0xff] startNode).last_msg_timeout_time
          = 4294967286
      ∧ usub defaultConfig 5 4294967266 = 35
      ∧ (timeoutCheck 5
          (pollOrKeep defaultConfig freshHeap 4294967266 [0xff] startNode)).state_
          = STATE_SECOND_FF) := by
  refine ⟨⟨?_, ?_, ?_, ?_⟩, ⟨?_, ?_⟩, ⟨?_, ?_, ?_, ?_⟩⟩
  all_goals rfl

/-! ## Parameter fetch -/

theorem requestParamLoop_idle (cfg : Config) (h : Heap) (clock : Nat → Nat)
    (hmono : ∀ a b, a ≤ b → clock a ≤ clock b) :
    ∀ (fuel k : Nat) (s : NodeHandle), s.param_recieved = false →
      requestParamLoop cfg h clock (fun _ => []) (clock 0) fuel k s = none := by
  intro fuel
  induction fuel with
  | zero => intro k s _; rfl
  | succ n ih =>
    intro k s hs
    have hp : ¬ s.param_recieved = true := by rw [hs]; simp
    have hle : ¬ clock 0 > clock (2 * k + 2) := Nat.not_lt.mpr (hmono 0 _ (Nat.zero_le _))
    rw [requestParamLoop, if_neg hp, spinOnce_idle]
    simp only [if_neg hle]
    exact ih (k + 1) _ (by simpa using hs)

theorem requestParam_idle (cfg : Config) (h : Heap) (clock : Nat → Nat)
    (hmono : ∀ a b, a ≤ b → clock a ≤ clock b) (name : String) (time_out : Int)
    (fuel : Nat) (s : NodeHandle) :
    requestParam cfg h clock (fun _ => []) name time_out fuel s = none := by
  unfold requestParam
  exact requestParamLoop_idle cfg h clock hmono fuel 0 _ rfl

/-- C13. `requestParam` does not time out: on an idle link, with the strictly
increasing clock readings 1000, 1001, 1002, ... and `time_out = 30`, the loop of
`requestParam("missing", 30)` is still running after every number of iterations, and
so is `getParam("missing", ...)`. -/
theorem requestParam_never_times_out :
    ∀ fuel : Nat,
      requestParam defaultConfig freshHeap (fun k => 1000 + k) (fun _ => []) "missing" 30
          fuel startNode = none
      ∧ getParam defaultConfig freshHeap (fun k => 1000 + k) (fun _ => [])
          (fun _ => { ints := [], floats := [], strings := [] }) "missing" [0] 1
          fuel startNode = none := by
  intro fuel
  have hmono : ∀ a b : Nat, a ≤ b → (fun k => 1000 + k) a ≤ (fun k => 1000 + k) b := by
    intro a b hab
    simp only
    omega
  have h1 := requestParam_idle defaultConfig freshHeap (fun k => 1000 + k) hmono
  refine ⟨h1 "missing" 30 fuel startNode, ?_⟩
  unfold getParam
  rw [h1 "missing" 1000 fuel startNode]

theorem take_succ_set_gen {α : Type} : ∀ (buf : List α) (k : Nat) (b : α), k < buf.length →
    (buf.set k b).take (k + 1) = buf.take k ++ [b] := by
  intro buf
  induction buf with
  | nil => intro k b hk; simp at hk
  | cons a as ih =>
    intro k b hk
    cases k with
    | zero => simp
    | succ n =>
      simp only [List.length_cons] at hk
      simp [List.set, List.take, ih n b (by omega)]

theorem drop_succ_set_gen {α : Type} : ∀ (buf : List α) (k : Nat) (b : α),
    (buf.set k b).drop (k + 1) = buf.drop (k + 1) := by
  intro buf
  induction buf with
  | nil => intro k b; simp
  | cons a as ih =>
    intro k b
    cases k with
    | zero => simp
    | succ n => simp [List.set, ih n b]

theorem copyLoop_spec {α : Type} (src : List α) :
    ∀ (n i : Nat) (param : List α), i + n ≤ src.length → i + n ≤ param.length →
      (copyLoop src n i param).take (i + n) = param.take i ++ (src.drop i).take n
      ∧ (copyLoop src n i param).drop (i + n) = param.drop (i + n) := by
  intro n
  induction n with
  | zero => intro i param _ _; simp [copyLoop]
  | succ m ih =>
    intro i param hs hp
    have hi : i < src.length := by omega
    have hget : src[i]? = some src[i] := List.getElem?_eq_getElem hi
    rw [copyLoop, hget]
    simp only
    have hlen : (param.set i src[i]).length = param.length := by simp
    obtain ⟨h1, h2⟩ := ih (i + 1) (param.set i src[i]) (by omega) (by rw [hlen]; omega)
    have hidx : i + (m + 1) = i + 1 + m := by omega
    rw [hidx]
    constructor
    · rw [h1, take_succ_set_gen param i src[i] (by omega)]
      rw [List.drop_eq_getElem_cons hi, List.take_succ_cons, List.append_assoc]
      rfl
    · rw [h2]
      have hsplit : ∀ l : List α, l.drop (i + 1 + m) = (l.drop (i + 1)).drop m :=
        fun l => (List.drop_drop m (i + 1) l).symm
      rw [hsplit, hsplit, drop_succ_set_gen]

theorem getParamCopy_contract {α : Type} (resp param : List α) (n : Int) :
    lengthCheckContract resp n param (getParamCopy resp true param n) := by
  unfold lengthCheckContract getParamCopy
  by_cases hn : n = (resp.length : Int)
  · rw [if_pos rfl, if_pos hn]
    refine ⟨⟨fun _ => hn.symm, fun _ => rfl⟩, ?_, fun hne => absurd hn.symm hne⟩
    intro _ hlen
    have hto : n.toNat = resp.length := by rw [hn]; simp
    rw [hto] at hlen ⊢
    have hc := copyLoop_spec resp resp.length 0 param (by omega) (by omega)
    simp only [Nat.zero_add, List.take_zero, List.nil_append, List.drop_zero] at hc
    exact hc
  · rw [if_pos rfl, if_neg hn]
    refine ⟨⟨fun hf => Bool.noConfusion hf, fun he => absurd he.symm hn⟩, ?_, fun _ => rfl⟩
    intro hf
    exact Bool.noConfusion hf

/-- C14. `getParam` length check: when `requestParam` reports a received response,
`getParam(name, out, n)` for ints, floats and strings returns true iff the response's
array length for that type equals `n`; when it returns true the first `n` elements
of `out` (an array of at least `n` elements) equal the response's first `n` elements
in order and the rest of `out` is untouched; when the lengths differ it returns
false and leaves `out` unchanged. -/
theorem getParam_length_check (decode : List Nat → RequestParamResponse)
    (rp : Bool × NodeHandle) (n : Int) (hrec : rp.1 = true) :
    (∀ out : List Int,
      lengthCheckContract (decode rp.2.req_param_resp).ints n out
        (getParamInt decode rp out n))
    ∧ (∀ out : List Nat,
      lengthCheckContract (decode rp.2.req_param_resp).floats n out
        (getParamFloat decode rp out n))
    ∧ (∀ out : List String,
      lengthCheckContract (decode rp.2.req_param_resp).strings n out
        (getParamString decode rp out n)) := by
  refine ⟨?_, ?_, ?_⟩
  · intro out
    unfold getParamInt
    rw [hrec]
    exact getParamCopy_contract _ out n
  · intro out
    unfold getParamFloat
    rw [hrec]
    exact getParamCopy_contract _ out n
  · intro out
    unfold getParamString
    rw [hrec]
    exact getParamCopy_contract _ out n

theorem getParam_length_check_witness :
    lengthCheckContract [5, 6] 2 [0, 0, 9]
      (getParamInt (fun _ => { ints := [5, 6], floats := [], strings := [] })
        (true, startNode) [0, 0, 9] 2) :=
  (getParam_length_check (fun _ => { ints := [5, 6], floats := [], strings := [] })
    (true, startNode) 2 rfl).1 [0, 0, 9]

/-! ## `Publisher::publish` -/

/-- C20. `Publisher::publish` ignores its argument: for a publisher constructed with
bound message `b` and registered by a successful `advertise` in slot `i`, `publish(m)`
hands the output encoder exactly the pair (`100 + MAX_SUBSCRIBERS + i`, `b`), whatever
`m` is, and returns the encoder's result unchanged. -/
theorem publish_ignores_argument {σ : Type} (cfg : Config) (p : Nat) (s : NodeHandle)
    (h : Heap) (i : Nat) (topic_name msg_type : String) (b : Nat)
    (encoderPublish : Int → Nat → σ → Int × σ)
    (hctor : h.pubs p = Publisher.mk0 topic_name b msg_type)
    (hslot : lowestEmpty s.publishers cfg.MAX_PUBLISHERS i) :
    (advertise cfg p s h).1 = true
    ∧ ∀ (m : Nat) (out : σ),
        Publisher.publish encoderPublish ((advertise cfg p s h).2.2.pubs p) m out
          = some (encoderPublish (100 + (cfg.MAX_SUBSCRIBERS : Int) + (i : Int)) b out) := by
  rw [advertise_found cfg p s h i hslot]
  refine ⟨rfl, ?_⟩
  intro m out
  have hid : (i : Int) + 100 + (cfg.MAX_SUBSCRIBERS : Int)
      = 100 + (cfg.MAX_SUBSCRIBERS : Int) + (i : Int) := by omega
  simp only [Function.update_same, Publisher.publish, hctor, Publisher.mk0, hid]

theorem publish_ignores_argument_witness :
    (advertise defaultConfig 3 startNode freshHeap).1 = true
    ∧ ∀ (m : Nat) (out : NodeHandle),
        Publisher.publish (fun id msg o => (0, nodeOutputPublish id (OutMsg.bound msg) o))
            ((advertise defaultConfig 3 startNode freshHeap).2.2.pubs 3) m out
          = some ((fun id msg o => ((0 : Int), nodeOutputPublish id (OutMsg.bound msg) o))
              (100 + (defaultConfig.MAX_SUBSCRIBERS : Int) + ((0 : Nat) : Int)) 0 out) :=
  publish_ignores_argument defaultConfig 3 startNode freshHeap 0 "" "" 0
    (fun id msg o => (0, nodeOutputPublish id (OutMsg.bound msg) o)) rfl
    ⟨by decide, rfl, fun j hj => absurd hj (Nat.not_lt_zero j)⟩

end ros
